import Mathlib

/-!
# Irrigation recommendation algorithm

A shallow embedding of `src/backend/irrigationAlgorithm.js` (class
`IrrigationAlgorithm`) and theorems about it.

Modelling conventions.

* JavaScript numbers are modelled by an arbitrary linearly ordered field `α`
  with a floor function (the rationals and the reals are instances), so the
  arithmetic is exact: no rounding error, no infinities.  Every
  definition is computable, the instance `realMath` apart.
* `Math.exp` and `Math.sqrt` are library functions, not code of the
  repository; they are taken as a parameter `M : JsMath α`.  The instance
  `realMath` supplies the real exponential and the real square root.
* Destructuring defaults (`pressure = 101.3`, `daysSincePlanting = 60`,
  `area = 1`, `recentRainfall = 0`, `irrigationEfficiency = 0.85`) are the
  default values of the corresponding structure fields.  An optional
  `solarRadiation` is an `Option`.
* The object literals `CROP_COEFFICIENTS`, `SOIL_TYPES` and
  `GROWTH_STAGE_DURATION` are modelled by their own keys.  A key that is not
  an own key but names a member of `Object.prototype` (`inheritedMember`)
  makes a property access return that member instead of `undefined`.
* `Math.sqrt` of a negative number is `NaN`.  The functions `calculateET0`,
  `calculateNetRadiation`, `getGrowthStage`, `getCropCoefficient`,
  `calculateCropET` and `calculateSoilWaterBalance` are modelled for every
  input; a result of `none` there is a JavaScript value that is not a number
  (`NaN`, `undefined`, a function), or an object with such fields.
  The function `lookupSoilType` does the same for the soil profile of a key.
  The decision rules of `calculateIrrigationRequirement` are
  modelled on numbers: where the program computes `NaN` for the crop
  evapotranspiration, or reads a soil profile through a key that names an
  inherited member, the model (which continues with 0, and with the loamy
  profile) does not describe it.  A theorem whose statement depends on these
  values carries the hypothesis that the crop evapotranspiration is a number
  (`cropETValue` is `some`) or that the soil key yields a profile
  (`lookupSoilType` is `some`).
* The `reason` text is modelled by the list of its sentence fragments, each
  fragment carrying the number that the template literal interpolates.
-/

namespace IrrigationAlgorithm

/-! ## Library functions -/

/-- The two transcendental library functions used by the algorithm,
`Math.exp` and `Math.sqrt`. -/
structure JsMath (α : Type) where
  /-- `Math.exp`. -/
  exp : α → α
  /-- `Math.sqrt`. -/
  sqrt : α → α

/-- The function `Math.sqrt` with its domain: the result is `NaN`, here
`none`, for a negative argument. -/
def mathSqrt {α : Type} [LinearOrderedField α] (M : JsMath α) (x : α) : Option α :=
  if 0 ≤ x then some (M.sqrt x) else none

/-- `String.prototype.toLowerCase`, on the ASCII letters. -/
def toLowerCase (s : String) : String :=
  String.mk (s.data.map Char.toLower)

/-- `Math.round`: the nearest integer, a tie going to the larger one. -/
def mathRound {α : Type} [LinearOrderedField α] [FloorRing α] (x : α) : ℤ :=
  ⌊x + 1 / 2⌋

/-! ## Tables (lines 6 to 64) -/

/-- An object with one number per growth stage, in the order of its keys. -/
structure StageTable (α : Type) where
  initial : α
  development : α
  mid : α
  late : α
  harvest : α

/-- `Object.entries` of a stage table: the keys in insertion order. -/
def StageTable.entries {α : Type} (t : StageTable α) : List (String × α) :=
  [("initial", t.initial), ("development", t.development), ("mid", t.mid),
   ("late", t.late), ("harvest", t.harvest)]

/-- Property access `t[key]` among the own keys of a stage table. -/
def StageTable.get? {α : Type} (t : StageTable α) (key : String) : Option α :=
  t.entries.lookup key

/-- The property names of `Object.prototype`, which every object literal
inherits. -/
def objectPrototypeKeys : List String :=
  ["constructor", "__defineGetter__", "__defineSetter__", "hasOwnProperty",
   "__lookupGetter__", "__lookupSetter__", "isPrototypeOf", "propertyIsEnumerable",
   "toString", "valueOf", "__proto__", "toLocaleString"]

/-- Whether a key that is not an own key of an object literal still finds a
value, inherited from `Object.prototype`.  Such a value is truthy, has no
enumerable own property and none of the tables' fields. -/
def inheritedMember (key : String) : Bool :=
  decide (key ∈ objectPrototypeKeys)

/-- The entry `CROP_COEFFICIENTS.cotton`. -/
def CROP_COEFFICIENTS.cotton {α : Type} [LinearOrderedField α] : StageTable α :=
  { initial := 0.4, development := 0.7, mid := 1.15, late := 0.8, harvest := 0.6 }

/-- The entry `CROP_COEFFICIENTS.wheat`. -/
def CROP_COEFFICIENTS.wheat {α : Type} [LinearOrderedField α] : StageTable α :=
  { initial := 0.3, development := 0.7, mid := 1.0, late := 0.65, harvest := 0.2 }

/-- The entry `CROP_COEFFICIENTS.rice`. -/
def CROP_COEFFICIENTS.rice {α : Type} [LinearOrderedField α] : StageTable α :=
  { initial := 1.05, development := 1.1, mid := 1.1, late := 1.0, harvest := 0.95 }

/-- The table `CROP_COEFFICIENTS`, indexed by an own key. -/
def CROP_COEFFICIENTS {α : Type} [LinearOrderedField α] (key : String) :
    Option (StageTable α) :=
  if key = "cotton" then some CROP_COEFFICIENTS.cotton
  else if key = "wheat" then some CROP_COEFFICIENTS.wheat
  else if key = "rice" then some CROP_COEFFICIENTS.rice
  else none

/-- One entry of `SOIL_TYPES`. -/
structure SoilProfile (α : Type) where
  fieldCapacity : α
  wiltingPoint : α
  bulkDensity : α
  infiltrationRate : α

/-- The entry `SOIL_TYPES.sandy`. -/
def SOIL_TYPES.sandy {α : Type} [LinearOrderedField α] : SoilProfile α :=
  { fieldCapacity := 0.12, wiltingPoint := 0.05, bulkDensity := 1.6, infiltrationRate := 25 }

/-- The entry `SOIL_TYPES.loamy`. -/
def SOIL_TYPES.loamy {α : Type} [LinearOrderedField α] : SoilProfile α :=
  { fieldCapacity := 0.25, wiltingPoint := 0.10, bulkDensity := 1.4, infiltrationRate := 15 }

/-- The entry `SOIL_TYPES.clay`. -/
def SOIL_TYPES.clay {α : Type} [LinearOrderedField α] : SoilProfile α :=
  { fieldCapacity := 0.35, wiltingPoint := 0.20, bulkDensity := 1.2, infiltrationRate := 5 }

/-- The entry `SOIL_TYPES.clay_loam`. -/
def SOIL_TYPES.clay_loam {α : Type} [LinearOrderedField α] : SoilProfile α :=
  { fieldCapacity := 0.30, wiltingPoint := 0.15, bulkDensity := 1.3, infiltrationRate := 10 }

/-- The table `SOIL_TYPES`, indexed by an own key. -/
def SOIL_TYPES {α : Type} [LinearOrderedField α] (key : String) : Option (SoilProfile α) :=
  if key = "sandy" then some SOIL_TYPES.sandy
  else if key = "loamy" then some SOIL_TYPES.loamy
  else if key = "clay" then some SOIL_TYPES.clay
  else if key = "clay_loam" then some SOIL_TYPES.clay_loam
  else none

/-- The entry `GROWTH_STAGE_DURATION.cotton`. -/
def GROWTH_STAGE_DURATION.cotton {α : Type} [LinearOrderedField α] : StageTable α :=
  { initial := 30, development := 30, mid := 60, late := 30, harvest := 30 }

/-- The entry `GROWTH_STAGE_DURATION.wheat`. -/
def GROWTH_STAGE_DURATION.wheat {α : Type} [LinearOrderedField α] : StageTable α :=
  { initial := 20, development := 30, mid := 30, late := 30, harvest := 20 }

/-- The entry `GROWTH_STAGE_DURATION.rice`. -/
def GROWTH_STAGE_DURATION.rice {α : Type} [LinearOrderedField α] : StageTable α :=
  { initial := 30, development := 30, mid := 40, late := 30, harvest := 30 }

/-- The table `GROWTH_STAGE_DURATION`, indexed by an own key. -/
def GROWTH_STAGE_DURATION {α : Type} [LinearOrderedField α] (key : String) :
    Option (StageTable α) :=
  if key = "cotton" then some GROWTH_STAGE_DURATION.cotton
  else if key = "wheat" then some GROWTH_STAGE_DURATION.wheat
  else if key = "rice" then some GROWTH_STAGE_DURATION.rice
  else none

/-! ## Constants (lines 68 to 79) -/

/-- The constant `this.constants.STEFAN_BOLTZMANN`. -/
def STEFAN_BOLTZMANN {α : Type} [LinearOrderedField α] : α := 4.903e-9

/-- The constant `this.constants.LATENT_HEAT_VAPORIZATION`. -/
def LATENT_HEAT_VAPORIZATION {α : Type} [LinearOrderedField α] : α := 2.45

/-- The constant `this.constants.PSYCHROMETRIC_CONSTANT`. -/
def PSYCHROMETRIC_CONSTANT {α : Type} [LinearOrderedField α] : α := 0.665

/-- The constant `this.constants.ALBEDO`. -/
def ALBEDO {α : Type} [LinearOrderedField α] : α := 0.23

/-- The constant `this.constants.CANOPY_RESISTANCE`. -/
def CANOPY_RESISTANCE {α : Type} [LinearOrderedField α] : α := 70

/-- The constant `this.constants.AERODYNAMIC_RESISTANCE`. -/
def AERODYNAMIC_RESISTANCE {α : Type} [LinearOrderedField α] : α := 208

/-! ## Evapotranspiration (lines 87 to 159) -/

/-- The weather object read by `calculateET0` and by
`calculateIrrigationRequirement`. -/
structure WeatherData (α : Type) [LinearOrderedField α] where
  temperature : α
  humidity : α
  windSpeed : α
  solarRadiation : Option α := none
  pressure : α := 101.3

/-- The method `calculateNetRadiation` (lines 142 to 159); `none` is `NaN`,
which every operation hands on.  The test `!Rs` holds for a missing value and
for the number zero. -/
def calculateNetRadiation {α : Type} [LinearOrderedField α] (M : JsMath α)
    (solarRadiation : Option α) (temperature humidity : α) : Option α :=
  let estimate : Option α :=
    (mathSqrt M (temperature + 17.8)).map fun s => 0.16 * s * (1 - humidity / 100) * 10
  let Rs : Option α :=
    match solarRadiation with
    | none => estimate
    | some r => if r = 0 then estimate else some r
  Rs.bind fun Rs =>
    (mathSqrt M (humidity / 100)).map fun s =>
      let Rns := (1 - ALBEDO) * Rs
      let Rnl := STEFAN_BOLTZMANN * (temperature + 273.15) ^ 4 *
        (0.34 - 0.14 * s) * (1.35 * Rs / 20 - 0.35)
      Rns - Rnl

/-- The method `calculateET0` (lines 87 to 133); `none` is `NaN`:
`Math.max(0, NaN)` is `NaN`. -/
def calculateET0 {α : Type} [LinearOrderedField α] (M : JsMath α) (weather : WeatherData α) :
    Option α :=
  let temperature := weather.temperature
  let humidity := weather.humidity
  let windSpeed := weather.windSpeed
  let solarRadiation := weather.solarRadiation
  let pressure := weather.pressure
  let es := 0.6108 * M.exp ((17.27 * temperature) / (temperature + 237.3))
  let ea := (humidity / 100) * es
  let vaporPressureDeficit := es - ea
  let delta := (4098 * es) / (temperature + 237.3) ^ 2
  let gamma := PSYCHROMETRIC_CONSTANT * pressure / 100
  (calculateNetRadiation M solarRadiation temperature humidity).map fun Rn =>
    let G := 0.1 * Rn
    let windFunction := 0.34 * (1 + 0.54 * windSpeed)
    let numerator :=
      delta * (Rn - G) + LATENT_HEAT_VAPORIZATION * windFunction * vaporPressureDeficit
    let denominator := delta + gamma * (1 + CANOPY_RESISTANCE / AERODYNAMIC_RESISTANCE)
    let ET0 := numerator / denominator
    max 0 ET0

/-- The local `numerator` of `calculateET0` (lines 100 to 125), for a net
radiation `Rn`. -/
def calculateET0.numerator {α : Type} [LinearOrderedField α] (M : JsMath α)
    (weather : WeatherData α) (Rn : α) : α :=
  let temperature := weather.temperature
  let humidity := weather.humidity
  let windSpeed := weather.windSpeed
  let es := 0.6108 * M.exp ((17.27 * temperature) / (temperature + 237.3))
  let ea := (humidity / 100) * es
  let vaporPressureDeficit := es - ea
  let delta := (4098 * es) / (temperature + 237.3) ^ 2
  let G := 0.1 * Rn
  let windFunction := 0.34 * (1 + 0.54 * windSpeed)
  delta * (Rn - G) + LATENT_HEAT_VAPORIZATION * windFunction * vaporPressureDeficit

/-- The local `denominator` of `calculateET0` (lines 100 to 128). -/
def calculateET0.denominator {α : Type} [LinearOrderedField α] (M : JsMath α)
    (weather : WeatherData α) : α :=
  let temperature := weather.temperature
  let pressure := weather.pressure
  let es := 0.6108 * M.exp ((17.27 * temperature) / (temperature + 237.3))
  let delta := (4098 * es) / (temperature + 237.3) ^ 2
  let gamma := PSYCHROMETRIC_CONSTANT * pressure / 100
  delta + gamma * (1 + CANOPY_RESISTANCE / AERODYNAMIC_RESISTANCE)

/-! ## Crop growth model (lines 167 to 205) -/

/-- The loop of `getGrowthStage` (lines 171 to 178) over the entries that are
left, with the running value of `cumulativeDays`. -/
def getGrowthStage.loop {α : Type} [LinearOrderedField α] (daysSincePlanting : α) :
    List (String × α) → α → String
  | [], _ => "harvest"
  | (stage, duration) :: rest, cumulativeDays =>
    let cumulativeDays' := cumulativeDays + duration
    if daysSincePlanting ≤ cumulativeDays' then stage
    else getGrowthStage.loop daysSincePlanting rest cumulativeDays'

/-- The method `getGrowthStage` (lines 167 to 179).  When the key is not an
own key of `GROWTH_STAGE_DURATION` but names an inherited member, `stages` is
that member: the test `!stages` fails, `Object.entries(stages)` is empty, the
loop body never runs and line 178 returns. -/
def getGrowthStage {α : Type} [LinearOrderedField α] (cropType : String)
    (daysSincePlanting : α) : String :=
  match (GROWTH_STAGE_DURATION (toLowerCase cropType) : Option (StageTable α)) with
  | some stages => getGrowthStage.loop daysSincePlanting stages.entries 0
  | none =>
    if inheritedMember (toLowerCase cropType) then
      getGrowthStage.loop daysSincePlanting [] 0
    else "mid"

/-- The method `getCropCoefficient` (lines 187 to 192); `none` is a value that
is not a number.  The operator `||` takes its right operand when the left one
is missing or zero.  For a known crop, a stage name that names an inherited
member gives that member (a function or an object).  When the crop key itself
names an inherited member, `crop` is the function `Object` or the object
`Object.prototype`: `crop.mid` is `undefined`, and `crop[growthStage]` is a
number only for `Object.length`, which is 1. -/
def getCropCoefficient {α : Type} [LinearOrderedField α] (cropType growthStage : String) :
    Option α :=
  match (CROP_COEFFICIENTS (toLowerCase cropType) : Option (StageTable α)) with
  | some crop =>
    match crop.get? growthStage with
    | some k => if k = 0 then some crop.mid else some k
    | none => if inheritedMember growthStage then none else some crop.mid
  | none =>
    if inheritedMember (toLowerCase cropType) then
      if toLowerCase cropType = "constructor" ∧ growthStage = "length" then some 1 else none
    else some 1.0

/-- The method `calculateCropET` (lines 201 to 205); `none` is `NaN`, the
product of a number and a value that is not a number. -/
def calculateCropET {α : Type} [LinearOrderedField α] (ET0 : α) (cropType : String)
    (daysSincePlanting : α) : Option α :=
  let growthStage := getGrowthStage cropType daysSincePlanting
  let Kc : Option α := getCropCoefficient cropType growthStage
  Kc.map fun k => ET0 * k

/-! ## Soil water balance (lines 215 to 244) -/

/-- The argument `soilData` of `calculateSoilWaterBalance`. -/
structure SoilData (α : Type) where
  type : String
  moisture : α

/-- The object returned by `calculateSoilWaterBalance`. -/
structure WaterBalance (α : Type) where
  currentMoisture : α
  availableWaterCapacity : α
  currentAvailableWater : α
  currentAvailableWaterPercent : α
  waterDeficit : α
  soilWaterAfterRainfall : α
  soilWaterAfterET : α
  wiltingPoint : α
  fieldCapacity : α

/-- The value of `SOIL_TYPES[soilData.type.toLowerCase()] || SOIL_TYPES.loamy`
(line 216) when it is a soil profile: the table entry, or the loamy profile
when the key finds nothing.  The result is `none` when the key names an
inherited member, which is truthy and has none of the numeric fields. -/
def lookupSoilType {α : Type} [LinearOrderedField α] (type : String) :
    Option (SoilProfile α) :=
  match (SOIL_TYPES (toLowerCase type) : Option (SoilProfile α)) with
  | some soilType => some soilType
  | none => if inheritedMember (toLowerCase type) then none else some SOIL_TYPES.loamy

/-- The soil profile of line 216 as numbers: the loamy profile also for a key
that names an inherited member, where the program reads `undefined` fields. -/
def resolveSoilType {α : Type} [LinearOrderedField α] (type : String) : SoilProfile α :=
  (lookupSoilType type).getD SOIL_TYPES.loamy

/-- Lines 217 to 243 of `calculateSoilWaterBalance`, for the soil profile
`soilType` that line 216 yields. -/
def soilWaterBalance {α : Type} [LinearOrderedField α] (soilType : SoilProfile α)
    (soilData : SoilData α) (cropET rainfall : α) : WaterBalance α :=
  let currentMoisture := soilData.moisture / 100
  let availableWaterCapacity := soilType.fieldCapacity - soilType.wiltingPoint
  let currentAvailableWater := max 0 (currentMoisture - soilType.wiltingPoint)
  let currentAvailableWaterPercent := (currentAvailableWater / availableWaterCapacity) * 100
  let waterDeficit := max 0 (cropET - rainfall)
  let soilWaterAfterRainfall := min soilType.fieldCapacity (currentMoisture + (rainfall / 100))
  let soilWaterAfterET := max soilType.wiltingPoint (soilWaterAfterRainfall - (cropET / 100))
  { currentMoisture := currentMoisture * 100
    availableWaterCapacity := availableWaterCapacity * 100
    currentAvailableWater := currentAvailableWater * 100
    currentAvailableWaterPercent := currentAvailableWaterPercent
    waterDeficit := waterDeficit
    soilWaterAfterRainfall := soilWaterAfterRainfall * 100
    soilWaterAfterET := soilWaterAfterET * 100
    wiltingPoint := soilType.wiltingPoint * 100
    fieldCapacity := soilType.fieldCapacity * 100 }

/-- The method `calculateSoilWaterBalance` (lines 215 to 244).  The result is
`none` when the soil key names an inherited member: that member has no
`fieldCapacity` and no `wiltingPoint`, and every field of the returned object
that depends on them is `NaN`. -/
def calculateSoilWaterBalance {α : Type} [LinearOrderedField α] (soilData : SoilData α)
    (_weatherData : WeatherData α) (cropET rainfall : α) : Option (WaterBalance α) :=
  (lookupSoilType soilData.type).map fun soilType =>
    soilWaterBalance soilType soilData cropET rainfall

/-! ## Decision engine (lines 251 to 371) -/

/-- The argument `params` of `calculateIrrigationRequirement`, with the
defaults of the destructuring on lines 252 to 261. -/
structure Params (α : Type) [LinearOrderedField α] where
  cropType : String
  soilType : String
  weatherData : WeatherData α
  soilMoisture : α
  daysSincePlanting : α := 60
  area : α := 1
  recentRainfall : α := 0
  irrigationEfficiency : α := 0.85

/-- One sentence of the `reason` text, with the interpolated number. -/
inductive ReasonFragment (α : Type) where
  /-- The text "Critical soil moisture level (P%). ". -/
  | critical (percent : α)
  /-- The text "Suboptimal soil moisture (P%) with water deficit. ". -/
  | suboptimal (percent : α)
  /-- The text "Moderate soil moisture (P%). ". -/
  | moderate (percent : α)
  /-- The text "Adequate soil moisture (P%). ". -/
  | adequate (percent : α)
  /-- The text "Recent rainfall (Rmm) detected. ". -/
  | rainfallDetected (rainfall : α)
  /-- The text "Recent rainfall (Rmm) makes irrigation unnecessary. ". -/
  | rainfallUnnecessary (rainfall : α)
  /-- The text "High wind conditions (W km/h). ". -/
  | highWind (windSpeed : α)
  /-- The text "High humidity (H%) reduces water demand. ". -/
  | highHumidity (humidity : α)
  deriving DecidableEq

/-- The three local variables `recommendation`, `irrigationAmount` (in mm)
and `reason` that the rules of lines 277 to 332 update. -/
structure Decision (α : Type) where
  recommendation : String
  irrigationAmount : α
  reason : List (ReasonFragment α)

/-- The threshold rule (lines 273 to 302), starting from the initial values
of lines 277 to 279. -/
def thresholdRule {α : Type} [LinearOrderedField α] (waterBalance : WaterBalance α)
    (irrigationEfficiency : α) : Decision α :=
  let criticalMoistureLevel : α := 30
  let optimalMoistureLevel : α := 70
  if waterBalance.currentAvailableWaterPercent < criticalMoistureLevel then
    let targetMoisture := waterBalance.fieldCapacity * (optimalMoistureLevel / 100)
    let currentMoisture := waterBalance.currentMoisture
    let moistureDeficit := max 0 (targetMoisture - currentMoisture)
    { recommendation := "irrigate"
      irrigationAmount := (moistureDeficit * 10) / irrigationEfficiency
      reason := [ReasonFragment.critical waterBalance.currentAvailableWaterPercent] }
  else if waterBalance.currentAvailableWaterPercent < optimalMoistureLevel ∧
      waterBalance.waterDeficit > 2 then
    { recommendation := "irrigate"
      irrigationAmount := min waterBalance.waterDeficit 15 / irrigationEfficiency
      reason := [ReasonFragment.suboptimal waterBalance.currentAvailableWaterPercent] }
  else if waterBalance.currentAvailableWaterPercent < optimalMoistureLevel then
    { recommendation := "maybe"
      irrigationAmount := min waterBalance.waterDeficit 8 / irrigationEfficiency
      reason := [ReasonFragment.moderate waterBalance.currentAvailableWaterPercent] }
  else
    { recommendation := "dont-irrigate"
      irrigationAmount := 0
      reason := [ReasonFragment.adequate waterBalance.currentAvailableWaterPercent] }

/-- The rainfall rule (lines 304 to 315). -/
def rainfallRule {α : Type} [LinearOrderedField α] (recentRainfall : α) (d : Decision α) :
    Decision α :=
  if recentRainfall > 5 then
    if d.recommendation = "irrigate" then
      { recommendation := "maybe"
        irrigationAmount := d.irrigationAmount * 0.5
        reason := d.reason ++ [ReasonFragment.rainfallDetected recentRainfall] }
    else if d.recommendation = "maybe" then
      { recommendation := "dont-irrigate"
        irrigationAmount := 0
        reason := d.reason ++ [ReasonFragment.rainfallUnnecessary recentRainfall] }
    else d
  else d

/-- The wind rule (lines 317 to 324). -/
def windRule {α : Type} [LinearOrderedField α] (windSpeed : α) (d : Decision α) : Decision α :=
  if windSpeed > 15 then
    if d.recommendation = "irrigate" then
      { recommendation := "maybe"
        irrigationAmount := d.irrigationAmount * 0.7
        reason := d.reason ++ [ReasonFragment.highWind windSpeed] }
    else d
  else d

/-- The humidity rule (lines 326 to 332). -/
def humidityRule {α : Type} [LinearOrderedField α] (humidity : α) (d : Decision α) :
    Decision α :=
  if humidity > 80 then
    if d.recommendation = "irrigate" then
      { recommendation := "maybe"
        irrigationAmount := d.irrigationAmount * 0.8
        reason := d.reason ++ [ReasonFragment.highHumidity humidity] }
    else d
  else d

/-- The field `calculations` of the returned object; `none` is `NaN`. -/
structure Calculations (α : Type) where
  ET0 : Option α
  cropET : Option α
  growthStage : String
  cropCoefficient : Option α
  waterBalance : WaterBalance α
  recentRainfall : α
  irrigationEfficiency : α

/-- The field `weatherFactors` of the returned object; a `solarRadiation` of
`none` stands for the text "estimated". -/
structure WeatherFactors (α : Type) where
  temperature : α
  humidity : α
  windSpeed : α
  solarRadiation : Option α

/-- The object returned by `calculateIrrigationRequirement`. -/
structure Recommendation (α : Type) where
  recommendation : String
  irrigationAmount : ℤ
  irrigationAmountMM : α
  optimalTime : String
  reason : List (ReasonFragment α)
  calculations : Calculations α
  weatherFactors : WeatherFactors α

/-- The local `cropET` of `calculateIrrigationRequirement` (lines 264 and 267);
`none` is `NaN`. -/
def Params.cropETValue {α : Type} [LinearOrderedField α] (M : JsMath α) (params : Params α) :
    Option α :=
  (calculateET0 M params.weatherData).bind fun ET0 =>
    calculateCropET ET0 params.cropType params.daysSincePlanting

/-- The local `cropET` as a number.  It is `NaN` when `ET0` is (a square root
of a negative number) or when the crop key names an inherited member; the soil
water balance and the decision rules need a number, and the model continues
with 0 there. -/
def Params.cropET {α : Type} [LinearOrderedField α] (M : JsMath α) (params : Params α) : α :=
  (params.cropETValue M).getD 0

/-- The local `waterBalance` of `calculateIrrigationRequirement` (lines 270 and
271) as numbers.  For a soil key that names an inherited member its fields are
`NaN`; the decision rules need numbers, and the model continues with the
balance of the loamy profile there. -/
def Params.waterBalance {α : Type} [LinearOrderedField α] (M : JsMath α) (params : Params α) :
    WaterBalance α :=
  let soilData : SoilData α := { type := params.soilType, moisture := params.soilMoisture }
  (calculateSoilWaterBalance soilData params.weatherData (params.cropET M)
    params.recentRainfall).getD
    (soilWaterBalance SOIL_TYPES.loamy soilData (params.cropET M) params.recentRainfall)

/-- The values of `recommendation`, `irrigationAmount` and `reason` after the
threshold rule, before the adjustments (line 302). -/
def Params.threshold {α : Type} [LinearOrderedField α] (M : JsMath α) (params : Params α) :
    Decision α :=
  thresholdRule (params.waterBalance M) params.irrigationEfficiency

/-- The method `calculateIrrigationRequirement` (lines 251 to 371). -/
def calculateIrrigationRequirement {α : Type} [LinearOrderedField α] [FloorRing α]
    (M : JsMath α) (params : Params α) : Recommendation α :=
  let weatherData := params.weatherData
  let ET0 := calculateET0 M weatherData
  let cropET := params.cropETValue M
  let waterBalance := params.waterBalance M
  let d0 := params.threshold M
  let d1 := rainfallRule params.recentRainfall d0
  let d2 := windRule weatherData.windSpeed d1
  let d3 := humidityRule weatherData.humidity d2
  let irrigationAmount := d3.irrigationAmount
  let irrigationAmountLitersPerHectare := mathRound (irrigationAmount * 10 * params.area)
  let optimalTime :=
    if weatherData.temperature > 30 then "05:00-07:00"
    else if weatherData.temperature < 15 then "08:00-10:00"
    else "06:00-08:00"
  let growthStage := getGrowthStage params.cropType params.daysSincePlanting
  let cropCoefficient : Option α := getCropCoefficient params.cropType growthStage
  { recommendation := d3.recommendation
    irrigationAmount := irrigationAmountLitersPerHectare
    irrigationAmountMM := irrigationAmount
    optimalTime := optimalTime
    reason := d3.reason
    calculations :=
      { ET0 := ET0.map fun x => (mathRound (x * 100) : α) / 100
        cropET := cropET.map fun x => (mathRound (x * 100) : α) / 100
        growthStage := growthStage
        cropCoefficient := cropCoefficient.map fun k => (mathRound (k * 100) : α) / 100
        waterBalance := waterBalance
        recentRainfall := params.recentRainfall
        irrigationEfficiency := params.irrigationEfficiency }
    weatherFactors :=
      { temperature := weatherData.temperature
        humidity := weatherData.humidity
        windSpeed := weatherData.windSpeed
        solarRadiation :=
          match weatherData.solarRadiation with
          | none => none
          | some r => if r = 0 then none else some r } }

/-- The real exponential and the real square root as `Math.exp` and
`Math.sqrt`. -/
noncomputable def realMath : JsMath ℝ :=
  { exp := Real.exp, sqrt := Real.sqrt }

/-! ## Specification vocabulary -/

/-- The order of the verdicts: dont-irrigate below maybe below irrigate. -/
def verdictRank (recommendation : String) : ℕ :=
  if recommendation = "irrigate" then 2
  else if recommendation = "maybe" then 1
  else 0

/-- The order of the growth stages: initial, development, mid, late, harvest. -/
def stageIndex (stage : String) : ℕ :=
  if stage = "initial" then 0
  else if stage = "development" then 1
  else if stage = "mid" then 2
  else if stage = "late" then 3
  else 4

/-- The Penman-Monteith formula in the words of the specification (section
4.1, steps 1 to 9), for a net radiation `Rn`. -/
def specET0 {α : Type} [LinearOrderedField α] (exp : α → α)
    (T RH windSpeed pressure Rn : α) : α :=
  let es := 0.6108 * exp (17.27 * T / (T + 237.3))
  let ea := (RH / 100) * es
  let vpd := es - ea
  let delta := 4098 * es / (T + 237.3) ^ 2
  let gamma := 0.665 * pressure / 100
  let G := 0.1 * Rn
  let f := 0.34 * (1 + 0.54 * windSpeed)
  max 0 ((delta * (Rn - G) + 2.45 * f * vpd) / (delta + gamma * (1 + 70 / 208)))

/-- The net radiation in the words of the specification (section 4.1a), for a
solar radiation `Rs` and the square root `sqrtRH` of `RH / 100`. -/
def specNetRadiation {α : Type} [LinearOrderedField α] (Rs T sqrtRH : α) : α :=
  (1 - 0.23) * Rs -
    4.903e-9 * (T + 273.15) ^ 4 * (0.34 - 0.14 * sqrtRH) * (1.35 * Rs / 20 - 0.35)

/-- The estimate of the solar radiation in the words of the specification
(section 4.1a), for the square root `sqrtT` of `T + 17.8`. -/
def specSolarEstimate {α : Type} [LinearOrderedField α] (sqrtT RH : α) : α :=
  0.16 * sqrtT * (1 - RH / 100) * 10

/-- The available water percent of a soil moisture (in percent) for a soil
profile, with the wilting point and the field capacity in percent:
(moisture - wiltingPoint) / (fieldCapacity - wiltingPoint) * 100. -/
def specAvailableWaterPercent {α : Type} [LinearOrderedField α] (s : SoilProfile α)
    (moisture : α) : α :=
  (moisture - s.wiltingPoint * 100) / (s.fieldCapacity * 100 - s.wiltingPoint * 100) * 100

/-- The soil moisture (in percent) after the recommended irrigation: the
current moisture raised by irrigationAmountMM * irrigationEfficiency / 10
percentage points. -/
def specMoistureAfterIrrigation {α : Type} [LinearOrderedField α] (r : Recommendation α) : α :=
  r.calculations.waterBalance.currentMoisture +
    r.irrigationAmountMM * r.calculations.irrigationEfficiency / 10

/-! ## Sample inputs -/

/-- The weather that `server.js` (lines 144 to 152) passes on when the weather
service fails. -/
def defaultWeather {α : Type} [LinearOrderedField α] : WeatherData α :=
  { temperature := 25, humidity := 60, windSpeed := 10, solarRadiation := some 18.5,
    pressure := 101.3 }

/-- Cotton on loamy soil at 12 % moisture, default weather, the other
parameters at their defaults: 13.3 % of the available water is left. -/
def dryLoamParams {α : Type} [LinearOrderedField α] : Params α :=
  { cropType := "cotton", soilType := "loamy", weatherData := defaultWeather, soilMoisture := 12 }

/-- The input `dryLoamParams` after 6 mm of rain. -/
def dryLoamAfterRainParams {α : Type} [LinearOrderedField α] : Params α :=
  { dryLoamParams with recentRainfall := 6 }

/-- Cotton on loamy soil at 80 % moisture at day 60, default weather: the
high moisture scenario of `test-irrigation-algorithm.js` (line 66). -/
def wetLoamParams {α : Type} [LinearOrderedField α] : Params α :=
  { cropType := "cotton", soilType := "loamy", weatherData := defaultWeather, soilMoisture := 80,
    daysSincePlanting := 60 }

/-- A frosty day for which no solar radiation is reported. -/
def coldWeather {α : Type} [LinearOrderedField α] : WeatherData α :=
  { temperature := -20, humidity := 50, windSpeed := 5 }

/-- The default weather with a reported solar radiation of 0, the value that
`estimateSolarRadiation` of `weatherService.js` gives under a closed cloud
cover. -/
def overcastWeather {α : Type} [LinearOrderedField α] : WeatherData α :=
  { defaultWeather with solarRadiation := some 0 }

/-- The default weather on a day without wind. -/
def calmWeather {α : Type} [LinearOrderedField α] : WeatherData α :=
  { defaultWeather with windSpeed := 0 }

/-- The low moisture scenario of `test-irrigation-algorithm.js` (line 70),
"should irrigate": cotton on loamy soil at 25 % moisture at day 60, no recent
rainfall, in the weather `w`. -/
def lowMoistureParams {α : Type} [LinearOrderedField α] (w : WeatherData α) : Params α :=
  { cropType := "cotton", soilType := "loamy", weatherData := w, soilMoisture := 25,
    daysSincePlanting := 60, recentRainfall := 0 }

/-- The critical moisture scenario of `test-irrigation-algorithm.js` (line 74),
"should definitely irrigate": cotton on loamy soil at 15 % moisture at day 60,
no recent rainfall, in the weather `w`. -/
def criticalMoistureParams {α : Type} [LinearOrderedField α] (w : WeatherData α) : Params α :=
  { cropType := "cotton", soilType := "loamy", weatherData := w, soilMoisture := 15,
    daysSincePlanting := 60, recentRainfall := 0 }

/-- The wheat scenario of `test-irrigation-algorithm.js` (line 35): wheat on
sandy soil at 30 % moisture, day 45, 25 hectares, 5 mm of recent rainfall. -/
def wheatParams {α : Type} [LinearOrderedField α] : Params α :=
  { cropType := "wheat", soilType := "sandy", weatherData := defaultWeather, soilMoisture := 30,
    daysSincePlanting := 45, area := 25, recentRainfall := 5 }

/-- The input `dryLoamParams` in a wind of 20 km/h and at 85 % humidity. -/
def dryLoamWindyParams {α : Type} [LinearOrderedField α] : Params α :=
  { dryLoamParams with
    weatherData := { defaultWeather with windSpeed := 20, humidity := 85 } }

end IrrigationAlgorithm

namespace IrrigationAlgorithm

/-! ## Shared lemmas -/

section Lemmas

variable {α : Type} [LinearOrderedField α]

theorem maybe_ne_irrigate : "maybe" ≠ "irrigate" := by decide

theorem dont_ne_irrigate : "dont-irrigate" ≠ "irrigate" := by decide

theorem dont_ne_maybe : "dont-irrigate" ≠ "maybe" := by decide

theorem rainfallRule_of_le (r : α) (d : Decision α) (h : r ≤ 5) : rainfallRule r d = d := by
  unfold rainfallRule
  rw [if_neg (not_lt.mpr h)]

theorem windRule_of_le (w : α) (d : Decision α) (h : w ≤ 15) : windRule w d = d := by
  unfold windRule
  rw [if_neg (not_lt.mpr h)]

theorem humidityRule_of_le (u : α) (d : Decision α) (h : u ≤ 80) : humidityRule u d = d := by
  unfold humidityRule
  rw [if_neg (not_lt.mpr h)]

theorem windRule_of_ne (w : α) (d : Decision α) (h : d.recommendation ≠ "irrigate") :
    windRule w d = d := by
  unfold windRule
  rw [if_neg h, ite_self]

theorem humidityRule_of_ne (u : α) (d : Decision α) (h : d.recommendation ≠ "irrigate") :
    humidityRule u d = d := by
  unfold humidityRule
  rw [if_neg h, ite_self]

theorem recommendation_eq [FloorRing α] (M : JsMath α) (p : Params α) :
    (calculateIrrigationRequirement M p).recommendation =
      (humidityRule p.weatherData.humidity (windRule p.weatherData.windSpeed
        (rainfallRule p.recentRainfall (p.threshold M)))).recommendation := rfl

theorem irrigationAmountMM_eq [FloorRing α] (M : JsMath α) (p : Params α) :
    (calculateIrrigationRequirement M p).irrigationAmountMM =
      (humidityRule p.weatherData.humidity (windRule p.weatherData.windSpeed
        (rainfallRule p.recentRainfall (p.threshold M)))).irrigationAmount := rfl

theorem irrigationAmount_eq [FloorRing α] (M : JsMath α) (p : Params α) :
    (calculateIrrigationRequirement M p).irrigationAmount =
      mathRound ((calculateIrrigationRequirement M p).irrigationAmountMM * 10 * p.area) := rfl

theorem waterBalance_def (M : JsMath α) (p : Params α) :
    p.waterBalance M =
      soilWaterBalance (resolveSoilType p.soilType)
        { type := p.soilType, moisture := p.soilMoisture } (p.cropET M) p.recentRainfall := by
  simp only [Params.waterBalance, calculateSoilWaterBalance, resolveSoilType]
  cases (lookupSoilType p.soilType : Option (SoilProfile α)) <;> rfl

theorem waterBalance_fieldCapacity (M : JsMath α) (p : Params α) :
    (p.waterBalance M).fieldCapacity = (resolveSoilType p.soilType).fieldCapacity * 100 := by
  rw [waterBalance_def]
  rfl

theorem waterBalance_currentMoisture (M : JsMath α) (p : Params α) :
    (p.waterBalance M).currentMoisture = p.soilMoisture := by
  rw [waterBalance_def]
  show p.soilMoisture / 100 * 100 = p.soilMoisture
  field_simp

theorem resolveSoilType_loamy : (resolveSoilType "loamy" : SoilProfile α) = SOIL_TYPES.loamy := by
  simp [resolveSoilType, lookupSoilType, SOIL_TYPES, toLowerCase]

theorem resolveSoilType_cases (type : String) :
    (resolveSoilType type : SoilProfile α) = SOIL_TYPES.sandy ∨
    (resolveSoilType type : SoilProfile α) = SOIL_TYPES.loamy ∨
    (resolveSoilType type : SoilProfile α) = SOIL_TYPES.clay ∨
    (resolveSoilType type : SoilProfile α) = SOIL_TYPES.clay_loam := by
  unfold resolveSoilType lookupSoilType SOIL_TYPES
  split_ifs <;> simp

theorem availablePercent_eq (M : JsMath α) (p : Params α) :
    (p.waterBalance M).currentAvailableWaterPercent =
      max 0 (p.soilMoisture / 100 - (resolveSoilType p.soilType).wiltingPoint) /
        ((resolveSoilType p.soilType).fieldCapacity - (resolveSoilType p.soilType).wiltingPoint)
        * 100 := by
  rw [waterBalance_def]
  rfl

theorem waterDeficit_eq (M : JsMath α) (p : Params α) :
    (p.waterBalance M).waterDeficit = max 0 (p.cropET M - p.recentRainfall) := by
  rw [waterBalance_def]
  rfl

theorem waterDeficit_nonneg (M : JsMath α) (p : Params α) :
    0 ≤ (p.waterBalance M).waterDeficit := by
  rw [waterDeficit_eq]
  exact le_max_left _ _

theorem threshold_recommendation_cases (M : JsMath α) (p : Params α) :
    (p.threshold M).recommendation = "irrigate" ∨ (p.threshold M).recommendation = "maybe" ∨
      (p.threshold M).recommendation = "dont-irrigate" := by
  simp only [Params.threshold, thresholdRule]
  split_ifs <;> simp

theorem threshold_amount_nonneg (M : JsMath α) (p : Params α)
    (he : 0 < p.irrigationEfficiency) : 0 ≤ (p.threshold M).irrigationAmount := by
  have hD := waterDeficit_nonneg M p
  simp only [Params.threshold, thresholdRule]
  split_ifs
  · exact div_nonneg (mul_nonneg (le_max_left _ _) (by norm_num)) he.le
  · exact div_nonneg (le_min hD (by norm_num)) he.le
  · exact div_nonneg (le_min hD (by norm_num)) he.le
  · exact le_refl _

theorem final_of_irrigate (r w u : α) (d : Decision α) (hd : d.recommendation = "irrigate") :
    (r > 5 →
      (humidityRule u (windRule w (rainfallRule r d))).recommendation = "maybe" ∧
      (humidityRule u (windRule w (rainfallRule r d))).irrigationAmount =
        d.irrigationAmount * 0.5) ∧
    (r ≤ 5 →
      ((humidityRule u (windRule w (rainfallRule r d))).recommendation = "maybe" ∨
        (humidityRule u (windRule w (rainfallRule r d))).recommendation = "irrigate") ∧
      ((humidityRule u (windRule w (rainfallRule r d))).irrigationAmount =
          d.irrigationAmount * 0.7 ∨
        (humidityRule u (windRule w (rainfallRule r d))).irrigationAmount =
          d.irrigationAmount * 0.8 ∨
        (humidityRule u (windRule w (rainfallRule r d))).irrigationAmount =
          d.irrigationAmount)) := by
  constructor
  · intro hr
    have h1 : rainfallRule r d =
        { recommendation := "maybe"
          irrigationAmount := d.irrigationAmount * 0.5
          reason := d.reason ++ [ReasonFragment.rainfallDetected r] } := by
      unfold rainfallRule
      rw [if_pos hr, if_pos hd]
    rw [h1, windRule_of_ne _ _ maybe_ne_irrigate, humidityRule_of_ne _ _ maybe_ne_irrigate]
    exact ⟨rfl, rfl⟩
  · intro hr
    rw [rainfallRule_of_le _ _ hr]
    by_cases hw : w > 15
    · have h1 : windRule w d =
          { recommendation := "maybe"
            irrigationAmount := d.irrigationAmount * 0.7
            reason := d.reason ++ [ReasonFragment.highWind w] } := by
        unfold windRule
        rw [if_pos hw, if_pos hd]
      rw [h1, humidityRule_of_ne _ _ maybe_ne_irrigate]
      exact ⟨Or.inl rfl, Or.inl rfl⟩
    · rw [windRule_of_le _ _ (not_lt.mp hw)]
      by_cases hu : u > 80
      · have h1 : humidityRule u d =
            { recommendation := "maybe"
              irrigationAmount := d.irrigationAmount * 0.8
              reason := d.reason ++ [ReasonFragment.highHumidity u] } := by
          unfold humidityRule
          rw [if_pos hu, if_pos hd]
        rw [h1]
        exact ⟨Or.inl rfl, Or.inr (Or.inl rfl)⟩
      · rw [humidityRule_of_le _ _ (not_lt.mp hu)]
        exact ⟨Or.inr hd, Or.inr (Or.inr rfl)⟩

theorem final_of_maybe (r w u : α) (d : Decision α) (hd : d.recommendation = "maybe") :
    (r > 5 →
      (humidityRule u (windRule w (rainfallRule r d))).recommendation = "dont-irrigate" ∧
      (humidityRule u (windRule w (rainfallRule r d))).irrigationAmount = 0) ∧
    (r ≤ 5 → humidityRule u (windRule w (rainfallRule r d)) = d) := by
  have hne : d.recommendation ≠ "irrigate" := by rw [hd]; exact maybe_ne_irrigate
  constructor
  · intro hr
    have h1 : rainfallRule r d =
        { recommendation := "dont-irrigate"
          irrigationAmount := 0
          reason := d.reason ++ [ReasonFragment.rainfallUnnecessary r] } := by
      unfold rainfallRule
      rw [if_pos hr, if_neg hne, if_pos hd]
    rw [h1, windRule_of_ne _ _ dont_ne_irrigate, humidityRule_of_ne _ _ dont_ne_irrigate]
    exact ⟨rfl, rfl⟩
  · intro hr
    rw [rainfallRule_of_le _ _ hr, windRule_of_ne _ _ hne, humidityRule_of_ne _ _ hne]

theorem final_of_dont (r w u : α) (d : Decision α) (hd : d.recommendation = "dont-irrigate") :
    humidityRule u (windRule w (rainfallRule r d)) = d := by
  have hne : d.recommendation ≠ "irrigate" := by rw [hd]; exact dont_ne_irrigate
  have hne2 : d.recommendation ≠ "maybe" := by rw [hd]; exact dont_ne_maybe
  have h1 : rainfallRule r d = d := by
    unfold rainfallRule
    rw [if_neg hne, if_neg hne2, ite_self]
  rw [h1, windRule_of_ne _ _ hne, humidityRule_of_ne _ _ hne]

theorem verdictRank_irrigate : verdictRank "irrigate" = 2 := by decide

theorem verdictRank_maybe : verdictRank "maybe" = 1 := by decide

theorem verdictRank_dont : verdictRank "dont-irrigate" = 0 := by decide

theorem final_le (r w u : α) (d : Decision α) (hA : 0 ≤ d.irrigationAmount)
    (hd : d.recommendation = "irrigate" ∨ d.recommendation = "maybe" ∨
      d.recommendation = "dont-irrigate") :
    verdictRank (humidityRule u (windRule w (rainfallRule r d))).recommendation ≤
        verdictRank d.recommendation ∧
    (humidityRule u (windRule w (rainfallRule r d))).irrigationAmount ≤ d.irrigationAmount ∧
    0 ≤ (humidityRule u (windRule w (rainfallRule r d))).irrigationAmount := by
  rcases hd with hd | hd | hd
  · rcases lt_or_le 5 r with hr | hr
    · obtain ⟨h1, h2⟩ := (final_of_irrigate r w u d hd).1 hr
      rw [h1, h2, hd, verdictRank_irrigate, verdictRank_maybe]
      refine ⟨by norm_num, ?_, ?_⟩ <;> norm_num <;> linarith
    · obtain ⟨h1, h2⟩ := (final_of_irrigate r w u d hd).2 hr
      refine ⟨?_, ?_, ?_⟩
      · rcases h1 with h1 | h1 <;> rw [h1, hd]
        decide
      · rcases h2 with h2 | h2 | h2 <;> rw [h2] <;> norm_num <;> linarith
      · rcases h2 with h2 | h2 | h2 <;> rw [h2] <;> norm_num <;> linarith
  · rcases lt_or_le 5 r with hr | hr
    · obtain ⟨h1, h2⟩ := (final_of_maybe r w u d hd).1 hr
      rw [h1, h2, hd]
      exact ⟨by decide, hA, le_refl _⟩
    · rw [(final_of_maybe r w u d hd).2 hr]
      exact ⟨le_refl _, le_refl _, hA⟩
  · rw [final_of_dont r w u d hd]
    exact ⟨le_refl _, le_refl _, hA⟩

theorem mathRound_nonneg [FloorRing α] (x : α) (hx : 0 ≤ x) : 0 ≤ mathRound x := by
  unfold mathRound
  exact Int.floor_nonneg.mpr (by linarith)

theorem mathRound_mono [FloorRing α] (x y : α) (hxy : x ≤ y) : mathRound x ≤ mathRound y := by
  unfold mathRound
  exact Int.floor_le_floor (by linarith)

theorem mathRound_zero [FloorRing α] : mathRound (0 : α) = 0 := by
  unfold mathRound
  rw [Int.floor_eq_iff]
  constructor <;> norm_num

theorem mathRound_bounds [FloorRing α] (x : α) :
    (mathRound x : α) - 1 / 2 ≤ x ∧ x < (mathRound x : α) + 1 / 2 := by
  unfold mathRound
  have h1 := Int.floor_le (x + 1 / 2)
  have h2 := Int.lt_floor_add_one (x + 1 / 2)
  constructor <;> linarith

theorem cotton_day60_coefficient :
    (getCropCoefficient "cotton" (getGrowthStage "cotton" (60 : α)) : Option α) = some 0.7 := by
  have hs : getGrowthStage "cotton" (60 : α) = "development" := by
    simp [getGrowthStage, toLowerCase, GROWTH_STAGE_DURATION, GROWTH_STAGE_DURATION.cotton,
      getGrowthStage.loop, StageTable.entries]
    norm_num
  rw [hs]
  simp [getCropCoefficient, toLowerCase, CROP_COEFFICIENTS, CROP_COEFFICIENTS.cotton,
    StageTable.get?, StageTable.entries, List.lookup]
  norm_num

theorem calm_ET0_le (M : JsMath α)
    (hE0 : 0 < M.exp (17.27 * 25 / (25 + 237.3)))
    (hE : M.exp (17.27 * 25 / (25 + 237.3)) ≤ 7.4)
    (hS : M.sqrt (60 / 100) ≤ 0.78) :
    ∃ v, calculateET0 M calmWeather = some v ∧ v ≤ 20 / 7 := by
  have h185 : ¬ ((18.5 : α) = 0) := by norm_num
  have h60 : (0 : α) ≤ 60 / 100 := by norm_num
  simp only [calculateET0, calculateNetRadiation, calmWeather, defaultWeather,
    STEFAN_BOLTZMANN, LATENT_HEAT_VAPORIZATION, PSYCHROMETRIC_CONSTANT, ALBEDO,
    CANOPY_RESISTANCE, AERODYNAMIC_RESISTANCE, mathSqrt, if_neg h185, if_pos h60,
    Option.some_bind, Option.map_some']
  refine ⟨_, rfl, ?_⟩
  generalize M.exp (17.27 * 25 / (25 + 237.3)) = E at hE0 hE ⊢
  generalize M.sqrt (60 / 100) = S at hS ⊢
  have hD : (0 : α) < 4098 * (0.6108 * E) / (25 + 237.3) ^ 2 +
      0.665 * 101.3 / 100 * (1 + 70 / 208) := by
    have h1 : (0 : α) ≤ 4098 * (0.6108 * E) / (25 + 237.3) ^ 2 := by positivity
    have h2 : (0 : α) < 0.665 * 101.3 / 100 * (1 + 70 / 208) := by norm_num
    linarith
  refine max_le (by norm_num) ((div_le_iff₀ hD).mpr ?_)
  have hES : E * S ≤ E * 0.78 := mul_le_mul_of_nonneg_left hS hE0.le
  norm_num at hES hE ⊢
  nlinarith [hES, hE, hE0]

theorem real_exp_calm : 0 < realMath.exp (17.27 * 25 / (25 + 237.3)) ∧
    realMath.exp (17.27 * 25 / (25 + 237.3)) ≤ 7.4 := by
  show 0 < Real.exp (17.27 * 25 / (25 + 237.3)) ∧ Real.exp (17.27 * 25 / (25 + 237.3)) ≤ 7.4
  refine ⟨Real.exp_pos _, ?_⟩
  have h1 : Real.exp (17.27 * 25 / (25 + 237.3)) ≤ Real.exp (1 + 1) :=
    Real.exp_le_exp.mpr (by norm_num)
  have h2 := Real.exp_one_lt_d9
  have h3 := Real.exp_pos 1
  rw [Real.exp_add] at h1
  nlinarith

theorem real_sqrt_calm : realMath.sqrt (60 / 100) ≤ 0.78 := by
  show Real.sqrt (60 / 100) ≤ 0.78
  rw [Real.sqrt_le_left (by norm_num)]
  norm_num

theorem loamy15_percent (M : JsMath α) (p : Params α) (hs : p.soilType = "loamy")
    (hm : p.soilMoisture = 15) :
    (p.waterBalance M).currentAvailableWaterPercent = 100 / 3 := by
  rw [availablePercent_eq, hs, hm, resolveSoilType_loamy]
  norm_num [SOIL_TYPES.loamy]

theorem loamy15_threshold (M : JsMath α) (p : Params α) (hs : p.soilType = "loamy")
    (hm : p.soilMoisture = 15) :
    ((p.waterBalance M).waterDeficit > 2 →
      (p.threshold M).recommendation = "irrigate" ∧
      (p.threshold M).irrigationAmount =
        min (p.waterBalance M).waterDeficit 15 / p.irrigationEfficiency) ∧
    (¬ (p.waterBalance M).waterDeficit > 2 →
      (p.threshold M).recommendation = "maybe" ∧
      (p.threshold M).irrigationAmount =
        min (p.waterBalance M).waterDeficit 8 / p.irrigationEfficiency) := by
  have hP := loamy15_percent M p hs hm
  have h30 : ¬ (p.waterBalance M).currentAvailableWaterPercent < 30 := by
    rw [hP]; norm_num
  have h70 : (p.waterBalance M).currentAvailableWaterPercent < 70 := by
    rw [hP]; norm_num
  refine ⟨fun hD => ?_, fun hD => ?_⟩
  · simp only [Params.threshold, thresholdRule, if_neg h30, if_pos (And.intro h70 hD), and_self]
  · have h4 : ¬ ((p.waterBalance M).currentAvailableWaterPercent < 70 ∧
        (p.waterBalance M).waterDeficit > 2) := fun h => hD h.2
    simp only [Params.threshold, thresholdRule, if_neg h30, if_neg h4, if_pos h70, and_self]

theorem toLowerCase_cotton : toLowerCase "cotton" = "cotton" := by decide

theorem toLowerCase_wheat : toLowerCase "wheat" = "wheat" := by decide

theorem toLowerCase_rice : toLowerCase "rice" = "rice" := by decide

theorem getGrowthStage_own (cropType : String) (d : α) (t : StageTable α)
    (h : GROWTH_STAGE_DURATION (toLowerCase cropType) = some t) :
    getGrowthStage cropType d = getGrowthStage.loop d t.entries 0 := by
  simp only [getGrowthStage, h]

theorem getGrowthStage_not_own (cropType : String) (d : α)
    (h : (GROWTH_STAGE_DURATION (toLowerCase cropType) : Option (StageTable α)) = none) :
    getGrowthStage cropType d =
      if inheritedMember (toLowerCase cropType) then "harvest" else "mid" := by
  simp only [getGrowthStage, h, getGrowthStage.loop]

theorem loop_entries (t : StageTable α) (d : α) :
    getGrowthStage.loop d t.entries 0 =
      if d ≤ t.initial then "initial"
      else if d ≤ t.initial + t.development then "development"
      else if d ≤ t.initial + t.development + t.mid then "mid"
      else if d ≤ t.initial + t.development + t.mid + t.late then "late"
      else "harvest" := by
  simp only [StageTable.entries, getGrowthStage.loop, zero_add, ite_self]

theorem GROWTH_STAGE_DURATION_cases (key : String) :
    (GROWTH_STAGE_DURATION key : Option (StageTable α)) = some GROWTH_STAGE_DURATION.cotton ∨
    (GROWTH_STAGE_DURATION key : Option (StageTable α)) = some GROWTH_STAGE_DURATION.wheat ∨
    (GROWTH_STAGE_DURATION key : Option (StageTable α)) = some GROWTH_STAGE_DURATION.rice ∨
    (GROWTH_STAGE_DURATION key : Option (StageTable α)) = none := by
  unfold GROWTH_STAGE_DURATION
  split_ifs <;> simp

theorem cotton_stage (d : α) :
    getGrowthStage "cotton" d =
      if d ≤ 30 then "initial" else if d ≤ 60 then "development"
      else if d ≤ 120 then "mid" else if d ≤ 150 then "late" else "harvest" := by
  rw [getGrowthStage_own "cotton" d GROWTH_STAGE_DURATION.cotton
    (by rw [toLowerCase_cotton]; rfl), loop_entries]
  norm_num [GROWTH_STAGE_DURATION.cotton]

theorem wheat_stage (d : α) :
    getGrowthStage "wheat" d =
      if d ≤ 20 then "initial" else if d ≤ 50 then "development"
      else if d ≤ 80 then "mid" else if d ≤ 110 then "late" else "harvest" := by
  rw [getGrowthStage_own "wheat" d GROWTH_STAGE_DURATION.wheat
    (by rw [toLowerCase_wheat]; rfl), loop_entries]
  norm_num [GROWTH_STAGE_DURATION.wheat]

theorem rice_stage (d : α) :
    getGrowthStage "rice" d =
      if d ≤ 30 then "initial" else if d ≤ 60 then "development"
      else if d ≤ 100 then "mid" else if d ≤ 130 then "late" else "harvest" := by
  rw [getGrowthStage_own "rice" d GROWTH_STAGE_DURATION.rice
    (by rw [toLowerCase_rice]; rfl), loop_entries]
  norm_num [GROWTH_STAGE_DURATION.rice]

theorem stage_cases (cropType : String) (d : α) :
    getGrowthStage cropType d = "initial" ∨ getGrowthStage cropType d = "development" ∨
    getGrowthStage cropType d = "mid" ∨ getGrowthStage cropType d = "late" ∨
    getGrowthStage cropType d = "harvest" := by
  rcases @GROWTH_STAGE_DURATION_cases α _ (toLowerCase cropType) with hk | hk | hk | hk
  · rw [getGrowthStage_own _ _ _ hk, loop_entries]
    split_ifs <;> simp
  · rw [getGrowthStage_own _ _ _ hk, loop_entries]
    split_ifs <;> simp
  · rw [getGrowthStage_own _ _ _ hk, loop_entries]
    split_ifs <;> simp
  · rw [getGrowthStage_not_own _ _ hk]
    split_ifs <;> simp

theorem mathRound_intCast [FloorRing α] (n : ℤ) : mathRound (n : α) = n := by
  unfold mathRound
  rw [Int.floor_eq_iff]
  constructor <;> norm_num

theorem round2_of_int [FloorRing α] (k : α) (n : ℤ) (h : k * 100 = n) :
    ((mathRound (k * 100) : ℤ) : α) / 100 = k := by
  rw [h, mathRound_intCast, ← h]
  field_simp

theorem round2_cotton [FloorRing α] :
    (((mathRound ((0.4 : α) * 100) : ℤ) : α) / 100 = 0.4 ∧
      ((mathRound ((0.7 : α) * 100) : ℤ) : α) / 100 = 0.7 ∧
      ((mathRound ((1.15 : α) * 100) : ℤ) : α) / 100 = 1.15) ∧
    ((mathRound ((0.8 : α) * 100) : ℤ) : α) / 100 = 0.8 ∧
    ((mathRound ((0.6 : α) * 100) : ℤ) : α) / 100 = 0.6 :=
  ⟨⟨round2_of_int _ 40 (by norm_num), round2_of_int _ 70 (by norm_num),
    round2_of_int _ 115 (by norm_num)⟩, round2_of_int _ 80 (by norm_num),
    round2_of_int _ 60 (by norm_num)⟩

theorem known_coefficient [FloorRing α] (key stage : String)
    (hk : key = "cotton" ∨ key = "wheat" ∨ key = "rice")
    (hs : stage = "initial" ∨ stage = "development" ∨ stage = "mid" ∨ stage = "late" ∨
      stage = "harvest") :
    ∃ (t : StageTable α) (k : α), CROP_COEFFICIENTS key = some t ∧ t.get? stage = some k ∧
      k ≠ 0 ∧ ((mathRound (k * 100) : ℤ) : α) / 100 = k := by
  rcases hk with rfl | rfl | rfl
  · refine ⟨CROP_COEFFICIENTS.cotton, ?_⟩
    rcases hs with rfl | rfl | rfl | rfl | rfl
    · exact ⟨0.4, rfl, rfl, by norm_num, round2_of_int _ 40 (by norm_num)⟩
    · exact ⟨0.7, rfl, rfl, by norm_num, round2_of_int _ 70 (by norm_num)⟩
    · exact ⟨1.15, rfl, rfl, by norm_num, round2_of_int _ 115 (by norm_num)⟩
    · exact ⟨0.8, rfl, rfl, by norm_num, round2_of_int _ 80 (by norm_num)⟩
    · exact ⟨0.6, rfl, rfl, by norm_num, round2_of_int _ 60 (by norm_num)⟩
  · refine ⟨CROP_COEFFICIENTS.wheat, ?_⟩
    rcases hs with rfl | rfl | rfl | rfl | rfl
    · exact ⟨0.3, rfl, rfl, by norm_num, round2_of_int _ 30 (by norm_num)⟩
    · exact ⟨0.7, rfl, rfl, by norm_num, round2_of_int _ 70 (by norm_num)⟩
    · exact ⟨1.0, rfl, rfl, by norm_num, round2_of_int _ 100 (by norm_num)⟩
    · exact ⟨0.65, rfl, rfl, by norm_num, round2_of_int _ 65 (by norm_num)⟩
    · exact ⟨0.2, rfl, rfl, by norm_num, round2_of_int _ 20 (by norm_num)⟩
  · refine ⟨CROP_COEFFICIENTS.rice, ?_⟩
    rcases hs with rfl | rfl | rfl | rfl | rfl
    · exact ⟨1.05, rfl, rfl, by norm_num, round2_of_int _ 105 (by norm_num)⟩
    · exact ⟨1.1, rfl, rfl, by norm_num, round2_of_int _ 110 (by norm_num)⟩
    · exact ⟨1.1, rfl, rfl, by norm_num, round2_of_int _ 110 (by norm_num)⟩
    · exact ⟨1.0, rfl, rfl, by norm_num, round2_of_int _ 100 (by norm_num)⟩
    · exact ⟨0.95, rfl, rfl, by norm_num, round2_of_int _ 95 (by norm_num)⟩

theorem getCropCoefficient_own (cropType stage : String) (t : StageTable α) (k : α)
    (ht : CROP_COEFFICIENTS (toLowerCase cropType) = some t) (hk : t.get? stage = some k)
    (h0 : k ≠ 0) : getCropCoefficient cropType stage = some k := by
  simp only [getCropCoefficient, ht, hk, if_neg h0]

theorem cotton_coefficient_at (d : α) (stage : String) (k : α)
    (hs : getGrowthStage "cotton" d = stage)
    (hk : (CROP_COEFFICIENTS.cotton : StageTable α).get? stage = some k) (h0 : k ≠ 0) :
    getCropCoefficient "cotton" (getGrowthStage "cotton" d) = some k := by
  rw [hs]
  exact getCropCoefficient_own "cotton" stage CROP_COEFFICIENTS.cotton k
    (by rw [toLowerCase_cotton]; rfl) hk h0

theorem calculations_growthStage [FloorRing α] (M : JsMath α) (p : Params α) :
    (calculateIrrigationRequirement M p).calculations.growthStage =
      getGrowthStage p.cropType p.daysSincePlanting := rfl

theorem calculations_cropCoefficient [FloorRing α] (M : JsMath α) (p : Params α) :
    (calculateIrrigationRequirement M p).calculations.cropCoefficient =
      (getCropCoefficient p.cropType (getGrowthStage p.cropType p.daysSincePlanting)).map
        fun k : α => ((mathRound (k * 100) : ℤ) : α) / 100 := rfl

theorem inheritedMember_constructor : inheritedMember (toLowerCase "constructor") = true := by
  decide

theorem unknown_crop (cropType : String) (d ET0 : α)
    (h1 : toLowerCase cropType ≠ "cotton") (h2 : toLowerCase cropType ≠ "wheat")
    (h3 : toLowerCase cropType ≠ "rice") (h4 : inheritedMember (toLowerCase cropType) = false) :
    getGrowthStage cropType d = "mid" ∧
    (getCropCoefficient cropType (getGrowthStage cropType d) : Option α) = some 1.0 ∧
    calculateCropET ET0 cropType d = some ET0 := by
  have hg : (GROWTH_STAGE_DURATION (toLowerCase cropType) : Option (StageTable α)) = none := by
    simp only [GROWTH_STAGE_DURATION, if_neg h1, if_neg h2, if_neg h3]
  have hc : (CROP_COEFFICIENTS (toLowerCase cropType) : Option (StageTable α)) = none := by
    simp only [CROP_COEFFICIENTS, if_neg h1, if_neg h2, if_neg h3]
  have hs : getGrowthStage cropType d = "mid" := by
    rw [getGrowthStage_not_own _ _ hg, h4]
    rfl
  have hk : (getCropCoefficient cropType (getGrowthStage cropType d) : Option α) = some 1.0 := by
    simp only [getCropCoefficient, hc, h4]
    rfl
  refine ⟨hs, hk, ?_⟩
  simp only [calculateCropET, hk, Option.map_some']
  norm_num

theorem calculateET0_eq (M : JsMath α) (w : WeatherData α) :
    calculateET0 M w =
      (calculateNetRadiation M w.solarRadiation w.temperature w.humidity).map
        fun Rn => specET0 M.exp w.temperature w.humidity w.windSpeed w.pressure Rn := rfl

theorem mathSqrt_of_nonneg (M : JsMath α) (x : α) (h : 0 ≤ x) :
    mathSqrt M x = some (M.sqrt x) := by
  unfold mathSqrt
  rw [if_pos h]

theorem mathSqrt_of_neg (M : JsMath α) (x : α) (h : x < 0) : mathSqrt M x = none := by
  unfold mathSqrt
  rw [if_neg (not_le.mpr h)]

theorem netRadiation_supplied (M : JsMath α) (Rs T RH : α) (hRs : Rs ≠ 0) (hRH : 0 ≤ RH) :
    calculateNetRadiation M (some Rs) T RH =
      some (specNetRadiation Rs T (M.sqrt (RH / 100))) := by
  have h : (0 : α) ≤ RH / 100 := div_nonneg hRH (by norm_num)
  simp only [calculateNetRadiation, if_neg hRs, mathSqrt_of_nonneg M _ h, Option.some_bind,
    Option.map_some']
  rfl

theorem netRadiation_estimated (M : JsMath α) (T RH : α) (hT : 0 ≤ T + 17.8) (hRH : 0 ≤ RH) :
    calculateNetRadiation M none T RH =
      some (specNetRadiation (specSolarEstimate (M.sqrt (T + 17.8)) RH) T
        (M.sqrt (RH / 100))) := by
  have h : (0 : α) ≤ RH / 100 := div_nonneg hRH (by norm_num)
  simp only [calculateNetRadiation, mathSqrt_of_nonneg M _ h, mathSqrt_of_nonneg M _ hT,
    Option.some_bind, Option.map_some']
  rfl

theorem netRadiation_zero (M : JsMath α) (T RH : α) :
    calculateNetRadiation M (some 0) T RH = calculateNetRadiation M none T RH := by
  simp only [calculateNetRadiation, if_true]

theorem default_ET0_bounds (M : JsMath α)
    (hE1 : 2.7 ≤ M.exp (17.27 * 25 / (25 + 237.3)))
    (hE2 : M.exp (17.27 * 25 / (25 + 237.3)) ≤ 5.9)
    (hS0 : 0 ≤ M.sqrt (60 / 100)) (hS : M.sqrt (60 / 100) ≤ 0.78) :
    ∃ v, calculateET0 M defaultWeather = some v ∧ 3 ≤ v ∧ v ≤ 8 := by
  have h185 : ¬ ((18.5 : α) = 0) := by norm_num
  have h60 : (0 : α) ≤ 60 / 100 := by norm_num
  simp only [calculateET0, calculateNetRadiation, defaultWeather,
    STEFAN_BOLTZMANN, LATENT_HEAT_VAPORIZATION, PSYCHROMETRIC_CONSTANT, ALBEDO,
    CANOPY_RESISTANCE, AERODYNAMIC_RESISTANCE, mathSqrt, if_neg h185, if_pos h60,
    Option.some_bind, Option.map_some']
  refine ⟨_, rfl, ?_⟩
  generalize M.exp (17.27 * 25 / (25 + 237.3)) = E at hE1 hE2 ⊢
  generalize M.sqrt (60 / 100) = S at hS0 hS ⊢
  have hE0 : (0 : α) < E := lt_of_lt_of_le (by norm_num) hE1
  have hD : (0 : α) < 4098 * (0.6108 * E) / (25 + 237.3) ^ 2 +
      0.665 * 101.3 / 100 * (1 + 70 / 208) := by
    have h1 : (0 : α) ≤ 4098 * (0.6108 * E) / (25 + 237.3) ^ 2 := by positivity
    have h2 : (0 : α) < 0.665 * 101.3 / 100 * (1 + 70 / 208) := by norm_num
    linarith
  have hES : E * S ≤ E * 0.78 := mul_le_mul_of_nonneg_left hS hE0.le
  have hES0 : 0 ≤ E * S := mul_nonneg hE0.le hS0
  constructor
  · refine le_max_of_le_right ((le_div_iff₀ hD).mpr ?_)
    norm_num at hES hE1 hE2 hES0 ⊢
    nlinarith [hES, hES0, hE1, hE2]
  · refine max_le (by norm_num) ((div_le_iff₀ hD).mpr ?_)
    norm_num at hES hE1 hE2 hES0 ⊢
    nlinarith [hES, hES0, hE1, hE2]

theorem real_exp_default : 2.7 ≤ realMath.exp (17.27 * 25 / (25 + 237.3)) ∧
    realMath.exp (17.27 * 25 / (25 + 237.3)) ≤ 5.9 := by
  show 2.7 ≤ Real.exp (17.27 * 25 / (25 + 237.3)) ∧ Real.exp (17.27 * 25 / (25 + 237.3)) ≤ 5.9
  have h1 : Real.exp 1 ≤ Real.exp (17.27 * 25 / (25 + 237.3)) :=
    Real.exp_le_exp.mpr (by norm_num)
  have h2 : Real.exp (17.27 * 25 / (25 + 237.3)) ≤ Real.exp (5 / 3) :=
    Real.exp_le_exp.mpr (by norm_num)
  have hlo := Real.exp_one_gt_d9
  have hhi := Real.exp_one_lt_d9
  have h3 : Real.exp (5 / 3) ^ 3 = Real.exp 1 ^ 5 := by
    rw [← Real.exp_nat_mul, ← Real.exp_nat_mul]
    norm_num
  have h4 : Real.exp 1 ^ 5 < 2.7182818286 ^ 5 :=
    pow_lt_pow_left₀ hhi (Real.exp_pos 1).le (by norm_num)
  have h5 : Real.exp (5 / 3) ≤ 5.9 := by
    by_contra hc
    have h6 : (5.9 : ℝ) ^ 3 < Real.exp (5 / 3) ^ 3 :=
      pow_lt_pow_left₀ (not_le.mp hc) (by norm_num) (by norm_num)
    rw [h3] at h6
    have h7 : (5.9 : ℝ) ^ 3 < 2.7182818286 ^ 5 := lt_trans h6 h4
    norm_num at h7
  constructor
  · linarith
  · linarith

theorem real_sqrt_default : 0.7 ≤ realMath.sqrt (60 / 100) := by
  show (0.7 : ℝ) ≤ Real.sqrt (60 / 100)
  apply Real.le_sqrt_of_sq_le
  norm_num

theorem SOIL_TYPES_some (key : String) (s : SoilProfile α) (h : SOIL_TYPES key = some s) :
    s = SOIL_TYPES.sandy ∨ s = SOIL_TYPES.loamy ∨ s = SOIL_TYPES.clay ∨
      s = SOIL_TYPES.clay_loam := by
  unfold SOIL_TYPES at h
  split_ifs at h <;> simp_all

theorem lookupSoilType_some (type : String) (s : SoilProfile α)
    (h : lookupSoilType type = some s) :
    s = SOIL_TYPES.sandy ∨ s = SOIL_TYPES.loamy ∨ s = SOIL_TYPES.clay ∨
      s = SOIL_TYPES.clay_loam := by
  unfold lookupSoilType at h
  cases hk : (SOIL_TYPES (toLowerCase type) : Option (SoilProfile α)) with
  | some t =>
    rw [hk] at h
    simp only [Option.some.injEq] at h
    rw [← h]
    exact SOIL_TYPES_some _ t hk
  | none =>
    rw [hk] at h
    simp only at h
    split_ifs at h
    simp only [Option.some.injEq] at h
    exact Or.inr (Or.inl h.symm)

theorem lookupSoilType_lt (type : String) (s : SoilProfile α)
    (h : lookupSoilType type = some s) : s.wiltingPoint < s.fieldCapacity := by
  rcases lookupSoilType_some type s h with rfl | rfl | rfl | rfl <;>
    norm_num [SOIL_TYPES.sandy, SOIL_TYPES.loamy, SOIL_TYPES.clay, SOIL_TYPES.clay_loam]

theorem resolveSoilType_of_lookup (type : String) (s : SoilProfile α)
    (h : lookupSoilType type = some s) : resolveSoilType type = s := by
  unfold resolveSoilType
  rw [h]
  rfl

theorem calculateSoilWaterBalance_of_lookup (sd : SoilData α) (s : SoilProfile α)
    (h : lookupSoilType sd.type = some s) (w : WeatherData α) (cropET rainfall : α) :
    calculateSoilWaterBalance sd w cropET rainfall =
      some (soilWaterBalance s sd cropET rainfall) := by
  unfold calculateSoilWaterBalance
  rw [h]
  rfl

theorem balance_percent (s : SoilProfile α) (sd : SoilData α) (cropET rainfall : α) :
    (soilWaterBalance s sd cropET rainfall).currentAvailableWaterPercent =
      max 0 (sd.moisture / 100 - s.wiltingPoint) / (s.fieldCapacity - s.wiltingPoint)
        * 100 := rfl

theorem percent_gt_iff (m wp fc : α) (h : wp < fc) :
    max 0 (m / 100 - wp) / (fc - wp) * 100 > 100 ↔ m > fc * 100 := by
  have hc : 0 < fc - wp := sub_pos.mpr h
  have e : max 0 (m / 100 - wp) / (fc - wp) * 100 = max 0 (m / 100 - wp) * 100 / (fc - wp) := by
    ring
  rw [e, gt_iff_lt, lt_div_iff₀ hc]
  constructor
  · intro h1
    have h2 : fc - wp < max 0 (m / 100 - wp) := by linarith
    rcases lt_max_iff.mp h2 with h3 | h3
    · linarith
    · show fc * 100 < m
      linarith
  · intro h1
    have h2 : fc - wp < m / 100 - wp := by
      have h3 : fc * 100 < m := h1
      linarith
    have h4 : fc - wp < max 0 (m / 100 - wp) := lt_max_of_lt_right h2
    linarith

theorem percent_nonneg (m wp fc : α) (h : wp < fc) :
    0 ≤ max 0 (m / 100 - wp) / (fc - wp) * 100 :=
  mul_nonneg (div_nonneg (le_max_left _ _) (sub_pos.mpr h).le) (by norm_num)

theorem percent_zero (m wp fc : α) (h : m ≤ wp * 100) :
    max 0 (m / 100 - wp) / (fc - wp) * 100 = 0 := by
  have h1 : m / 100 - wp ≤ 0 := by linarith
  rw [max_eq_left h1, zero_div, zero_mul]

theorem unknownSoil_lookup (type : String)
    (h1 : (SOIL_TYPES (toLowerCase type) : Option (SoilProfile α)) = none)
    (h2 : inheritedMember (toLowerCase type) = false) :
    (lookupSoilType type : Option (SoilProfile α)) = some SOIL_TYPES.loamy := by
  unfold lookupSoilType
  rw [h1]
  simp only [h2, Bool.false_eq_true, if_false]

theorem lookupSoilType_loamy :
    (lookupSoilType "loamy" : Option (SoilProfile α)) = some SOIL_TYPES.loamy := rfl

theorem lookupSoilType_peat :
    (lookupSoilType "peat" : Option (SoilProfile α)) = some SOIL_TYPES.loamy := rfl

theorem lookupSoilType_constructor :
    (lookupSoilType "constructor" : Option (SoilProfile α)) = none := rfl

theorem requirement_of_lookup [FloorRing α] (M : JsMath α) (p q : Params α)
    (hs : (lookupSoilType p.soilType : Option (SoilProfile α)) = lookupSoilType q.soilType)
    (hc : p.cropType = q.cropType) (hw : p.weatherData = q.weatherData)
    (hm : p.soilMoisture = q.soilMoisture) (hd : p.daysSincePlanting = q.daysSincePlanting)
    (ha : p.area = q.area) (hr : p.recentRainfall = q.recentRainfall)
    (he : p.irrigationEfficiency = q.irrigationEfficiency) :
    calculateIrrigationRequirement M p = calculateIrrigationRequirement M q := by
  have hcv : p.cropETValue M = q.cropETValue M := by
    simp only [Params.cropETValue, hc, hw, hd]
  have hce : p.cropET M = q.cropET M := by
    simp only [Params.cropET, hcv]
  have hwb : p.waterBalance M = q.waterBalance M := by
    rw [waterBalance_def, waterBalance_def]
    simp only [resolveSoilType, hs, hm, hce, hr, soilWaterBalance]
  simp only [calculateIrrigationRequirement, Params.threshold, hwb, hcv, hc, hw, hd, ha, hr, he]

theorem rainfallRule_reason (r : α) (d : Decision α) :
    (rainfallRule r d).reason = d.reason ++
      (if (rainfallRule r d).recommendation = d.recommendation then []
       else [if d.recommendation = "irrigate" then ReasonFragment.rainfallDetected r
         else ReasonFragment.rainfallUnnecessary r]) := by
  unfold rainfallRule
  by_cases hr : r > 5
  · by_cases h1 : d.recommendation = "irrigate"
    · have hne : ¬ ("maybe" = d.recommendation) := by
        rw [h1]
        exact maybe_ne_irrigate
      simp only [if_pos hr, if_pos h1, if_neg hne]
    · by_cases h2 : d.recommendation = "maybe"
      · have hne : ¬ ("dont-irrigate" = d.recommendation) := by
          rw [h2]
          exact dont_ne_maybe
        simp only [if_pos hr, if_neg h1, if_pos h2, if_neg hne]
      · simp only [if_pos hr, if_neg h1, if_neg h2, if_true, List.append_nil]
  · simp only [if_neg hr, if_true, List.append_nil]

theorem windRule_reason (w : α) (d : Decision α) :
    (windRule w d).reason = d.reason ++
      (if (windRule w d).recommendation = d.recommendation then []
       else [ReasonFragment.highWind w]) := by
  unfold windRule
  by_cases hw : w > 15
  · by_cases h1 : d.recommendation = "irrigate"
    · have hne : ¬ ("maybe" = d.recommendation) := by
        rw [h1]
        exact maybe_ne_irrigate
      simp only [if_pos hw, if_pos h1, if_neg hne]
    · simp only [if_pos hw, if_neg h1, if_true, List.append_nil]
  · simp only [if_neg hw, if_true, List.append_nil]

theorem humidityRule_reason (u : α) (d : Decision α) :
    (humidityRule u d).reason = d.reason ++
      (if (humidityRule u d).recommendation = d.recommendation then []
       else [ReasonFragment.highHumidity u]) := by
  unfold humidityRule
  by_cases hu : u > 80
  · by_cases h1 : d.recommendation = "irrigate"
    · have hne : ¬ ("maybe" = d.recommendation) := by
        rw [h1]
        exact maybe_ne_irrigate
      simp only [if_pos hu, if_pos h1, if_neg hne]
    · simp only [if_pos hu, if_neg h1, if_true, List.append_nil]
  · simp only [if_neg hu, if_true, List.append_nil]

theorem rainfallRule_changed (r : α) (d : Decision α)
    (h : (rainfallRule r d).recommendation ≠ d.recommendation) :
    (rainfallRule r d).recommendation ≠ "irrigate" := by
  unfold rainfallRule at h ⊢
  by_cases hr : r > 5
  · by_cases h1 : d.recommendation = "irrigate"
    · simp only [if_pos hr, if_pos h1]
      exact maybe_ne_irrigate
    · by_cases h2 : d.recommendation = "maybe"
      · simp only [if_pos hr, if_neg h1, if_pos h2]
        exact dont_ne_irrigate
      · simp only [if_pos hr, if_neg h1, if_neg h2] at h
        exact absurd rfl h
  · simp only [if_neg hr] at h
    exact absurd rfl h

theorem windRule_changed (w : α) (d : Decision α)
    (h : (windRule w d).recommendation ≠ d.recommendation) :
    (windRule w d).recommendation ≠ "irrigate" := by
  unfold windRule at h ⊢
  by_cases hw : w > 15
  · by_cases h1 : d.recommendation = "irrigate"
    · simp only [if_pos hw, if_pos h1]
      exact maybe_ne_irrigate
    · simp only [if_pos hw, if_neg h1] at h
      exact absurd rfl h
  · simp only [if_neg hw] at h
    exact absurd rfl h

theorem threshold_reason (M : JsMath α) (p : Params α) :
    (p.threshold M).reason =
      [if (p.waterBalance M).currentAvailableWaterPercent < 30 then
          ReasonFragment.critical (p.waterBalance M).currentAvailableWaterPercent
        else if (p.waterBalance M).currentAvailableWaterPercent < 70 ∧
            (p.waterBalance M).waterDeficit > 2 then
          ReasonFragment.suboptimal (p.waterBalance M).currentAvailableWaterPercent
        else if (p.waterBalance M).currentAvailableWaterPercent < 70 then
          ReasonFragment.moderate (p.waterBalance M).currentAvailableWaterPercent
        else ReasonFragment.adequate (p.waterBalance M).currentAvailableWaterPercent] := by
  simp only [Params.threshold, thresholdRule]
  split_ifs <;> rfl

theorem final_recommendation_cases (r w u : α) (d : Decision α)
    (hd : d.recommendation = "irrigate" ∨ d.recommendation = "maybe" ∨
      d.recommendation = "dont-irrigate") :
    (humidityRule u (windRule w (rainfallRule r d))).recommendation = "irrigate" ∨
    (humidityRule u (windRule w (rainfallRule r d))).recommendation = "maybe" ∨
    (humidityRule u (windRule w (rainfallRule r d))).recommendation = "dont-irrigate" := by
  rcases hd with hd | hd | hd
  · rcases lt_or_le 5 r with hr | hr
    · exact Or.inr (Or.inl ((final_of_irrigate r w u d hd).1 hr).1)
    · rcases ((final_of_irrigate r w u d hd).2 hr).1 with h | h
      · exact Or.inr (Or.inl h)
      · exact Or.inl h
  · rcases lt_or_le 5 r with hr | hr
    · exact Or.inr (Or.inr ((final_of_maybe r w u d hd).1 hr).1)
    · rw [(final_of_maybe r w u d hd).2 hr]
      exact Or.inr (Or.inl hd)
  · rw [final_of_dont r w u d hd]
    exact Or.inr (Or.inr hd)

theorem profile_ratio (s : SoilProfile α)
    (hs : s = SOIL_TYPES.sandy ∨ s = SOIL_TYPES.loamy ∨ s = SOIL_TYPES.clay ∨
      s = SOIL_TYPES.clay_loam) :
    s.wiltingPoint < s.fieldCapacity ∧ 7 * s.wiltingPoint ≤ 4 * s.fieldCapacity := by
  rcases hs with rfl | rfl | rfl | rfl <;>
    norm_num [SOIL_TYPES.sandy, SOIL_TYPES.loamy, SOIL_TYPES.clay, SOIL_TYPES.clay_loam]

theorem critical_below_target (m wp fc : α) (hlt : wp < fc) (hr : 7 * wp ≤ 4 * fc)
    (h : max 0 (m / 100 - wp) / (fc - wp) * 100 < 30) : m < fc * 100 * (70 / 100) := by
  have hc : 0 < fc - wp := sub_pos.mpr hlt
  have e : max 0 (m / 100 - wp) / (fc - wp) * 100 = max 0 (m / 100 - wp) * 100 / (fc - wp) := by
    ring
  rw [e, div_lt_iff₀ hc] at h
  have h1 : m / 100 - wp ≤ max 0 (m / 100 - wp) := le_max_right _ _
  linarith

theorem threshold_critical_below_target (M : JsMath α) (p : Params α)
    (h : (p.waterBalance M).currentAvailableWaterPercent < 30) :
    (p.waterBalance M).currentMoisture < (p.waterBalance M).fieldCapacity * (70 / 100) := by
  obtain ⟨hlt, hr⟩ := profile_ratio (resolveSoilType p.soilType : SoilProfile α)
    (resolveSoilType_cases p.soilType)
  rw [availablePercent_eq] at h
  rw [waterBalance_currentMoisture, waterBalance_fieldCapacity]
  exact critical_below_target _ _ _ hlt hr h

theorem threshold_irrigate_pos (M : JsMath α) (p : Params α) (he : 0 < p.irrigationEfficiency)
    (h : (p.threshold M).recommendation = "irrigate") : 0 < (p.threshold M).irrigationAmount := by
  by_cases c1 : (p.waterBalance M).currentAvailableWaterPercent < 30
  · have hb := threshold_critical_below_target M p c1
    simp only [Params.threshold, thresholdRule, if_pos c1]
    have h1 : 0 < max 0 ((p.waterBalance M).fieldCapacity * (70 / 100) -
        (p.waterBalance M).currentMoisture) := lt_max_of_lt_right (sub_pos.mpr hb)
    exact div_pos (mul_pos h1 (by norm_num)) he
  · by_cases c2 : (p.waterBalance M).currentAvailableWaterPercent < 70 ∧
        (p.waterBalance M).waterDeficit > 2
    · simp only [Params.threshold, thresholdRule, if_neg c1, if_pos c2]
      have h2 : (2 : α) < (p.waterBalance M).waterDeficit := c2.2
      exact div_pos (lt_min (by linarith) (by norm_num)) he
    · exfalso
      simp only [Params.threshold, thresholdRule, if_neg c1, if_neg c2] at h
      split_ifs at h
      · exact maybe_ne_irrigate h
      · exact dont_ne_irrigate h

theorem threshold_dont_amount (M : JsMath α) (p : Params α)
    (h : (p.threshold M).recommendation = "dont-irrigate") :
    (p.threshold M).irrigationAmount = 0 := by
  simp only [Params.threshold, thresholdRule] at h ⊢
  split_ifs at h ⊢
  · exact absurd h.symm dont_ne_irrigate
  · exact absurd h.symm dont_ne_irrigate
  · exact absurd h.symm dont_ne_maybe
  · rfl

theorem threshold_amount_le (M : JsMath α) (p : Params α) (he : 0 < p.irrigationEfficiency)
    (hP : ¬ (p.waterBalance M).currentAvailableWaterPercent < 30) :
    (p.threshold M).irrigationAmount * p.irrigationEfficiency ≤ 15 := by
  simp only [Params.threshold, thresholdRule, if_neg hP]
  split_ifs
  · rw [div_mul_cancel₀ _ he.ne']
    exact min_le_right _ _
  · rw [div_mul_cancel₀ _ he.ne']
    exact le_trans (min_le_right _ _) (by norm_num)
  · rw [zero_mul]
    norm_num

theorem threshold_moderate (M : JsMath α) (p : Params α)
    (h : (p.threshold M).reason =
      [ReasonFragment.moderate (p.waterBalance M).currentAvailableWaterPercent]) :
    (p.waterBalance M).waterDeficit ≤ 2 ∧
    (p.threshold M).recommendation = "maybe" ∧
    (p.threshold M).irrigationAmount =
      min (p.waterBalance M).waterDeficit 8 / p.irrigationEfficiency := by
  simp only [Params.threshold, thresholdRule] at h ⊢
  split_ifs at h ⊢ with c1 c2 c3
  · simp at h
  · simp at h
  · refine ⟨?_, rfl, rfl⟩
    by_contra hc
    exact c2 ⟨c3, not_le.mp hc⟩
  · simp at h

theorem target_percent_le (s : SoilProfile α)
    (hs : s = SOIL_TYPES.sandy ∨ s = SOIL_TYPES.loamy ∨ s = SOIL_TYPES.clay ∨
      s = SOIL_TYPES.clay_loam) :
    specAvailableWaterPercent s (s.fieldCapacity * 100 * (70 / 100)) ≤ 50 := by
  rcases hs with rfl | rfl | rfl | rfl <;>
    norm_num [specAvailableWaterPercent, SOIL_TYPES.sandy, SOIL_TYPES.loamy, SOIL_TYPES.clay,
      SOIL_TYPES.clay_loam]

theorem critical_moisture_after [FloorRing α] (M : JsMath α) (p : Params α)
    (he : 0 < p.irrigationEfficiency)
    (hP : (p.waterBalance M).currentAvailableWaterPercent < 30)
    (hrain : p.recentRainfall ≤ 5) (hwind : p.weatherData.windSpeed ≤ 15)
    (hhum : p.weatherData.humidity ≤ 80) :
    (calculateIrrigationRequirement M p).recommendation = "irrigate" ∧
    specMoistureAfterIrrigation (calculateIrrigationRequirement M p) =
      (resolveSoilType p.soilType).fieldCapacity * 100 * (70 / 100) := by
  have hb := threshold_critical_below_target M p hP
  have hmax : max 0 ((p.waterBalance M).fieldCapacity * (70 / 100) -
      (p.waterBalance M).currentMoisture) =
      (p.waterBalance M).fieldCapacity * (70 / 100) - (p.waterBalance M).currentMoisture :=
    max_eq_right (sub_pos.mpr hb).le
  constructor
  · rw [recommendation_eq, rainfallRule_of_le _ _ hrain, windRule_of_le _ _ hwind,
      humidityRule_of_le _ _ hhum]
    simp only [Params.threshold, thresholdRule, if_pos hP]
  · have hMM : (calculateIrrigationRequirement M p).irrigationAmountMM =
        ((p.waterBalance M).fieldCapacity * (70 / 100) - (p.waterBalance M).currentMoisture)
          * 10 / p.irrigationEfficiency := by
      rw [irrigationAmountMM_eq, rainfallRule_of_le _ _ hrain, windRule_of_le _ _ hwind,
        humidityRule_of_le _ _ hhum]
      simp only [Params.threshold, thresholdRule, if_pos hP, hmax]
    show (p.waterBalance M).currentMoisture +
      (calculateIrrigationRequirement M p).irrigationAmountMM * p.irrigationEfficiency / 10 = _
    rw [hMM, ← waterBalance_fieldCapacity M p]
    have hne : p.irrigationEfficiency ≠ 0 := he.ne'
    field_simp
    ring

theorem denominator_pos (M : JsMath α) (w : WeatherData α)
    (hexp : 0 < M.exp (17.27 * w.temperature / (w.temperature + 237.3)))
    (hT : w.temperature ≠ -237.3) (hp : 0 ≤ w.pressure) :
    0 < calculateET0.denominator M w := by
  have hne : w.temperature + 237.3 ≠ 0 := by
    intro h
    apply hT
    linarith
  have hsq : 0 < (w.temperature + 237.3) ^ 2 := by positivity
  have hd : 0 < 4098 * (0.6108 * M.exp (17.27 * w.temperature / (w.temperature + 237.3))) /
      (w.temperature + 237.3) ^ 2 := div_pos (by linarith) hsq
  have hg : 0 ≤ PSYCHROMETRIC_CONSTANT * w.pressure / 100 *
      (1 + CANOPY_RESISTANCE / AERODYNAMIC_RESISTANCE) := by
    have h1 : (0 : α) ≤ 1 + CANOPY_RESISTANCE / AERODYNAMIC_RESISTANCE := by
      norm_num [CANOPY_RESISTANCE, AERODYNAMIC_RESISTANCE]
    have h2 : (0 : α) ≤ PSYCHROMETRIC_CONSTANT * w.pressure / 100 := by
      have h3 : (0 : α) ≤ PSYCHROMETRIC_CONSTANT := by norm_num [PSYCHROMETRIC_CONSTANT]
      exact div_nonneg (mul_nonneg h3 hp) (by norm_num)
    exact mul_nonneg h2 h1
  show 0 < 4098 * (0.6108 * M.exp (17.27 * w.temperature / (w.temperature + 237.3))) /
      (w.temperature + 237.3) ^ 2 + PSYCHROMETRIC_CONSTANT * w.pressure / 100 *
      (1 + CANOPY_RESISTANCE / AERODYNAMIC_RESISTANCE)
  linarith

theorem cropET_of_value (M : JsMath α) (p : Params α) (c : α)
    (h : p.cropETValue M = some c) : p.cropET M = c := by
  unfold Params.cropET
  rw [h]
  rfl

theorem waterDeficit_of_value (M : JsMath α) (p : Params α) (c : α)
    (h : p.cropETValue M = some c) :
    (p.waterBalance M).waterDeficit = max 0 (c - p.recentRainfall) := by
  rw [waterDeficit_eq, cropET_of_value M p c h]

theorem frost_ET0_nan (M : JsMath α) : calculateET0 M coldWeather = none := by
  have h : mathSqrt M ((coldWeather : WeatherData α).temperature + 17.8) = none :=
    mathSqrt_of_neg M _ (by norm_num [coldWeather])
  rw [calculateET0_eq]
  simp only [calculateNetRadiation, h, Option.map_none', Option.none_bind]
  rfl

theorem frost_cropET_nan (M : JsMath α) (p : Params α) (hw : p.weatherData = coldWeather) :
    p.cropETValue M = none := by
  unfold Params.cropETValue
  rw [hw, frost_ET0_nan]
  rfl

theorem default_cotton_cropET (p : Params ℝ) (hc : p.cropType = "cotton")
    (hw : p.weatherData = defaultWeather) (hd : p.daysSincePlanting = 60) :
    ∃ c : ℝ, p.cropETValue realMath = some c := by
  obtain ⟨v, hv, _⟩ := default_ET0_bounds realMath real_exp_default.1 real_exp_default.2
    (Real.sqrt_nonneg _) real_sqrt_calm
  refine ⟨v * 0.7, ?_⟩
  unfold Params.cropETValue
  rw [hw, hv, Option.some_bind, hc, hd]
  unfold calculateCropET
  simp only [cotton_day60_coefficient, Option.map_some']

theorem balance_of_profile (M : JsMath α) (p : Params α) (s : SoilProfile α)
    (hk : lookupSoilType p.soilType = some s) (cropET rainfall : α) :
    ∃ wb, calculateSoilWaterBalance { type := p.soilType, moisture := p.soilMoisture }
        p.weatherData cropET rainfall = some wb ∧
      wb.currentAvailableWaterPercent = (p.waterBalance M).currentAvailableWaterPercent := by
  refine ⟨_, calculateSoilWaterBalance_of_lookup
    { type := p.soilType, moisture := p.soilMoisture } s hk p.weatherData cropET rainfall, ?_⟩
  rw [balance_percent, availablePercent_eq, resolveSoilType_of_lookup p.soilType s hk]

end Lemmas

/-! ## The threshold rule and the adjustments -/

/-- C1: when no adjustment rule applies (recent rainfall at most 5, wind speed
at most 15, humidity at most 80) and the efficiency e is positive, the result
is the one of the threshold rule, with P the available water percent and D the
water deficit of the water balance: P < 30 gives irrigate with
max(0, 0.7 * fieldCapacity% - currentMoisture%) * 10 / e; otherwise P < 70 and
D > 2 give irrigate with min(D, 15) / e; otherwise P < 70 gives maybe with
min(D, 8) / e; otherwise dont-irrigate with 0. -/
theorem C1_threshold_result_when_no_adjustment {α : Type} [LinearOrderedField α] [FloorRing α]
    (M : JsMath α) (p : Params α)
    (hrain : p.recentRainfall ≤ 5) (hwind : p.weatherData.windSpeed ≤ 15)
    (hhum : p.weatherData.humidity ≤ 80) (he : 0 < p.irrigationEfficiency) :
    ((p.waterBalance M).currentAvailableWaterPercent < 30 →
      (calculateIrrigationRequirement M p).recommendation = "irrigate" ∧
      (calculateIrrigationRequirement M p).irrigationAmountMM =
        max 0 (0.7 * ((resolveSoilType p.soilType).fieldCapacity * 100) - p.soilMoisture) * 10
          / p.irrigationEfficiency) ∧
    (¬ (p.waterBalance M).currentAvailableWaterPercent < 30 →
      (p.waterBalance M).currentAvailableWaterPercent < 70 →
      (p.waterBalance M).waterDeficit > 2 →
      (calculateIrrigationRequirement M p).recommendation = "irrigate" ∧
      (calculateIrrigationRequirement M p).irrigationAmountMM =
        min (p.waterBalance M).waterDeficit 15 / p.irrigationEfficiency) ∧
    (¬ (p.waterBalance M).currentAvailableWaterPercent < 30 →
      (p.waterBalance M).currentAvailableWaterPercent < 70 →
      ¬ (p.waterBalance M).waterDeficit > 2 →
      (calculateIrrigationRequirement M p).recommendation = "maybe" ∧
      (calculateIrrigationRequirement M p).irrigationAmountMM =
        min (p.waterBalance M).waterDeficit 8 / p.irrigationEfficiency) ∧
    (¬ (p.waterBalance M).currentAvailableWaterPercent < 70 →
      (calculateIrrigationRequirement M p).recommendation = "dont-irrigate" ∧
      (calculateIrrigationRequirement M p).irrigationAmountMM = 0) := by
  have _he := he
  rw [recommendation_eq, irrigationAmountMM_eq, rainfallRule_of_le _ _ hrain,
    windRule_of_le _ _ hwind, humidityRule_of_le _ _ hhum]
  have hcm := waterBalance_currentMoisture M p
  have hfc := waterBalance_fieldCapacity M p
  refine ⟨fun h1 => ?_, fun h1 h2 h3 => ?_, fun h1 h2 h3 => ?_, fun h2 => ?_⟩
  · simp only [Params.threshold, thresholdRule, if_pos h1, hcm, hfc, true_and]
    congr 3
    ring
  · simp only [Params.threshold, thresholdRule, if_neg h1, if_pos (And.intro h2 h3), and_self]
  · have h4 : ¬ ((p.waterBalance M).currentAvailableWaterPercent < 70 ∧
        (p.waterBalance M).waterDeficit > 2) := fun h => h3 h.2
    simp only [Params.threshold, thresholdRule, if_neg h1, if_neg h4, if_pos h2, and_self]
  · have h1 : ¬ (p.waterBalance M).currentAvailableWaterPercent < 30 :=
      fun h => h2 (lt_trans h (by norm_num))
    have h4 : ¬ ((p.waterBalance M).currentAvailableWaterPercent < 70 ∧
        (p.waterBalance M).waterDeficit > 2) := fun h => h2 h.1
    simp only [Params.threshold, thresholdRule, if_neg h1, if_neg h4, if_neg h2, and_self]

/-- C1, at cotton on loamy soil with 12 % moisture in the default weather: no
adjustment applies, the critical branch is taken, and the amount is
max(0, 17.5 - 12) * 10 / 0.85 = 1100/17 mm. -/
theorem C1_threshold_result_when_no_adjustment_witness :
    ((dryLoamParams : Params ℝ).recentRainfall ≤ 5 ∧
      (dryLoamParams : Params ℝ).weatherData.windSpeed ≤ 15 ∧
      (dryLoamParams : Params ℝ).weatherData.humidity ≤ 80 ∧
      0 < (dryLoamParams : Params ℝ).irrigationEfficiency) ∧
    (dryLoamParams.waterBalance realMath).currentAvailableWaterPercent < 30 ∧
    (calculateIrrigationRequirement realMath dryLoamParams).recommendation = "irrigate" ∧
    (calculateIrrigationRequirement realMath dryLoamParams).irrigationAmountMM = 1100 / 17 := by
  have h1 : (dryLoamParams : Params ℝ).recentRainfall ≤ 5 := by norm_num [dryLoamParams]
  have h2 : (dryLoamParams : Params ℝ).weatherData.windSpeed ≤ 15 := by
    norm_num [dryLoamParams, defaultWeather]
  have h3 : (dryLoamParams : Params ℝ).weatherData.humidity ≤ 80 := by
    norm_num [dryLoamParams, defaultWeather]
  have h4 : 0 < (dryLoamParams : Params ℝ).irrigationEfficiency := by norm_num [dryLoamParams]
  have hP : (dryLoamParams.waterBalance realMath).currentAvailableWaterPercent < 30 := by
    rw [availablePercent_eq]
    norm_num [dryLoamParams, resolveSoilType_loamy, SOIL_TYPES.loamy]
  have h := (C1_threshold_result_when_no_adjustment realMath dryLoamParams h1 h2 h3 h4).1 hP
  refine ⟨⟨h1, h2, h3, h4⟩, hP, h.1, ?_⟩
  rw [h.2]
  norm_num [dryLoamParams, resolveSoilType_loamy, SOIL_TYPES.loamy]

/-- C2: for every input with recent rainfall above 5, a threshold verdict of
irrigate with amount A ends as maybe with amount 0.5 * A whatever the wind
speed and the humidity are; a threshold verdict of maybe ends as dont-irrigate
with amount 0; a threshold verdict of dont-irrigate is left unchanged. -/
theorem C2_rainfall_deescalation {α : Type} [LinearOrderedField α] [FloorRing α]
    (M : JsMath α) (p : Params α) (hrain : p.recentRainfall > 5) :
    ((p.threshold M).recommendation = "irrigate" →
      (calculateIrrigationRequirement M p).recommendation = "maybe" ∧
      (calculateIrrigationRequirement M p).irrigationAmountMM =
        0.5 * (p.threshold M).irrigationAmount) ∧
    ((p.threshold M).recommendation = "maybe" →
      (calculateIrrigationRequirement M p).recommendation = "dont-irrigate" ∧
      (calculateIrrigationRequirement M p).irrigationAmountMM = 0) ∧
    ((p.threshold M).recommendation = "dont-irrigate" →
      (calculateIrrigationRequirement M p).recommendation = "dont-irrigate" ∧
      (calculateIrrigationRequirement M p).irrigationAmountMM =
        (p.threshold M).irrigationAmount) := by
  rw [recommendation_eq, irrigationAmountMM_eq]
  refine ⟨fun h => ?_, fun h => ?_, fun h => ?_⟩
  · have hr : rainfallRule p.recentRainfall (p.threshold M) =
        { recommendation := "maybe"
          irrigationAmount := (p.threshold M).irrigationAmount * 0.5
          reason := (p.threshold M).reason ++
            [ReasonFragment.rainfallDetected p.recentRainfall] } := by
      unfold rainfallRule
      rw [if_pos hrain, if_pos h]
    rw [hr, windRule_of_ne _ _ maybe_ne_irrigate, humidityRule_of_ne _ _ maybe_ne_irrigate]
    exact ⟨rfl, mul_comm _ _⟩
  · have hr : rainfallRule p.recentRainfall (p.threshold M) =
        { recommendation := "dont-irrigate"
          irrigationAmount := 0
          reason := (p.threshold M).reason ++
            [ReasonFragment.rainfallUnnecessary p.recentRainfall] } := by
      unfold rainfallRule
      rw [if_pos hrain, if_neg (by rw [h]; decide), if_pos h]
    rw [hr, windRule_of_ne _ _ dont_ne_irrigate, humidityRule_of_ne _ _ dont_ne_irrigate]
    exact ⟨rfl, rfl⟩
  · have hr : rainfallRule p.recentRainfall (p.threshold M) = p.threshold M := by
      unfold rainfallRule
      rw [if_pos hrain, if_neg (by rw [h]; decide), if_neg (by rw [h]; decide)]
    rw [hr, windRule_of_ne _ _ (by rw [h]; decide), humidityRule_of_ne _ _ (by rw [h]; decide)]
    exact ⟨h, rfl⟩

/-- C2, at cotton on loamy soil with 12 % moisture after 6 mm of rain: the
threshold verdict is irrigate with 1100/17 mm, the final verdict is maybe with
half of it. -/
theorem C2_rainfall_deescalation_witness :
    (dryLoamAfterRainParams : Params ℝ).recentRainfall > 5 ∧
    (dryLoamAfterRainParams.threshold realMath).recommendation = "irrigate" ∧
    (dryLoamAfterRainParams.threshold realMath).irrigationAmount = 1100 / 17 ∧
    (calculateIrrigationRequirement realMath dryLoamAfterRainParams).recommendation = "maybe" ∧
    (calculateIrrigationRequirement realMath dryLoamAfterRainParams).irrigationAmountMM =
      550 / 17 := by
  have h1 : (dryLoamAfterRainParams : Params ℝ).recentRainfall > 5 := by
    norm_num [dryLoamAfterRainParams]
  have hP : (dryLoamAfterRainParams.waterBalance realMath).currentAvailableWaterPercent < 30 := by
    rw [availablePercent_eq]
    norm_num [dryLoamAfterRainParams, dryLoamParams, resolveSoilType_loamy, SOIL_TYPES.loamy]
  have hv : (dryLoamAfterRainParams.threshold realMath).recommendation = "irrigate" := by
    simp only [Params.threshold, thresholdRule, if_pos hP]
  have ha : (dryLoamAfterRainParams.threshold realMath).irrigationAmount = 1100 / 17 := by
    simp only [Params.threshold, thresholdRule, if_pos hP, waterBalance_fieldCapacity,
      waterBalance_currentMoisture]
    norm_num [dryLoamAfterRainParams, dryLoamParams, resolveSoilType_loamy, SOIL_TYPES.loamy]
  have h := (C2_rainfall_deescalation realMath dryLoamAfterRainParams h1).1 hv
  refine ⟨h1, hv, ha, h.1, ?_⟩
  rw [h.2, ha]
  norm_num

/-- C3: for every input with recent rainfall at most 5 whose threshold verdict
is irrigate with amount A, a wind speed above 15 gives maybe with 0.7 * A (also
when the humidity is above 80), a wind speed at most 15 with humidity above 80
gives maybe with 0.8 * A, and otherwise the result is irrigate with A.  A
verdict of maybe or dont-irrigate is never changed by the wind and humidity
rules, so with recent rainfall at most 5 the threshold verdict and amount are
the final ones. -/
theorem C3_wind_and_humidity_adjustment {α : Type} [LinearOrderedField α] [FloorRing α]
    (M : JsMath α) (p : Params α) (hrain : p.recentRainfall ≤ 5) :
    ((p.threshold M).recommendation = "irrigate" →
      (p.weatherData.windSpeed > 15 →
        (calculateIrrigationRequirement M p).recommendation = "maybe" ∧
        (calculateIrrigationRequirement M p).irrigationAmountMM =
          0.7 * (p.threshold M).irrigationAmount) ∧
      (p.weatherData.windSpeed ≤ 15 → p.weatherData.humidity > 80 →
        (calculateIrrigationRequirement M p).recommendation = "maybe" ∧
        (calculateIrrigationRequirement M p).irrigationAmountMM =
          0.8 * (p.threshold M).irrigationAmount) ∧
      (p.weatherData.windSpeed ≤ 15 → p.weatherData.humidity ≤ 80 →
        (calculateIrrigationRequirement M p).recommendation = "irrigate" ∧
        (calculateIrrigationRequirement M p).irrigationAmountMM =
          (p.threshold M).irrigationAmount)) ∧
    ((p.threshold M).recommendation = "maybe" ∨
        (p.threshold M).recommendation = "dont-irrigate" →
      (calculateIrrigationRequirement M p).recommendation = (p.threshold M).recommendation ∧
      (calculateIrrigationRequirement M p).irrigationAmountMM =
        (p.threshold M).irrigationAmount) ∧
    (∀ (d : Decision α) (windSpeed humidity : α),
      d.recommendation = "maybe" ∨ d.recommendation = "dont-irrigate" →
      humidityRule humidity (windRule windSpeed d) = d) := by
  rw [recommendation_eq, irrigationAmountMM_eq, rainfallRule_of_le _ _ hrain]
  have key : ∀ (d : Decision α) (windSpeed humidity : α),
      d.recommendation = "maybe" ∨ d.recommendation = "dont-irrigate" →
      humidityRule humidity (windRule windSpeed d) = d := by
    intro d w u hd
    have hne : d.recommendation ≠ "irrigate" := by
      rcases hd with hd | hd <;> rw [hd] <;> decide
    rw [windRule_of_ne _ _ hne, humidityRule_of_ne _ _ hne]
  refine ⟨fun h => ⟨fun hw => ?_, fun hw hu => ?_, fun hw hu => ?_⟩, fun h => ?_, key⟩
  · have hr : windRule p.weatherData.windSpeed (p.threshold M) =
        { recommendation := "maybe"
          irrigationAmount := (p.threshold M).irrigationAmount * 0.7
          reason := (p.threshold M).reason ++
            [ReasonFragment.highWind p.weatherData.windSpeed] } := by
      unfold windRule
      rw [if_pos hw, if_pos h]
    rw [hr, humidityRule_of_ne _ _ maybe_ne_irrigate]
    exact ⟨rfl, mul_comm _ _⟩
  · have hr : humidityRule p.weatherData.humidity (p.threshold M) =
        { recommendation := "maybe"
          irrigationAmount := (p.threshold M).irrigationAmount * 0.8
          reason := (p.threshold M).reason ++
            [ReasonFragment.highHumidity p.weatherData.humidity] } := by
      unfold humidityRule
      rw [if_pos hu, if_pos h]
    rw [windRule_of_le _ _ hw, hr]
    exact ⟨rfl, mul_comm _ _⟩
  · rw [windRule_of_le _ _ hw, humidityRule_of_le _ _ hu]
    exact ⟨h, rfl⟩
  · rw [key _ _ _ h]
    exact ⟨rfl, rfl⟩

/-- C3, at cotton on loamy soil with 12 % moisture, wind 20 km/h and humidity
85 %: the threshold amount 1100/17 mm is multiplied by 0.7 only. -/
theorem C3_wind_and_humidity_adjustment_witness :
    (dryLoamWindyParams : Params ℝ).recentRainfall ≤ 5 ∧
    (dryLoamWindyParams.threshold realMath).recommendation = "irrigate" ∧
    (dryLoamWindyParams : Params ℝ).weatherData.windSpeed > 15 ∧
    (dryLoamWindyParams : Params ℝ).weatherData.humidity > 80 ∧
    (calculateIrrigationRequirement realMath dryLoamWindyParams).recommendation = "maybe" ∧
    (calculateIrrigationRequirement realMath dryLoamWindyParams).irrigationAmountMM =
      770 / 17 := by
  have h1 : (dryLoamWindyParams : Params ℝ).recentRainfall ≤ 5 := by
    norm_num [dryLoamWindyParams, dryLoamParams]
  have hw : (dryLoamWindyParams : Params ℝ).weatherData.windSpeed > 15 := by
    norm_num [dryLoamWindyParams]
  have hu : (dryLoamWindyParams : Params ℝ).weatherData.humidity > 80 := by
    norm_num [dryLoamWindyParams]
  have hP : (dryLoamWindyParams.waterBalance realMath).currentAvailableWaterPercent < 30 := by
    rw [availablePercent_eq]
    norm_num [dryLoamWindyParams, dryLoamParams, resolveSoilType_loamy, SOIL_TYPES.loamy]
  have hv : (dryLoamWindyParams.threshold realMath).recommendation = "irrigate" := by
    simp only [Params.threshold, thresholdRule, if_pos hP]
  have ha : (dryLoamWindyParams.threshold realMath).irrigationAmount = 1100 / 17 := by
    simp only [Params.threshold, thresholdRule, if_pos hP, waterBalance_fieldCapacity,
      waterBalance_currentMoisture]
    norm_num [dryLoamWindyParams, dryLoamParams, resolveSoilType_loamy, SOIL_TYPES.loamy]
  have h := ((C3_wind_and_humidity_adjustment realMath dryLoamWindyParams h1).1 hv).1 hw
  refine ⟨h1, hv, hw, hu, h.1, ?_⟩
  rw [h.2, ha]
  norm_num

/-- C4: the adjustment rules never re-escalate.  For every input with a
positive irrigation efficiency, in the order dont-irrigate < maybe < irrigate,
the final recommendation is not above the verdict of the threshold rule, and
the final irrigationAmountMM is not greater than the amount of the threshold
rule. -/
theorem C4_adjustments_never_escalate {α : Type} [LinearOrderedField α] [FloorRing α]
    (M : JsMath α) (p : Params α) (he : 0 < p.irrigationEfficiency) :
    verdictRank (calculateIrrigationRequirement M p).recommendation ≤
      verdictRank (p.threshold M).recommendation ∧
    (calculateIrrigationRequirement M p).irrigationAmountMM ≤
      (p.threshold M).irrigationAmount := by
  rw [recommendation_eq, irrigationAmountMM_eq]
  have h := final_le p.recentRainfall p.weatherData.windSpeed p.weatherData.humidity
    (p.threshold M) (threshold_amount_nonneg M p he) (threshold_recommendation_cases M p)
  exact ⟨h.1, h.2.1⟩

/-- C4, at cotton on loamy soil with 12 % moisture after 6 mm of rain: the
threshold verdict irrigate (rank 2, 1100/17 mm) ends as maybe (rank 1,
550/17 mm). -/
theorem C4_adjustments_never_escalate_witness :
    0 < (dryLoamAfterRainParams : Params ℝ).irrigationEfficiency ∧
    verdictRank (calculateIrrigationRequirement realMath dryLoamAfterRainParams).recommendation ≤
      verdictRank (dryLoamAfterRainParams.threshold realMath).recommendation ∧
    (calculateIrrigationRequirement realMath dryLoamAfterRainParams).irrigationAmountMM ≤
      (dryLoamAfterRainParams.threshold realMath).irrigationAmount :=
  have h1 : 0 < (dryLoamAfterRainParams : Params ℝ).irrigationEfficiency := by
    norm_num [dryLoamAfterRainParams, dryLoamParams]
  ⟨h1, C4_adjustments_never_escalate realMath dryLoamAfterRainParams h1⟩

/-- C5 (the code does this only when the crop evapotranspiration is a
number): two calls that differ only in recentRainfall, 10 against 0, with a
positive irrigation efficiency and a non-negative area, whose crop
evapotranspiration is a number cropET.  The water deficits are
max(0, cropET - 10) and max(0, cropET - 0); the verdict with rainfall 10 is not
above the verdict with rainfall 0 (dont-irrigate < maybe < irrigate), and
irrigationAmountMM and irrigationAmount (litres) with rainfall 10 are at most
those with rainfall 0, although the rainfall also lowers the water deficit and
so can change the threshold branch.  At -20 degrees without a solar radiation
(cotton on loamy soil at 15 % moisture) the crop evapotranspiration of both
calls is NaN; there the amount with rainfall 0 is NaN and the comparison
fails. -/
theorem C5_rainfall_monotone {α : Type} [LinearOrderedField α] [FloorRing α]
    (M : JsMath α) (p : Params α) (cropET : α) (hET : p.cropETValue M = some cropET)
    (he : 0 < p.irrigationEfficiency) (harea : 0 ≤ p.area) :
    verdictRank
        (calculateIrrigationRequirement M { p with recentRainfall := 10 }).recommendation ≤
      verdictRank
        (calculateIrrigationRequirement M { p with recentRainfall := 0 }).recommendation ∧
    (calculateIrrigationRequirement M { p with recentRainfall := 10 }).irrigationAmountMM ≤
      (calculateIrrigationRequirement M { p with recentRainfall := 0 }).irrigationAmountMM ∧
    (calculateIrrigationRequirement M { p with recentRainfall := 10 }).irrigationAmount ≤
      (calculateIrrigationRequirement M { p with recentRainfall := 0 }).irrigationAmount ∧
    (Params.waterBalance M { p with recentRainfall := 10 }).waterDeficit =
      max 0 (cropET - 10) ∧
    (Params.waterBalance M { p with recentRainfall := 0 }).waterDeficit = max 0 (cropET - 0) ∧
    Params.cropETValue M { criticalMoistureParams coldWeather with recentRainfall := 10 } =
      none ∧
    Params.cropETValue M { criticalMoistureParams coldWeather with recentRainfall := 0 } =
      none := by
  have main :
      verdictRank
          (calculateIrrigationRequirement M { p with recentRainfall := 10 }).recommendation ≤
        verdictRank
          (calculateIrrigationRequirement M { p with recentRainfall := 0 }).recommendation ∧
      (calculateIrrigationRequirement M { p with recentRainfall := 10 }).irrigationAmountMM ≤
        (calculateIrrigationRequirement M { p with recentRainfall := 0 }).irrigationAmountMM := by
    rw [recommendation_eq, irrigationAmountMM_eq, recommendation_eq, irrigationAmountMM_eq]
    set p0 : Params α := { p with recentRainfall := 0 } with hp0
    set p1 : Params α := { p with recentRainfall := 10 } with hp1
    have he0 : 0 < p0.irrigationEfficiency := he
    have he1 : 0 < p1.irrigationEfficiency := he
    have hr0 : p0.recentRainfall ≤ 5 := by show (0 : α) ≤ 5; norm_num
    have hr1 : p1.recentRainfall > 5 := by show (10 : α) > 5; norm_num
    have hP : (p1.waterBalance M).currentAvailableWaterPercent =
        (p0.waterBalance M).currentAvailableWaterPercent := by
      rw [availablePercent_eq, availablePercent_eq]
    have hD0 : (p0.waterBalance M).waterDeficit = max 0 (p.cropET M - 0) := waterDeficit_eq M p0
    have hD1 : (p1.waterBalance M).waterDeficit = max 0 (p.cropET M - 10) := waterDeficit_eq M p1
    have hDle : (p1.waterBalance M).waterDeficit ≤ (p0.waterBalance M).waterDeficit := by
      rw [hD0, hD1]
      exact max_le_max (le_refl _) (by linarith)
    have hD1nn := waterDeficit_nonneg M p1
    have hA0 := threshold_amount_nonneg M p0 he0
    have hf0 := final_le p0.recentRainfall p0.weatherData.windSpeed p0.weatherData.humidity
      (p0.threshold M) hA0 (threshold_recommendation_cases M p0)
    show verdictRank (humidityRule p.weatherData.humidity (windRule p.weatherData.windSpeed
          (rainfallRule p1.recentRainfall (p1.threshold M)))).recommendation ≤
        verdictRank (humidityRule p.weatherData.humidity (windRule p.weatherData.windSpeed
          (rainfallRule p0.recentRainfall (p0.threshold M)))).recommendation ∧
      (humidityRule p.weatherData.humidity (windRule p.weatherData.windSpeed
          (rainfallRule p1.recentRainfall (p1.threshold M)))).irrigationAmount ≤
        (humidityRule p.weatherData.humidity (windRule p.weatherData.windSpeed
          (rainfallRule p0.recentRainfall (p0.threshold M)))).irrigationAmount
    have hf0nn : 0 ≤ (humidityRule p.weatherData.humidity (windRule p.weatherData.windSpeed
          (rainfallRule p0.recentRainfall (p0.threshold M)))).irrigationAmount := hf0.2.2
    by_cases h30 : (p0.waterBalance M).currentAvailableWaterPercent < 30
    · -- critical branch: the same threshold decision for both calls
      have ht : p1.threshold M = p0.threshold M := by
        simp only [Params.threshold, thresholdRule, hP, if_pos h30, waterBalance_fieldCapacity,
          waterBalance_currentMoisture]
      have hv : (p0.threshold M).recommendation = "irrigate" := by
        simp only [Params.threshold, thresholdRule, if_pos h30]
      rw [ht]
      obtain ⟨a1, a2⟩ := (final_of_irrigate p1.recentRainfall p.weatherData.windSpeed
        p.weatherData.humidity _ hv).1 hr1
      obtain ⟨b1, b2⟩ := (final_of_irrigate p0.recentRainfall p.weatherData.windSpeed
        p.weatherData.humidity _ hv).2 hr0
      rw [a1, a2]
      constructor
      · rcases b1 with b1 | b1 <;> rw [b1]
        decide
      · rcases b2 with b2 | b2 | b2 <;> rw [b2] <;> linarith
    · by_cases h70 : (p0.waterBalance M).currentAvailableWaterPercent < 70
      · by_cases hd1 : (p1.waterBalance M).waterDeficit > 2
        · -- both calls take the deficit branch with verdict irrigate
          have hd0 : (p0.waterBalance M).waterDeficit > 2 := lt_of_lt_of_le hd1 hDle
          have hv1 : (p1.threshold M).recommendation = "irrigate" := by
            simp only [Params.threshold, thresholdRule, hP, if_neg h30,
              if_pos (And.intro h70 hd1)]
          have hv0 : (p0.threshold M).recommendation = "irrigate" := by
            simp only [Params.threshold, thresholdRule, if_neg h30, if_pos (And.intro h70 hd0)]
          have ha1 : (p1.threshold M).irrigationAmount =
              min (p1.waterBalance M).waterDeficit 15 / p.irrigationEfficiency := by
            simp only [Params.threshold, thresholdRule, hP, if_neg h30,
              if_pos (And.intro h70 hd1)]
          have ha0 : (p0.threshold M).irrigationAmount =
              min (p0.waterBalance M).waterDeficit 15 / p.irrigationEfficiency := by
            simp only [Params.threshold, thresholdRule, if_neg h30, if_pos (And.intro h70 hd0)]
          have hle : (p1.threshold M).irrigationAmount ≤ (p0.threshold M).irrigationAmount := by
            rw [ha1, ha0]
            exact div_le_div_of_nonneg_right (min_le_min hDle (le_refl _)) he.le
          have hA1 := threshold_amount_nonneg M p1 he1
          obtain ⟨a1, a2⟩ := (final_of_irrigate p1.recentRainfall p.weatherData.windSpeed
            p.weatherData.humidity _ hv1).1 hr1
          obtain ⟨b1, b2⟩ := (final_of_irrigate p0.recentRainfall p.weatherData.windSpeed
            p.weatherData.humidity _ hv0).2 hr0
          rw [a1, a2]
          constructor
          · rcases b1 with b1 | b1 <;> rw [b1]
            decide
          · rcases b2 with b2 | b2 | b2 <;> rw [b2] <;> linarith
        · -- the rainy call ends as dont-irrigate with amount 0
          have h4 : ¬ ((p0.waterBalance M).currentAvailableWaterPercent < 70 ∧
              (p1.waterBalance M).waterDeficit > 2) := fun h => hd1 h.2
          have hv1 : (p1.threshold M).recommendation = "maybe" := by
            simp only [Params.threshold, thresholdRule, hP, if_neg h30, if_neg h4, if_pos h70]
          obtain ⟨a1, a2⟩ := (final_of_maybe p1.recentRainfall p.weatherData.windSpeed
            p.weatherData.humidity _ hv1).1 hr1
          rw [a1, a2, verdictRank_dont]
          exact ⟨Nat.zero_le _, hf0nn⟩
      · -- adequate moisture: dont-irrigate with amount 0 for both calls
        have h4 : ∀ x : α, ¬ ((p0.waterBalance M).currentAvailableWaterPercent < 70 ∧ x > 2) :=
          fun _ h => h70 h.1
        have hv1 : (p1.threshold M).recommendation = "dont-irrigate" := by
          simp only [Params.threshold, thresholdRule, hP, if_neg h30, if_neg (h4 _), if_neg h70]
        have ha1 : (p1.threshold M).irrigationAmount = 0 := by
          simp only [Params.threshold, thresholdRule, hP, if_neg h30, if_neg (h4 _), if_neg h70]
        rw [final_of_dont _ _ _ _ hv1, hv1, ha1, verdictRank_dont]
        exact ⟨Nat.zero_le _, hf0nn⟩
  refine ⟨main.1, main.2, ?_, waterDeficit_of_value M { p with recentRainfall := 10 } cropET hET,
    waterDeficit_of_value M { p with recentRainfall := 0 } cropET hET,
    frost_cropET_nan M _ rfl, frost_cropET_nan M _ rfl⟩
  rw [irrigationAmount_eq, irrigationAmount_eq]
  apply mathRound_mono
  have h10 : (0 : α) ≤ 10 := by norm_num
  exact mul_le_mul_of_nonneg_right (mul_le_mul_of_nonneg_right main.2 h10) harea

/-- C5, at cotton on loamy soil with 12 % moisture in the default weather,
where the crop evapotranspiration is a number, rainfall 10 against rainfall
0. -/
theorem C5_rainfall_monotone_witness :
    (∃ c : ℝ, (dryLoamParams : Params ℝ).cropETValue realMath = some c) ∧
    (0 < (dryLoamParams : Params ℝ).irrigationEfficiency ∧
      0 ≤ (dryLoamParams : Params ℝ).area) ∧
    verdictRank (calculateIrrigationRequirement realMath
        { (dryLoamParams : Params ℝ) with recentRainfall := 10 }).recommendation ≤
      verdictRank (calculateIrrigationRequirement realMath
        { (dryLoamParams : Params ℝ) with recentRainfall := 0 }).recommendation ∧
    (calculateIrrigationRequirement realMath
        { (dryLoamParams : Params ℝ) with recentRainfall := 10 }).irrigationAmountMM ≤
      (calculateIrrigationRequirement realMath
        { (dryLoamParams : Params ℝ) with recentRainfall := 0 }).irrigationAmountMM ∧
    (calculateIrrigationRequirement realMath
        { (dryLoamParams : Params ℝ) with recentRainfall := 10 }).irrigationAmount ≤
      (calculateIrrigationRequirement realMath
        { (dryLoamParams : Params ℝ) with recentRainfall := 0 }).irrigationAmount := by
  have h1 : 0 < (dryLoamParams : Params ℝ).irrigationEfficiency := by norm_num [dryLoamParams]
  have h2 : 0 ≤ (dryLoamParams : Params ℝ).area := by norm_num [dryLoamParams]
  obtain ⟨c, hc⟩ := default_cotton_cropET dryLoamParams rfl rfl rfl
  obtain ⟨a, b, d, _⟩ := C5_rainfall_monotone realMath dryLoamParams c hc h1 h2
  exact ⟨⟨c, hc⟩, ⟨h1, h2⟩, a, b, d⟩

/-- C6 (the code does this only when the crop evapotranspiration is a
number): for every input within the data model (0 < irrigationEfficiency <= 1,
area > 0) whose crop evapotranspiration is a number cropET, the water deficit
is max(0, cropET - recentRainfall), irrigationAmountMM is non-negative, and
irrigationAmount (litres) is irrigationAmountMM * 10 * area rounded to the
nearest integer with a tie going up, and is a non-negative integer.  At -20
degrees without a solar radiation (cotton on loamy soil at 15 % moisture) the
crop evapotranspiration is NaN while the available water percent is 100/3;
there both amounts are NaN. -/
theorem C6_amount_nonnegative_and_rounded {α : Type} [LinearOrderedField α] [FloorRing α]
    (M : JsMath α) (p : Params α) (cropET : α) (hET : p.cropETValue M = some cropET)
    (he : 0 < p.irrigationEfficiency)
    (he1 : p.irrigationEfficiency ≤ 1) (harea : 0 < p.area) :
    0 ≤ (calculateIrrigationRequirement M p).irrigationAmountMM ∧
    (calculateIrrigationRequirement M p).irrigationAmount =
      mathRound ((calculateIrrigationRequirement M p).irrigationAmountMM * 10 * p.area) ∧
    (((calculateIrrigationRequirement M p).irrigationAmount : α) - 1 / 2 ≤
        (calculateIrrigationRequirement M p).irrigationAmountMM * 10 * p.area ∧
      (calculateIrrigationRequirement M p).irrigationAmountMM * 10 * p.area <
        ((calculateIrrigationRequirement M p).irrigationAmount : α) + 1 / 2) ∧
    0 ≤ (calculateIrrigationRequirement M p).irrigationAmount ∧
    (p.waterBalance M).waterDeficit = max 0 (cropET - p.recentRainfall) ∧
    (calculateIrrigationRequirement M p).calculations.cropET =
      some ((mathRound (cropET * 100) : α) / 100) ∧
    (0 < (criticalMoistureParams coldWeather : Params α).irrigationEfficiency ∧
      (criticalMoistureParams coldWeather : Params α).irrigationEfficiency ≤ 1 ∧
      0 < (criticalMoistureParams coldWeather : Params α).area) ∧
    (criticalMoistureParams coldWeather).cropETValue M = none ∧
    ((criticalMoistureParams coldWeather).waterBalance M).currentAvailableWaterPercent =
      100 / 3 := by
  have _h := he1
  have hcalc : (calculateIrrigationRequirement M p).calculations.cropET =
      some ((mathRound (cropET * 100) : α) / 100) := by
    show (p.cropETValue M).map (fun x => (mathRound (x * 100) : α) / 100) = _
    rw [hET, Option.map_some']
  have hfrost : (0 < (criticalMoistureParams coldWeather : Params α).irrigationEfficiency ∧
      (criticalMoistureParams coldWeather : Params α).irrigationEfficiency ≤ 1 ∧
      0 < (criticalMoistureParams coldWeather : Params α).area) := by
    refine ⟨?_, ?_, ?_⟩ <;> norm_num [criticalMoistureParams]
  have hmm : 0 ≤ (calculateIrrigationRequirement M p).irrigationAmountMM := by
    rw [irrigationAmountMM_eq]
    exact (final_le p.recentRainfall p.weatherData.windSpeed p.weatherData.humidity
      (p.threshold M) (threshold_amount_nonneg M p he)
      (threshold_recommendation_cases M p)).2.2
  refine ⟨hmm, irrigationAmount_eq M p, ?_, ?_, waterDeficit_of_value M p cropET hET, hcalc,
    hfrost, frost_cropET_nan M _ rfl, loamy15_percent M _ rfl rfl⟩
  · rw [irrigationAmount_eq]
    exact mathRound_bounds _
  · rw [irrigationAmount_eq]
    exact mathRound_nonneg _ (mul_nonneg (mul_nonneg hmm (by norm_num)) harea.le)

/-- C6, at cotton on loamy soil with 12 % moisture in the default weather on
one hectare, where the crop evapotranspiration is a number: 1100/17 mm, that
is 647 litres per hectare. -/
theorem C6_amount_nonnegative_and_rounded_witness :
    (∃ c : ℝ, (dryLoamParams : Params ℝ).cropETValue realMath = some c) ∧
    (0 < (dryLoamParams : Params ℝ).irrigationEfficiency ∧
      (dryLoamParams : Params ℝ).irrigationEfficiency ≤ 1 ∧
      0 < (dryLoamParams : Params ℝ).area) ∧
    0 ≤ (calculateIrrigationRequirement realMath dryLoamParams).irrigationAmountMM ∧
    (calculateIrrigationRequirement realMath dryLoamParams).irrigationAmount =
      mathRound ((calculateIrrigationRequirement realMath dryLoamParams).irrigationAmountMM
        * 10 * (dryLoamParams : Params ℝ).area) ∧
    0 ≤ (calculateIrrigationRequirement realMath dryLoamParams).irrigationAmount := by
  have h1 : 0 < (dryLoamParams : Params ℝ).irrigationEfficiency := by norm_num [dryLoamParams]
  have h2 : (dryLoamParams : Params ℝ).irrigationEfficiency ≤ 1 := by norm_num [dryLoamParams]
  have h3 : 0 < (dryLoamParams : Params ℝ).area := by norm_num [dryLoamParams]
  obtain ⟨c, hc⟩ := default_cotton_cropET dryLoamParams rfl rfl rfl
  have h := C6_amount_nonnegative_and_rounded realMath dryLoamParams c hc h1 h2 h3
  exact ⟨⟨c, hc⟩, ⟨h1, h2, h3⟩, h.1, h.2.1, h.2.2.2.1⟩

/-- C7 (the code does this only for a soil key that yields a profile): for a
soil moisture of 80 and every soil type for which line 216 yields a profile
(sandy, loamy, clay, clay_loam in any case, or an unknown key, which gets the
loamy profile), every crop, weather, recent rainfall and positive efficiency,
the available water percent, which is the one `calculateSoilWaterBalance`
returns, is above 100, the recommendation is dont-irrigate, and
irrigationAmountMM and irrigationAmount are 0.  More generally the same verdict
and zero amounts hold whenever the available water percent is at least 70.
For the soil type "constructor" at moisture 80 the returned balance has no
number as its available water percent, so the percent is not above 100. -/
theorem C7_adequate_moisture_no_irrigation {α : Type} [LinearOrderedField α] [FloorRing α]
    (M : JsMath α) (p : Params α) (s : SoilProfile α)
    (hk : lookupSoilType p.soilType = some s) (he : 0 < p.irrigationEfficiency) :
    (p.soilMoisture = 80 →
      (p.waterBalance M).currentAvailableWaterPercent > 100 ∧
      (calculateIrrigationRequirement M p).recommendation = "dont-irrigate" ∧
      (calculateIrrigationRequirement M p).irrigationAmountMM = 0 ∧
      (calculateIrrigationRequirement M p).irrigationAmount = 0) ∧
    ((p.waterBalance M).currentAvailableWaterPercent ≥ 70 →
      (calculateIrrigationRequirement M p).recommendation = "dont-irrigate" ∧
      (calculateIrrigationRequirement M p).irrigationAmountMM = 0 ∧
      (calculateIrrigationRequirement M p).irrigationAmount = 0) ∧
    (∀ cropET rainfall : α,
      ∃ wb, calculateSoilWaterBalance { type := p.soilType, moisture := p.soilMoisture }
          p.weatherData cropET rainfall = some wb ∧
        wb.currentAvailableWaterPercent =
          (p.waterBalance M).currentAvailableWaterPercent) ∧
    (lookupSoilType "constructor" : Option (SoilProfile α)) = none ∧
    (∀ cropET rainfall : α,
      calculateSoilWaterBalance { type := "constructor", moisture := (80 : α) }
        p.weatherData cropET rainfall = none) := by
  have _h := he
  have gen : (p.waterBalance M).currentAvailableWaterPercent ≥ 70 →
      (calculateIrrigationRequirement M p).recommendation = "dont-irrigate" ∧
      (calculateIrrigationRequirement M p).irrigationAmountMM = 0 ∧
      (calculateIrrigationRequirement M p).irrigationAmount = 0 := by
    intro h70
    have h2 : ¬ (p.waterBalance M).currentAvailableWaterPercent < 70 := not_lt.mpr h70
    have h1 : ¬ (p.waterBalance M).currentAvailableWaterPercent < 30 :=
      fun h => h2 (lt_trans h (by norm_num))
    have h4 : ¬ ((p.waterBalance M).currentAvailableWaterPercent < 70 ∧
        (p.waterBalance M).waterDeficit > 2) := fun h => h2 h.1
    have hv : (p.threshold M).recommendation = "dont-irrigate" := by
      simp only [Params.threshold, thresholdRule, if_neg h1, if_neg h4, if_neg h2]
    have ha : (p.threshold M).irrigationAmount = 0 := by
      simp only [Params.threshold, thresholdRule, if_neg h1, if_neg h4, if_neg h2]
    have hmm : (calculateIrrigationRequirement M p).irrigationAmountMM = 0 := by
      rw [irrigationAmountMM_eq, final_of_dont _ _ _ _ hv, ha]
    refine ⟨?_, hmm, ?_⟩
    · rw [recommendation_eq, final_of_dont _ _ _ _ hv, hv]
    · rw [irrigationAmount_eq, hmm, zero_mul, zero_mul, mathRound_zero]
  refine ⟨fun h80 => ?_, gen, fun cropET rainfall => balance_of_profile M p s hk cropET rainfall,
    rfl, fun _ _ => rfl⟩
  have hP : (p.waterBalance M).currentAvailableWaterPercent > 100 := by
    rw [availablePercent_eq, h80]
    rcases @resolveSoilType_cases α _ p.soilType with h | h | h | h <;> rw [h] <;>
      norm_num [SOIL_TYPES.sandy, SOIL_TYPES.loamy, SOIL_TYPES.clay, SOIL_TYPES.clay_loam]
  exact ⟨hP, gen (le_trans (by norm_num) hP.le)⟩

/-- C7, at cotton on loamy soil with 80 % moisture in the default weather (the
high moisture scenario of the test file). -/
theorem C7_adequate_moisture_no_irrigation_witness :
    lookupSoilType (wetLoamParams : Params ℝ).soilType =
      some (SOIL_TYPES.loamy : SoilProfile ℝ) ∧
    0 < (wetLoamParams : Params ℝ).irrigationEfficiency ∧
    (wetLoamParams : Params ℝ).soilMoisture = 80 ∧
    (wetLoamParams.waterBalance realMath).currentAvailableWaterPercent > 100 ∧
    (calculateIrrigationRequirement realMath wetLoamParams).recommendation = "dont-irrigate" ∧
    (calculateIrrigationRequirement realMath wetLoamParams).irrigationAmountMM = 0 ∧
    (calculateIrrigationRequirement realMath wetLoamParams).irrigationAmount = 0 :=
  have h1 : 0 < (wetLoamParams : Params ℝ).irrigationEfficiency := by norm_num [wetLoamParams]
  have hk : lookupSoilType (wetLoamParams : Params ℝ).soilType =
      some (SOIL_TYPES.loamy : SoilProfile ℝ) := rfl
  ⟨hk, h1, rfl,
    (C7_adequate_moisture_no_irrigation realMath wetLoamParams SOIL_TYPES.loamy hk h1).1 rfl⟩

/-! ## The moisture scenarios of the test file -/

/-- C8 (the code does not do this): the claim asks for irrigate at cotton on
loamy soil, day 60, 25 % moisture and no recent rainfall.  A moisture of 25 %
is the field capacity of loamy soil, so the available water percent is 100 and
the result is dont-irrigate with amount 0, in every weather. -/
theorem C8_low_moisture_gives_dont_irrigate {α : Type} [LinearOrderedField α] [FloorRing α]
    (M : JsMath α) (w : WeatherData α) :
    ((lowMoistureParams w).waterBalance M).currentAvailableWaterPercent = 100 ∧
    (calculateIrrigationRequirement M (lowMoistureParams w)).recommendation = "dont-irrigate" ∧
    (calculateIrrigationRequirement M (lowMoistureParams w)).irrigationAmountMM = 0 := by
  have hP : ((lowMoistureParams w).waterBalance M).currentAvailableWaterPercent = 100 := by
    rw [availablePercent_eq]
    norm_num [lowMoistureParams, resolveSoilType_loamy, SOIL_TYPES.loamy]
  have h2 : ¬ ((lowMoistureParams w).waterBalance M).currentAvailableWaterPercent < 70 := by
    rw [hP]; norm_num
  have h1 : ¬ ((lowMoistureParams w).waterBalance M).currentAvailableWaterPercent < 30 := by
    rw [hP]; norm_num
  have h4 : ¬ (((lowMoistureParams w).waterBalance M).currentAvailableWaterPercent < 70 ∧
      ((lowMoistureParams w).waterBalance M).waterDeficit > 2) := fun h => h2 h.1
  have hv : ((lowMoistureParams w).threshold M).recommendation = "dont-irrigate" := by
    simp only [Params.threshold, thresholdRule, if_neg h1, if_neg h4, if_neg h2]
  have ha : ((lowMoistureParams w).threshold M).irrigationAmount = 0 := by
    simp only [Params.threshold, thresholdRule, if_neg h1, if_neg h4, if_neg h2]
  refine ⟨hP, ?_, ?_⟩
  · rw [recommendation_eq, final_of_dont _ _ _ _ hv, hv]
  · rw [irrigationAmountMM_eq, final_of_dont _ _ _ _ hv, ha]

/-- C9 (the code does not do this): the claim asks for irrigate at cotton on
loamy soil, day 60, 15 % moisture and no recent rainfall in every weather with
wind speed at most 15 and humidity at most 80.  In the default weather without
wind (25 degrees, 60 % humidity, solar radiation 18.5) the available water
percent is 100/3, the crop evapotranspiration is at most 2 mm, and the result
is maybe. -/
theorem C9_critical_moisture_gives_maybe :
    (calmWeather : WeatherData ℝ).windSpeed ≤ 15 ∧
    (calmWeather : WeatherData ℝ).humidity ≤ 80 ∧
    ((criticalMoistureParams calmWeather).waterBalance realMath).currentAvailableWaterPercent
      = 100 / 3 ∧
    ((criticalMoistureParams calmWeather).waterBalance realMath).waterDeficit ≤ 2 ∧
    (calculateIrrigationRequirement realMath (criticalMoistureParams calmWeather)).recommendation
      = "maybe" := by
  obtain ⟨v, hv, hET⟩ := calm_ET0_le realMath real_exp_calm.1 real_exp_calm.2 real_sqrt_calm
  have hD : ((criticalMoistureParams calmWeather).waterBalance realMath).waterDeficit ≤ 2 := by
    rw [waterDeficit_eq]
    show max 0 (((calculateET0 realMath calmWeather).bind fun ET0 =>
      (getCropCoefficient "cotton" (getGrowthStage "cotton" (60 : ℝ))).map
        fun k => ET0 * k).getD 0 - 0) ≤ 2
    rw [hv, cotton_day60_coefficient]
    show max 0 (v * 0.7 - 0) ≤ 2
    refine max_le (by norm_num) ?_
    norm_num
    linarith
  have ht := (loamy15_threshold realMath (criticalMoistureParams calmWeather) rfl rfl).2
    (not_lt.mpr hD)
  refine ⟨by norm_num [calmWeather], by norm_num [calmWeather, defaultWeather],
    loamy15_percent realMath _ rfl rfl, hD, ?_⟩
  rw [recommendation_eq,
    (final_of_maybe _ _ _ _ ht.1).2 (by show (0 : ℝ) ≤ 5; norm_num), ht.1]

/-- C10: for soil type loamy and a soil moisture of 15, the available water
percent is (0.15 - 0.10) / (0.25 - 0.10) * 100 = 100/3, which is at least 30,
so the critical branch is not taken: the threshold verdict is irrigate, with
amount min(waterDeficit, 15) / efficiency, exactly when waterDeficit > 2, and
maybe otherwise. -/
theorem C10_loamy_fifteen_percent {α : Type} [LinearOrderedField α]
    (M : JsMath α) (p : Params α) (hs : p.soilType = "loamy") (hm : p.soilMoisture = 15) :
    (p.waterBalance M).currentAvailableWaterPercent = (0.15 - 0.10) / (0.25 - 0.10) * 100 ∧
    (p.waterBalance M).currentAvailableWaterPercent = 100 / 3 ∧
    (30 : α) ≤ (p.waterBalance M).currentAvailableWaterPercent ∧
    (p.threshold M).reason ≠
      [ReasonFragment.critical (p.waterBalance M).currentAvailableWaterPercent] ∧
    ((p.threshold M).recommendation = "irrigate" ↔ (p.waterBalance M).waterDeficit > 2) ∧
    ((p.waterBalance M).waterDeficit > 2 →
      (p.threshold M).irrigationAmount =
        min (p.waterBalance M).waterDeficit 15 / p.irrigationEfficiency) ∧
    (¬ (p.waterBalance M).waterDeficit > 2 → (p.threshold M).recommendation = "maybe") := by
  have hP := loamy15_percent M p hs hm
  have ht := loamy15_threshold M p hs hm
  refine ⟨?_, hP, ?_, ?_, ⟨fun h => ?_, fun h => (ht.1 h).1⟩, fun h => (ht.1 h).2,
    fun h => (ht.2 h).1⟩
  · rw [hP]; norm_num
  · rw [hP]; norm_num
  · have h30 : ¬ (p.waterBalance M).currentAvailableWaterPercent < 30 := by
      rw [hP]; norm_num
    simp only [Params.threshold, thresholdRule, if_neg h30]
    split_ifs <;> simp
  · by_contra hD
    have h2 := (ht.2 hD).1
    rw [h] at h2
    exact absurd h2 (by decide)

/-- C10, at the critical moisture scenario of the test file in the default
weather. -/
theorem C10_loamy_fifteen_percent_witness :
    ((criticalMoistureParams defaultWeather : Params ℝ).soilType = "loamy" ∧
      (criticalMoistureParams defaultWeather : Params ℝ).soilMoisture = 15) ∧
    ((criticalMoistureParams defaultWeather).waterBalance realMath).currentAvailableWaterPercent
      = 100 / 3 ∧
    (30 : ℝ) ≤
      ((criticalMoistureParams defaultWeather).waterBalance realMath).currentAvailableWaterPercent :=
  have h := C10_loamy_fifteen_percent realMath (criticalMoistureParams defaultWeather) rfl rfl
  ⟨⟨rfl, rfl⟩, h.2.1, h.2.2.1⟩

/-! ## The crop growth model -/

/-- C11: for each known crop, getGrowthStage returns the first stage whose
cumulative duration boundary is at least daysSincePlanting.  For cotton: up to
30 initial, up to 60 development, up to 120 mid, up to 150 late, above 150
harvest; the boundaries of wheat are 20, 50, 80, 110 and those of rice 30, 60,
100, 130.  In particular from the sum of all durations on (cotton 180, wheat
130, rice 160) the result is harvest. -/
theorem C11_growth_stage_boundaries {α : Type} [LinearOrderedField α] (d : α) :
    (∀ (cropType : String) (t : StageTable α),
      GROWTH_STAGE_DURATION (toLowerCase cropType) = some t →
      getGrowthStage cropType d =
        if d ≤ t.initial then "initial"
        else if d ≤ t.initial + t.development then "development"
        else if d ≤ t.initial + t.development + t.mid then "mid"
        else if d ≤ t.initial + t.development + t.mid + t.late then "late"
        else "harvest") ∧
    (getGrowthStage "cotton" d =
      if d ≤ 30 then "initial" else if d ≤ 60 then "development"
      else if d ≤ 120 then "mid" else if d ≤ 150 then "late" else "harvest") ∧
    (getGrowthStage "wheat" d =
      if d ≤ 20 then "initial" else if d ≤ 50 then "development"
      else if d ≤ 80 then "mid" else if d ≤ 110 then "late" else "harvest") ∧
    (getGrowthStage "rice" d =
      if d ≤ 30 then "initial" else if d ≤ 60 then "development"
      else if d ≤ 100 then "mid" else if d ≤ 130 then "late" else "harvest") ∧
    (180 ≤ d → getGrowthStage "cotton" d = "harvest") ∧
    (130 ≤ d → getGrowthStage "wheat" d = "harvest") ∧
    (160 ≤ d → getGrowthStage "rice" d = "harvest") := by
  refine ⟨fun c t ht => ?_, cotton_stage d, wheat_stage d, rice_stage d, fun h => ?_,
    fun h => ?_, fun h => ?_⟩
  · rw [getGrowthStage_own c d t ht, loop_entries]
  · rw [cotton_stage, if_neg (by linarith), if_neg (by linarith), if_neg (by linarith),
      if_neg (by linarith)]
  · rw [wheat_stage, if_neg (by linarith), if_neg (by linarith), if_neg (by linarith),
      if_neg (by linarith)]
  · rw [rice_stage, if_neg (by linarith), if_neg (by linarith), if_neg (by linarith),
      if_neg (by linarith)]

/-- C12: getGrowthStage is monotonic in daysSincePlanting.  For every crop type
and all d1 <= d2, the index of the stage at d1, in the order initial <
development < mid < late < harvest, is at most the index of the stage at d2. -/
theorem C12_growth_stage_monotone {α : Type} [LinearOrderedField α] (cropType : String)
    (d1 d2 : α) (h : d1 ≤ d2) :
    stageIndex (getGrowthStage cropType d1) ≤ stageIndex (getGrowthStage cropType d2) := by
  rcases @GROWTH_STAGE_DURATION_cases α _ (toLowerCase cropType) with hk | hk | hk | hk
  · rw [getGrowthStage_own _ _ _ hk, getGrowthStage_own _ _ _ hk, loop_entries, loop_entries]
    norm_num [GROWTH_STAGE_DURATION.cotton]
    split_ifs <;> first | decide | (exfalso; linarith)
  · rw [getGrowthStage_own _ _ _ hk, getGrowthStage_own _ _ _ hk, loop_entries, loop_entries]
    norm_num [GROWTH_STAGE_DURATION.wheat]
    split_ifs <;> first | decide | (exfalso; linarith)
  · rw [getGrowthStage_own _ _ _ hk, getGrowthStage_own _ _ _ hk, loop_entries, loop_entries]
    norm_num [GROWTH_STAGE_DURATION.rice]
    split_ifs <;> first | decide | (exfalso; linarith)
  · rw [getGrowthStage_not_own _ _ hk, getGrowthStage_not_own _ _ hk]

/-- C12, at cotton between day 15 (initial, index 0) and day 80 (mid, index 2). -/
theorem C12_growth_stage_monotone_witness :
    (15 : ℝ) ≤ 80 ∧
    stageIndex (getGrowthStage "cotton" (15 : ℝ)) = 0 ∧
    stageIndex (getGrowthStage "cotton" (80 : ℝ)) = 2 ∧
    stageIndex (getGrowthStage "cotton" (15 : ℝ)) ≤
      stageIndex (getGrowthStage "cotton" (80 : ℝ)) := by
  have h : (15 : ℝ) ≤ 80 := by norm_num
  refine ⟨h, ?_, ?_, C12_growth_stage_monotone "cotton" 15 80 h⟩
  · rw [cotton_stage]
    norm_num
    decide
  · rw [cotton_stage]
    norm_num
    decide

/-- C13: for every ET0, known crop and daysSincePlanting, calculateCropET is
ET0 * Kc with Kc the table coefficient of the stage that getGrowthStage gives,
and the recommendation reports that stage and coefficient in
calculations.growthStage and calculations.cropCoefficient.  For cotton the
stage is initial with Kc 0.4 at day 15, mid with Kc 1.15 at day 80 and late
with Kc 0.8 at day 130. -/
theorem C13_crop_evapotranspiration {α : Type} [LinearOrderedField α] [FloorRing α]
    (M : JsMath α) (p : Params α) (ET0 : α)
    (hc : toLowerCase p.cropType = "cotton" ∨ toLowerCase p.cropType = "wheat" ∨
      toLowerCase p.cropType = "rice") :
    (∃ (t : StageTable α) (Kc : α),
      CROP_COEFFICIENTS (toLowerCase p.cropType) = some t ∧
      t.get? (getGrowthStage p.cropType p.daysSincePlanting) = some Kc ∧
      calculateCropET ET0 p.cropType p.daysSincePlanting = some (ET0 * Kc) ∧
      (calculateIrrigationRequirement M p).calculations.growthStage =
        getGrowthStage p.cropType p.daysSincePlanting ∧
      (calculateIrrigationRequirement M p).calculations.cropCoefficient = some Kc) ∧
    (getGrowthStage "cotton" (15 : α) = "initial" ∧
      calculateCropET ET0 "cotton" 15 = some (ET0 * 0.4) ∧
      (calculateIrrigationRequirement M
        { p with cropType := "cotton", daysSincePlanting := 15 }).calculations.cropCoefficient
        = some 0.4) ∧
    (getGrowthStage "cotton" (80 : α) = "mid" ∧
      calculateCropET ET0 "cotton" 80 = some (ET0 * 1.15) ∧
      (calculateIrrigationRequirement M
        { p with cropType := "cotton", daysSincePlanting := 80 }).calculations.cropCoefficient
        = some 1.15) ∧
    (getGrowthStage "cotton" (130 : α) = "late" ∧
      calculateCropET ET0 "cotton" 130 = some (ET0 * 0.8) ∧
      (calculateIrrigationRequirement M
        { p with cropType := "cotton", daysSincePlanting := 130 }).calculations.cropCoefficient
        = some 0.8) := by
  have h15 : getGrowthStage "cotton" (15 : α) = "initial" := by
    rw [cotton_stage]; norm_num
  have h80 : getGrowthStage "cotton" (80 : α) = "mid" := by
    rw [cotton_stage]; norm_num
  have h130 : getGrowthStage "cotton" (130 : α) = "late" := by
    rw [cotton_stage]; norm_num
  have k15 := cotton_coefficient_at (15 : α) "initial" 0.4 h15 rfl (by norm_num)
  have k80 := cotton_coefficient_at (80 : α) "mid" 1.15 h80 rfl (by norm_num)
  have k130 := cotton_coefficient_at (130 : α) "late" 0.8 h130 rfl (by norm_num)
  have r := @round2_cotton α _ _
  refine ⟨?_, ⟨h15, ?_, ?_⟩, ⟨h80, ?_, ?_⟩, ⟨h130, ?_, ?_⟩⟩
  · obtain ⟨t, k, ht, hk, h0, hr⟩ := @known_coefficient α _ _ (toLowerCase p.cropType)
      (getGrowthStage p.cropType p.daysSincePlanting) hc
      (stage_cases p.cropType p.daysSincePlanting)
    have hcoef := getCropCoefficient_own p.cropType _ t k ht hk h0
    refine ⟨t, k, ht, hk, ?_, rfl, ?_⟩
    · simp only [calculateCropET, hcoef, Option.map_some']
    · rw [calculations_cropCoefficient, hcoef, Option.map_some', hr]
  · simp only [calculateCropET, k15, Option.map_some']
  · rw [calculations_cropCoefficient]
    show Option.map _ (getCropCoefficient "cotton" (getGrowthStage "cotton" (15 : α))) = _
    rw [k15, Option.map_some', r.1.1]
  · simp only [calculateCropET, k80, Option.map_some']
  · rw [calculations_cropCoefficient]
    show Option.map _ (getCropCoefficient "cotton" (getGrowthStage "cotton" (80 : α))) = _
    rw [k80, Option.map_some', r.1.2.2]
  · simp only [calculateCropET, k130, Option.map_some']
  · rw [calculations_cropCoefficient]
    show Option.map _ (getCropCoefficient "cotton" (getGrowthStage "cotton" (130 : α))) = _
    rw [k130, Option.map_some', r.2.1]

/-- C13, at wheat on day 45 with ET0 = 5 (the wheat scenario of the test file):
stage development, Kc 0.7, crop evapotranspiration 5 * 0.7. -/
theorem C13_crop_evapotranspiration_witness :
    (toLowerCase (wheatParams : Params ℝ).cropType = "cotton" ∨
      toLowerCase (wheatParams : Params ℝ).cropType = "wheat" ∨
      toLowerCase (wheatParams : Params ℝ).cropType = "rice") ∧
    ∃ (t : StageTable ℝ) (Kc : ℝ),
      CROP_COEFFICIENTS (toLowerCase (wheatParams : Params ℝ).cropType) = some t ∧
      t.get? (getGrowthStage (wheatParams : Params ℝ).cropType
        (wheatParams : Params ℝ).daysSincePlanting) = some Kc ∧
      calculateCropET 5 (wheatParams : Params ℝ).cropType
        (wheatParams : Params ℝ).daysSincePlanting = some (5 * Kc) ∧
      (calculateIrrigationRequirement realMath wheatParams).calculations.growthStage =
        getGrowthStage (wheatParams : Params ℝ).cropType
          (wheatParams : Params ℝ).daysSincePlanting ∧
      (calculateIrrigationRequirement realMath wheatParams).calculations.cropCoefficient =
        some Kc :=
  have h : toLowerCase (wheatParams : Params ℝ).cropType = "cotton" ∨
      toLowerCase (wheatParams : Params ℝ).cropType = "wheat" ∨
      toLowerCase (wheatParams : Params ℝ).cropType = "rice" := Or.inr (Or.inl (by decide))
  ⟨h, (C13_crop_evapotranspiration realMath wheatParams 5 h).1⟩

/-- C14 (the code does not do this): the claim asks, for every crop type that
is not cotton, wheat or rice, for stage mid, coefficient 1.0 and crop
evapotranspiration ET0.  The crop type "constructor" is none of the three, yet
`GROWTH_STAGE_DURATION["constructor"]` is the inherited function `Object`:
getGrowthStage returns harvest on every day, getCropCoefficient returns a value
that is not a number, and calculateCropET returns NaN. -/
theorem C14_inherited_crop_key {α : Type} [LinearOrderedField α] (d ET0 : α) :
    (toLowerCase "constructor" ≠ "cotton" ∧ toLowerCase "constructor" ≠ "wheat" ∧
      toLowerCase "constructor" ≠ "rice") ∧
    getGrowthStage "constructor" d = "harvest" ∧
    getGrowthStage "constructor" d ≠ "mid" ∧
    (getCropCoefficient "constructor" (getGrowthStage "constructor" d) : Option α) = none ∧
    calculateCropET ET0 "constructor" d = none := by
  have hg : (GROWTH_STAGE_DURATION (toLowerCase "constructor") : Option (StageTable α)) =
      none := rfl
  have hc : (CROP_COEFFICIENTS (toLowerCase "constructor") : Option (StageTable α)) =
      none := rfl
  have hs : getGrowthStage "constructor" d = "harvest" := by
    rw [getGrowthStage_not_own _ _ hg, inheritedMember_constructor]
    rfl
  have hk : (getCropCoefficient "constructor" (getGrowthStage "constructor" d) : Option α) =
      none := by
    rw [hs]
    simp only [getCropCoefficient, hc, inheritedMember_constructor]
    rfl
  refine ⟨by decide, hs, by rw [hs]; decide, hk, ?_⟩
  simp only [calculateCropET, hk, Option.map_none']

/-! ## Reference evapotranspiration -/

/-- C15 (the code does not do this): the claim asks for a value >= 0 for every
valid weather observation (temperature above -237.3, humidity between 0 and
100, pressure above 0, solar radiation optional).  At -20 degrees without a
solar radiation the estimate takes the square root of -2.2, which is NaN, and
calculateET0 returns NaN: Math.max(0, NaN) is NaN.  Whenever the result is a
number, it is >= 0. -/
theorem C15_frost_without_radiation_gives_nan {α : Type} [LinearOrderedField α]
    (M : JsMath α) :
    ((coldWeather : WeatherData α).temperature > -237.3 ∧
      0 ≤ (coldWeather : WeatherData α).humidity ∧
      (coldWeather : WeatherData α).humidity ≤ 100 ∧
      0 < (coldWeather : WeatherData α).pressure ∧
      (coldWeather : WeatherData α).solarRadiation = none) ∧
    calculateET0 M coldWeather = none ∧
    (∀ (w : WeatherData α) (v : α), calculateET0 M w = some v → 0 ≤ v) := by
  refine ⟨?_, ?_, ?_⟩
  · refine ⟨?_, ?_, ?_, ?_, rfl⟩ <;> norm_num [coldWeather]
  · have h : mathSqrt M ((coldWeather : WeatherData α).temperature + 17.8) = none :=
      mathSqrt_of_neg M _ (by norm_num [coldWeather])
    rw [calculateET0_eq]
    simp only [calculateNetRadiation, h, Option.map_none', Option.none_bind]
    rfl
  · intro w v hv
    rw [calculateET0_eq] at hv
    cases hRn : calculateNetRadiation M w.solarRadiation w.temperature w.humidity with
    | none => rw [hRn] at hv; exact absurd hv (by simp)
    | some Rn =>
      rw [hRn, Option.map_some', Option.some.injEq] at hv
      rw [← hv]
      exact le_max_left _ _

/-- C16: calculateET0 is the specified formula.  With es = 0.6108 *
exp(17.27 T / (T + 237.3)), ea = (RH / 100) es, vpd = es - ea, delta = 4098 es
/ (T + 237.3)^2, gamma = 0.665 pressure / 100, Rn the result of
calculateNetRadiation, G = 0.1 Rn and f(u) = 0.34 (1 + 0.54 windSpeed), the
result is max(0, (delta (Rn - G) + 2.45 f(u) vpd) / (delta + gamma (1 +
70/208))); a weather object without pressure gives the result for pressure
101.3. -/
theorem C16_ET0_is_the_specified_formula {α : Type} [LinearOrderedField α]
    (M : JsMath α) (w : WeatherData α) (T RH windSpeed : α) (Rs : Option α) :
    calculateET0 M w =
      (calculateNetRadiation M w.solarRadiation w.temperature w.humidity).map
        (fun Rn => specET0 M.exp w.temperature w.humidity w.windSpeed w.pressure Rn) ∧
    (∀ Rn : α, calculateNetRadiation M w.solarRadiation w.temperature w.humidity = some Rn →
      calculateET0 M w = some (max 0
        ((4098 * (0.6108 * M.exp (17.27 * w.temperature / (w.temperature + 237.3))) /
              (w.temperature + 237.3) ^ 2 * (Rn - 0.1 * Rn) +
            2.45 * (0.34 * (1 + 0.54 * w.windSpeed)) *
              (0.6108 * M.exp (17.27 * w.temperature / (w.temperature + 237.3)) -
                w.humidity / 100 *
                  (0.6108 * M.exp (17.27 * w.temperature / (w.temperature + 237.3))))) /
          (4098 * (0.6108 * M.exp (17.27 * w.temperature / (w.temperature + 237.3))) /
              (w.temperature + 237.3) ^ 2 +
            0.665 * w.pressure / 100 * (1 + 70 / 208))))) ∧
    calculateET0 M
        { temperature := T, humidity := RH, windSpeed := windSpeed, solarRadiation := Rs } =
      calculateET0 M
        { temperature := T, humidity := RH, windSpeed := windSpeed, solarRadiation := Rs,
          pressure := 101.3 } := by
  refine ⟨calculateET0_eq M w, fun Rn hRn => ?_, rfl⟩
  rw [calculateET0_eq, hRn, Option.map_some']
  rfl

/-- C17: for the weather with temperature 25, humidity 60, wind speed 10,
pressure 101.3 and solar radiation 18.5, calculateET0 returns a positive value
between 3 and 8 mm per day. -/
theorem C17_default_weather_ET0_range :
    ∃ v : ℝ, calculateET0 realMath defaultWeather = some v ∧ 0 < v ∧ 3 ≤ v ∧ v ≤ 8 := by
  obtain ⟨v, hv, h3, h8⟩ := default_ET0_bounds realMath real_exp_default.1 real_exp_default.2
    (Real.sqrt_nonneg _) real_sqrt_calm
  exact ⟨v, hv, by linarith, h3, h8⟩

/-- C18 (the code does not do this): the claim asks that a supplied solar
radiation of 0 is used as it is.  The test `!Rs` treats the number 0 as
missing: a solar radiation of 0 gives the same result as no solar radiation,
computed from the estimate 0.16 sqrt(T + 17.8) (1 - RH / 100) 10, and at 25
degrees and 60 % humidity that result is not the value of the formula at
Rs = 0. -/
theorem C18_zero_solar_radiation_is_replaced :
    (overcastWeather : WeatherData ℝ).solarRadiation = some 0 ∧
    (∀ (M : JsMath ℝ) (T RH : ℝ),
      calculateNetRadiation M (some 0) T RH = calculateNetRadiation M none T RH) ∧
    calculateNetRadiation realMath (some 0) 25 60 =
      some (specNetRadiation (specSolarEstimate (Real.sqrt (25 + 17.8)) 60) 25
        (Real.sqrt (60 / 100))) ∧
    calculateNetRadiation realMath (some 0) 25 60 ≠
      some (specNetRadiation 0 25 (Real.sqrt (60 / 100))) := by
  have hval : calculateNetRadiation realMath (some 0) 25 60 =
      some (specNetRadiation (specSolarEstimate (Real.sqrt (25 + 17.8)) 60) 25
        (Real.sqrt (60 / 100))) := by
    rw [netRadiation_zero, netRadiation_estimated realMath 25 60 (by norm_num) (by norm_num)]
    rfl
  refine ⟨rfl, fun M T RH => netRadiation_zero M T RH, hval, ?_⟩
  rw [hval]
  intro h
  rw [Option.some.injEq] at h
  have hQ : 0 < Real.sqrt (25 + 17.8) := Real.sqrt_pos.mpr (by norm_num)
  have hS : (0.7 : ℝ) ≤ Real.sqrt (60 / 100) := real_sqrt_default
  have hQS : Real.sqrt (25 + 17.8) * 0.7 ≤ Real.sqrt (25 + 17.8) * Real.sqrt (60 / 100) :=
    mul_le_mul_of_nonneg_left hS hQ.le
  simp only [specNetRadiation, specSolarEstimate] at h
  generalize Real.sqrt (25 + 17.8) = Q at hQ hQS h
  generalize Real.sqrt (60 / 100) = S at hS hQS h
  norm_num at h hQS
  nlinarith [hQ, hQS, h]

/-! ## The soil water balance -/

/-- C19: for every soil type, a moisture equal to that soil's wilting point in
percent (sandy 5, loamy 10, clay 20, clay_loam 15) gives an available water
percent of 0; so does every moisture at or below the wilting point, and the
value is never negative.  The soil type is any string for which line 216
yields a profile `s`: a key of the table in any case, or an unknown key, which
gets the loamy profile. -/
theorem C19_no_available_water_at_wilting_point {α : Type} [LinearOrderedField α]
    (type : String) (s : SoilProfile α) (hk : lookupSoilType type = some s)
    (w : WeatherData α) (moisture cropET rainfall : α) :
    (∃ wb, calculateSoilWaterBalance { type := type, moisture := moisture } w cropET
        rainfall = some wb ∧
      wb.wiltingPoint = s.wiltingPoint * 100 ∧
      (moisture = wb.wiltingPoint → wb.currentAvailableWaterPercent = 0) ∧
      (moisture ≤ wb.wiltingPoint → wb.currentAvailableWaterPercent = 0) ∧
      0 ≤ wb.currentAvailableWaterPercent) ∧
    (∃ wb, calculateSoilWaterBalance { type := "sandy", moisture := (5 : α) } w cropET
        rainfall = some wb ∧ wb.wiltingPoint = 5 ∧ wb.currentAvailableWaterPercent = 0) ∧
    (∃ wb, calculateSoilWaterBalance { type := "loamy", moisture := (10 : α) } w cropET
        rainfall = some wb ∧ wb.wiltingPoint = 10 ∧ wb.currentAvailableWaterPercent = 0) ∧
    (∃ wb, calculateSoilWaterBalance { type := "clay", moisture := (20 : α) } w cropET
        rainfall = some wb ∧ wb.wiltingPoint = 20 ∧ wb.currentAvailableWaterPercent = 0) ∧
    (∃ wb, calculateSoilWaterBalance { type := "clay_loam", moisture := (15 : α) } w cropET
        rainfall = some wb ∧ wb.wiltingPoint = 15 ∧ wb.currentAvailableWaterPercent = 0) := by
  have hlt := lookupSoilType_lt type s hk
  refine ⟨⟨_, calculateSoilWaterBalance_of_lookup _ s hk w cropET rainfall, rfl, fun hm => ?_,
    fun hm => ?_, ?_⟩, ?_, ?_, ?_, ?_⟩
  · rw [balance_percent]
    exact percent_zero _ _ _ (le_of_eq hm)
  · rw [balance_percent]
    exact percent_zero _ _ _ hm
  · rw [balance_percent]
    exact percent_nonneg _ _ _ hlt
  · refine ⟨_, calculateSoilWaterBalance_of_lookup { type := "sandy", moisture := _ }
      SOIL_TYPES.sandy rfl w cropET rainfall, ?_, ?_⟩
    · show (SOIL_TYPES.sandy : SoilProfile α).wiltingPoint * 100 = 5
      norm_num [SOIL_TYPES.sandy]
    · rw [balance_percent]
      exact percent_zero _ _ _ (by norm_num [SOIL_TYPES.sandy])
  · refine ⟨_, calculateSoilWaterBalance_of_lookup { type := "loamy", moisture := _ }
      SOIL_TYPES.loamy rfl w cropET rainfall, ?_, ?_⟩
    · show (SOIL_TYPES.loamy : SoilProfile α).wiltingPoint * 100 = 10
      norm_num [SOIL_TYPES.loamy]
    · rw [balance_percent]
      exact percent_zero _ _ _ (by norm_num [SOIL_TYPES.loamy])
  · refine ⟨_, calculateSoilWaterBalance_of_lookup { type := "clay", moisture := _ }
      SOIL_TYPES.clay rfl w cropET rainfall, ?_, ?_⟩
    · show (SOIL_TYPES.clay : SoilProfile α).wiltingPoint * 100 = 20
      norm_num [SOIL_TYPES.clay]
    · rw [balance_percent]
      exact percent_zero _ _ _ (by norm_num [SOIL_TYPES.clay])
  · refine ⟨_, calculateSoilWaterBalance_of_lookup { type := "clay_loam", moisture := _ }
      SOIL_TYPES.clay_loam rfl w cropET rainfall, ?_, ?_⟩
    · show (SOIL_TYPES.clay_loam : SoilProfile α).wiltingPoint * 100 = 15
      norm_num [SOIL_TYPES.clay_loam]
    · rw [balance_percent]
      exact percent_zero _ _ _ (by norm_num [SOIL_TYPES.clay_loam])

/-- C19, at clay soil (wilting point 20 %) with a moisture of 18 %. -/
theorem C19_no_available_water_at_wilting_point_witness :
    (lookupSoilType "Clay" = some (SOIL_TYPES.clay : SoilProfile ℝ)) ∧
    ∃ wb, calculateSoilWaterBalance { type := "Clay", moisture := (18 : ℝ) } defaultWeather 5
        0 = some wb ∧
      wb.wiltingPoint = 20 ∧ (18 : ℝ) ≤ wb.wiltingPoint ∧
      wb.currentAvailableWaterPercent = 0 := by
  have hk : lookupSoilType "Clay" = some (SOIL_TYPES.clay : SoilProfile ℝ) := rfl
  obtain ⟨wb, h1, h2, _, h4, _⟩ :=
    (C19_no_available_water_at_wilting_point "Clay" SOIL_TYPES.clay hk defaultWeather 18 5 0).1
  have h20 : wb.wiltingPoint = 20 := by
    rw [h2]
    norm_num [SOIL_TYPES.clay]
  have hm : (18 : ℝ) ≤ wb.wiltingPoint := by
    rw [h20]
    norm_num
  exact ⟨hk, wb, h1, h20, hm, h4 hm⟩

/-- C20: for every soil type and every moisture, the available water percent
is above 100 if and only if the moisture (in percent) is above that soil's
field capacity (in percent); the value is not clamped at 100.  The soil type
is any string for which line 216 yields a profile `s`: a key of the table in
any case, or an unknown key, which gets the loamy profile. -/
theorem C20_above_field_capacity {α : Type} [LinearOrderedField α]
    (type : String) (s : SoilProfile α) (hk : lookupSoilType type = some s)
    (w : WeatherData α) (moisture cropET rainfall : α) :
    (∃ wb, calculateSoilWaterBalance { type := type, moisture := moisture } w cropET
        rainfall = some wb ∧
      wb.fieldCapacity = s.fieldCapacity * 100 ∧
      (wb.currentAvailableWaterPercent > 100 ↔ moisture > s.fieldCapacity * 100) ∧
      (wb.currentAvailableWaterPercent > 100 ↔ wb.currentMoisture > wb.fieldCapacity)) ∧
    (∃ wb, calculateSoilWaterBalance { type := type, moisture := s.fieldCapacity * 100 + 1 } w
        cropET rainfall = some wb ∧
      wb.currentAvailableWaterPercent > 100) := by
  have hlt := lookupSoilType_lt type s hk
  have hiff : (soilWaterBalance s { type := type, moisture := moisture } cropET
        rainfall).currentAvailableWaterPercent > 100 ↔ moisture > s.fieldCapacity * 100 := by
    rw [balance_percent]
    exact percent_gt_iff _ _ _ hlt
  have hcm : (soilWaterBalance s { type := type, moisture := moisture } cropET
      rainfall).currentMoisture = moisture := by
    show moisture / 100 * 100 = moisture
    field_simp
  refine ⟨⟨_, calculateSoilWaterBalance_of_lookup _ s hk w cropET rainfall, rfl, hiff, ?_⟩,
    ⟨_, calculateSoilWaterBalance_of_lookup _ s hk w cropET rainfall, ?_⟩⟩
  · rw [hcm]
    exact hiff
  · rw [balance_percent]
    exact (percent_gt_iff _ _ _ hlt).mpr (by show s.fieldCapacity * 100 + 1 > _; linarith)

/-- C20, at an unknown soil type, which gets the loamy profile (field capacity
25 %), with a moisture of 80 %: the available water percent is 1400/3, far
above 100. -/
theorem C20_above_field_capacity_witness :
    (lookupSoilType "peat" = some (SOIL_TYPES.loamy : SoilProfile ℝ)) ∧
    (80 : ℝ) > (SOIL_TYPES.loamy : SoilProfile ℝ).fieldCapacity * 100 ∧
    ∃ wb, calculateSoilWaterBalance { type := "peat", moisture := (80 : ℝ) } defaultWeather 5
        0 = some wb ∧
      wb.currentAvailableWaterPercent > 100 := by
  have hk : lookupSoilType "peat" = some (SOIL_TYPES.loamy : SoilProfile ℝ) := rfl
  have hm : (80 : ℝ) > (SOIL_TYPES.loamy : SoilProfile ℝ).fieldCapacity * 100 := by
    norm_num [SOIL_TYPES.loamy]
  obtain ⟨wb, h1, _, h3, _⟩ :=
    (C20_above_field_capacity "peat" SOIL_TYPES.loamy hk defaultWeather 80 5 0).1
  exact ⟨hk, hm, wb, h1, h3.mpr hm⟩

/-- C21: the soil type "constructor" (and "__proto__") is none of sandy,
loamy, clay and clay_loam, yet `calculateSoilWaterBalance` does not return the
water balance of the loamy profile for it: line 216 finds the member that
`SOIL_TYPES` inherits, which is truthy, so the fallback is skipped and the
returned fields are not numbers.  For an unknown soil type such as "peat" the
water balance and the whole recommendation are those of "loamy". -/
theorem C21_inherited_soil_key {α : Type} [LinearOrderedField α] [FloorRing α]
    (M : JsMath α) (w : WeatherData α) (moisture cropET rainfall : α) (p : Params α) :
    (SOIL_TYPES (toLowerCase "constructor") : Option (SoilProfile α)) = none ∧
    (lookupSoilType "constructor" : Option (SoilProfile α)) = none ∧
    calculateSoilWaterBalance { type := "constructor", moisture := moisture } w cropET
      rainfall = none ∧
    calculateSoilWaterBalance { type := "__proto__", moisture := moisture } w cropET
      rainfall = none ∧
    calculateSoilWaterBalance { type := "loamy", moisture := moisture } w cropET rainfall =
      some (soilWaterBalance SOIL_TYPES.loamy { type := "loamy", moisture := moisture } cropET
        rainfall) ∧
    calculateSoilWaterBalance { type := "constructor", moisture := moisture } w cropET
      rainfall ≠
      calculateSoilWaterBalance { type := "loamy", moisture := moisture } w cropET rainfall ∧
    calculateSoilWaterBalance { type := "peat", moisture := moisture } w cropET rainfall =
      calculateSoilWaterBalance { type := "loamy", moisture := moisture } w cropET rainfall ∧
    calculateIrrigationRequirement M { p with soilType := "peat" } =
      calculateIrrigationRequirement M { p with soilType := "loamy" } := by
  have hl : calculateSoilWaterBalance { type := "loamy", moisture := moisture } w cropET
      rainfall = some (soilWaterBalance SOIL_TYPES.loamy
        { type := "loamy", moisture := moisture } cropET rainfall) :=
    calculateSoilWaterBalance_of_lookup { type := "loamy", moisture := moisture }
      SOIL_TYPES.loamy lookupSoilType_loamy w cropET rainfall
  have hc : calculateSoilWaterBalance { type := "constructor", moisture := moisture } w cropET
      rainfall = none := rfl
  refine ⟨rfl, rfl, hc, rfl, hl, ?_, ?_, ?_⟩
  · rw [hc, hl]
    exact fun h => Option.noConfusion h
  · rw [hl]
    exact calculateSoilWaterBalance_of_lookup { type := "peat", moisture := moisture }
      SOIL_TYPES.loamy lookupSoilType_peat w cropET rainfall
  · exact requirement_of_lookup M _ _ (lookupSoilType_peat.trans lookupSoilType_loamy.symm)
      rfl rfl rfl rfl rfl rfl rfl

/-- C22: for every soil type string for which line 216 yields a profile (a
key of the table in any case, or an unknown key, which gets the loamy
profile), the profile has fieldCapacity > wiltingPoint, so the returned
availableWaterCapacity is strictly positive and currentAvailableWaterPercent
is the true quotient: multiplied by the divisor it gives the dividend back. -/
theorem C22_available_water_capacity_positive {α : Type} [LinearOrderedField α]
    (type : String) (s : SoilProfile α) (hk : lookupSoilType type = some s)
    (w : WeatherData α) (moisture cropET rainfall : α) :
    s.wiltingPoint < s.fieldCapacity ∧ s.fieldCapacity - s.wiltingPoint ≠ 0 ∧
    ∃ wb, calculateSoilWaterBalance { type := type, moisture := moisture } w cropET
        rainfall = some wb ∧
      0 < wb.availableWaterCapacity ∧ wb.wiltingPoint < wb.fieldCapacity ∧
      wb.currentAvailableWaterPercent * (s.fieldCapacity - s.wiltingPoint) =
        max 0 (moisture / 100 - s.wiltingPoint) * 100 := by
  have hlt := lookupSoilType_lt type s hk
  have hpos : 0 < s.fieldCapacity - s.wiltingPoint := sub_pos.mpr hlt
  refine ⟨hlt, hpos.ne', _, calculateSoilWaterBalance_of_lookup _ s hk w cropET rainfall,
    ?_, ?_, ?_⟩
  · show 0 < (s.fieldCapacity - s.wiltingPoint) * 100
    linarith
  · show s.wiltingPoint * 100 < s.fieldCapacity * 100
    linarith
  · rw [balance_percent]
    field_simp

/-- C22, at the soil type "Sandy" with a moisture of 8 %: the capacity is
7 % and the available water percent is 300/7. -/
theorem C22_available_water_capacity_positive_witness :
    (lookupSoilType "Sandy" = some (SOIL_TYPES.sandy : SoilProfile ℝ)) ∧
    ∃ wb, calculateSoilWaterBalance { type := "Sandy", moisture := (8 : ℝ) } defaultWeather 5
        0 = some wb ∧
      0 < wb.availableWaterCapacity ∧ wb.currentAvailableWaterPercent = 300 / 7 := by
  have hk : lookupSoilType "Sandy" = some (SOIL_TYPES.sandy : SoilProfile ℝ) := rfl
  obtain ⟨_, _, wb, h1, h2, _, h4⟩ :=
    C22_available_water_capacity_positive "Sandy" SOIL_TYPES.sandy hk defaultWeather 8 5 0
  refine ⟨hk, wb, h1, h2, ?_⟩
  norm_num [SOIL_TYPES.sandy] at h4
  linarith

/-! ## The returned recommendation -/

/-- C23: the optimalTime of a recommendation is a function of the temperature
alone: "05:00-07:00" when the temperature is above 30, "08:00-10:00" when it
is below 15, and "06:00-08:00" otherwise; in particular at exactly 15 and at
exactly 30 it is "06:00-08:00". -/
theorem C23_optimal_time {α : Type} [LinearOrderedField α] [FloorRing α]
    (M : JsMath α) (p : Params α) :
    (calculateIrrigationRequirement M p).optimalTime =
      (if p.weatherData.temperature > 30 then "05:00-07:00"
       else if p.weatherData.temperature < 15 then "08:00-10:00"
       else "06:00-08:00") ∧
    (calculateIrrigationRequirement M
      { p with weatherData := { p.weatherData with temperature := 15 } }).optimalTime =
      "06:00-08:00" ∧
    (calculateIrrigationRequirement M
      { p with weatherData := { p.weatherData with temperature := 30 } }).optimalTime =
      "06:00-08:00" ∧
    (calculateIrrigationRequirement M
      { p with weatherData := { p.weatherData with temperature := 31 } }).optimalTime =
      "05:00-07:00" ∧
    (calculateIrrigationRequirement M
      { p with weatherData := { p.weatherData with temperature := 14 } }).optimalTime =
      "08:00-10:00" := by
  refine ⟨rfl, ?_, ?_, ?_, ?_⟩
  · show (if (15 : α) > 30 then "05:00-07:00"
      else if (15 : α) < 15 then "08:00-10:00" else "06:00-08:00") = "06:00-08:00"
    norm_num
  · show (if (30 : α) > 30 then "05:00-07:00"
      else if (30 : α) < 15 then "08:00-10:00" else "06:00-08:00") = "06:00-08:00"
    norm_num
  · show (if (31 : α) > 30 then "05:00-07:00"
      else if (31 : α) < 15 then "08:00-10:00" else "06:00-08:00") = "05:00-07:00"
    norm_num
  · show (if (14 : α) > 30 then "05:00-07:00"
      else if (14 : α) < 15 then "08:00-10:00" else "06:00-08:00") = "08:00-10:00"
    norm_num

/-- C24: the reason of every recommendation starts with the message of the
threshold branch taken (critical, suboptimal, moderate or adequate soil
moisture); then the rainfall rule, the wind rule and the humidity rule, in
this order, each append their message exactly when they change the verdict;
at most one of them does, so the reason has one or two messages. -/
theorem C24_reason_fragments {α : Type} [LinearOrderedField α] [FloorRing α]
    (M : JsMath α) (p : Params α) :
    let P := (p.waterBalance M).currentAvailableWaterPercent
    let D := (p.waterBalance M).waterDeficit
    let d0 := p.threshold M
    let d1 := rainfallRule p.recentRainfall d0
    let d2 := windRule p.weatherData.windSpeed d1
    let d3 := humidityRule p.weatherData.humidity d2
    d0.reason =
      [if P < 30 then ReasonFragment.critical P
        else if P < 70 ∧ D > 2 then ReasonFragment.suboptimal P
        else if P < 70 then ReasonFragment.moderate P
        else ReasonFragment.adequate P] ∧
    d1.reason = d0.reason ++
      (if d1.recommendation = d0.recommendation then []
       else [if d0.recommendation = "irrigate" then
           ReasonFragment.rainfallDetected p.recentRainfall
         else ReasonFragment.rainfallUnnecessary p.recentRainfall]) ∧
    d2.reason = d1.reason ++
      (if d2.recommendation = d1.recommendation then []
       else [ReasonFragment.highWind p.weatherData.windSpeed]) ∧
    d3.reason = d2.reason ++
      (if d3.recommendation = d2.recommendation then []
       else [ReasonFragment.highHumidity p.weatherData.humidity]) ∧
    (calculateIrrigationRequirement M p).reason = d3.reason ∧
    (calculateIrrigationRequirement M p).recommendation = d3.recommendation ∧
    ((d1.recommendation = d0.recommendation ∧ d2.recommendation = d1.recommendation) ∨
      (d1.recommendation = d0.recommendation ∧ d3.recommendation = d2.recommendation) ∨
      (d2.recommendation = d1.recommendation ∧ d3.recommendation = d2.recommendation)) ∧
    1 ≤ (calculateIrrigationRequirement M p).reason.length ∧
    (calculateIrrigationRequirement M p).reason.length ≤ 2 := by
  intro P D d0 d1 d2 d3
  have h0 : d0.reason = _ := threshold_reason M p
  have h1 : d1.reason = _ := rainfallRule_reason p.recentRainfall d0
  have h2 : d2.reason = _ := windRule_reason p.weatherData.windSpeed d1
  have h3 : d3.reason = _ := humidityRule_reason p.weatherData.humidity d2
  have hone : (d1.recommendation = d0.recommendation ∧ d2.recommendation = d1.recommendation) ∨
      (d1.recommendation = d0.recommendation ∧ d3.recommendation = d2.recommendation) ∨
      (d2.recommendation = d1.recommendation ∧ d3.recommendation = d2.recommendation) := by
    by_cases c1 : d1.recommendation = d0.recommendation
    · by_cases c2 : d2.recommendation = d1.recommendation
      · exact Or.inl ⟨c1, c2⟩
      · have hne := windRule_changed p.weatherData.windSpeed d1 c2
        have h4 : d3 = d2 := humidityRule_of_ne p.weatherData.humidity d2 hne
        exact Or.inr (Or.inl ⟨c1, by rw [h4]⟩)
    · have hne := rainfallRule_changed p.recentRainfall d0 c1
      have h4 : d2 = d1 := windRule_of_ne p.weatherData.windSpeed d1 hne
      have h5 : d3 = d2 := by
        have hne2 : d2.recommendation ≠ "irrigate" := by rw [h4]; exact hne
        exact humidityRule_of_ne p.weatherData.humidity d2 hne2
      exact Or.inr (Or.inr ⟨by rw [h4], by rw [h5]⟩)
  have hr : (calculateIrrigationRequirement M p).reason = d3.reason := rfl
  have hl0 : d0.reason.length = 1 := by rw [h0]; rfl
  refine ⟨h0, h1, h2, h3, hr, rfl, hone, ?_, ?_⟩
  · rw [hr, h3, h2, h1]
    simp only [List.length_append, hl0]
    omega
  · rw [hr, h3, h2, h1]
    simp only [List.length_append, hl0]
    rcases hone with ⟨a, b⟩ | ⟨a, b⟩ | ⟨a, b⟩
    · rw [if_pos a, if_pos b]
      split_ifs <;> simp
    · rw [if_pos a, if_pos b]
      split_ifs <;> simp
    · rw [if_pos a, if_pos b]
      split_ifs <;> simp

/-- C25: for every input the recommendation returned by
`calculateIrrigationRequirement` is "irrigate", "maybe" or "dont-irrigate". -/
theorem C25_three_verdicts {α : Type} [LinearOrderedField α] [FloorRing α]
    (M : JsMath α) (p : Params α) :
    (calculateIrrigationRequirement M p).recommendation = "irrigate" ∨
    (calculateIrrigationRequirement M p).recommendation = "maybe" ∨
    (calculateIrrigationRequirement M p).recommendation = "dont-irrigate" := by
  rw [recommendation_eq]
  exact final_recommendation_cases _ _ _ _ (threshold_recommendation_cases M p)

/-! ## The irrigation amount -/

/-- C26: in the critical branch the irrigation amount does not bring the soil
to 70 % of the available water capacity.  For an input with an available
water percent below 30 on which no adjustment applies (recent rainfall at most
5, wind speed at most 15, humidity at most 80) and with a positive efficiency,
raising the current moisture by irrigationAmountMM * irrigationEfficiency / 10
percentage points gives 70 % of the field capacity; the available water
percent of that moisture is at most 50 for each of the four soil profiles
(sandy 340/7, loamy 50, clay 30, clay_loam 40), never 70. -/
theorem C26_critical_target_is_field_capacity {α : Type} [LinearOrderedField α] [FloorRing α]
    (M : JsMath α) (p : Params α) (s : SoilProfile α)
    (hk : lookupSoilType p.soilType = some s) (he : 0 < p.irrigationEfficiency)
    (hP : (p.waterBalance M).currentAvailableWaterPercent < 30)
    (hrain : p.recentRainfall ≤ 5) (hwind : p.weatherData.windSpeed ≤ 15)
    (hhum : p.weatherData.humidity ≤ 80) :
    (calculateIrrigationRequirement M p).recommendation = "irrigate" ∧
    specMoistureAfterIrrigation (calculateIrrigationRequirement M p) =
      s.fieldCapacity * 100 * (70 / 100) ∧
    specAvailableWaterPercent s
      (specMoistureAfterIrrigation (calculateIrrigationRequirement M p)) ≤ 50 ∧
    specAvailableWaterPercent s
      (specMoistureAfterIrrigation (calculateIrrigationRequirement M p)) ≠ 70 ∧
    specAvailableWaterPercent (SOIL_TYPES.sandy : SoilProfile α)
      (SOIL_TYPES.sandy.fieldCapacity * 100 * (70 / 100)) = 340 / 7 ∧
    specAvailableWaterPercent (SOIL_TYPES.loamy : SoilProfile α)
      (SOIL_TYPES.loamy.fieldCapacity * 100 * (70 / 100)) = 50 ∧
    specAvailableWaterPercent (SOIL_TYPES.clay : SoilProfile α)
      (SOIL_TYPES.clay.fieldCapacity * 100 * (70 / 100)) = 30 ∧
    specAvailableWaterPercent (SOIL_TYPES.clay_loam : SoilProfile α)
      (SOIL_TYPES.clay_loam.fieldCapacity * 100 * (70 / 100)) = 40 := by
  obtain ⟨h1, h2⟩ := critical_moisture_after M p he hP hrain hwind hhum
  rw [resolveSoilType_of_lookup p.soilType s hk] at h2
  have h3 := target_percent_le s (lookupSoilType_some p.soilType s hk)
  refine ⟨h1, h2, ?_, ?_, ?_, ?_, ?_, ?_⟩
  · rw [h2]
    exact h3
  · rw [h2]
    intro h4
    rw [h4] at h3
    norm_num at h3
  · norm_num [specAvailableWaterPercent, SOIL_TYPES.sandy]
  · norm_num [specAvailableWaterPercent, SOIL_TYPES.loamy]
  · norm_num [specAvailableWaterPercent, SOIL_TYPES.clay]
  · norm_num [specAvailableWaterPercent, SOIL_TYPES.clay_loam]

/-- C26, at cotton on loamy soil with 12 % moisture in the default weather:
the amount raises the moisture to 17.5 %, which is 50 % of the available water
capacity. -/
theorem C26_critical_target_is_field_capacity_witness :
    (lookupSoilType (dryLoamParams : Params ℝ).soilType =
      some (SOIL_TYPES.loamy : SoilProfile ℝ)) ∧
    0 < (dryLoamParams : Params ℝ).irrigationEfficiency ∧
    (dryLoamParams.waterBalance realMath).currentAvailableWaterPercent < 30 ∧
    ((dryLoamParams : Params ℝ).recentRainfall ≤ 5 ∧
      (dryLoamParams : Params ℝ).weatherData.windSpeed ≤ 15 ∧
      (dryLoamParams : Params ℝ).weatherData.humidity ≤ 80) ∧
    (calculateIrrigationRequirement realMath dryLoamParams).recommendation = "irrigate" ∧
    specMoistureAfterIrrigation (calculateIrrigationRequirement realMath dryLoamParams) =
      17.5 ∧
    specAvailableWaterPercent (SOIL_TYPES.loamy : SoilProfile ℝ)
      (specMoistureAfterIrrigation (calculateIrrigationRequirement realMath dryLoamParams)) =
      50 := by
  have hk : lookupSoilType (dryLoamParams : Params ℝ).soilType =
      some (SOIL_TYPES.loamy : SoilProfile ℝ) := rfl
  have he : 0 < (dryLoamParams : Params ℝ).irrigationEfficiency := by norm_num [dryLoamParams]
  have hP : (dryLoamParams.waterBalance realMath).currentAvailableWaterPercent < 30 := by
    rw [availablePercent_eq]
    norm_num [dryLoamParams, resolveSoilType_loamy, SOIL_TYPES.loamy]
  have h1 : (dryLoamParams : Params ℝ).recentRainfall ≤ 5 := by norm_num [dryLoamParams]
  have h2 : (dryLoamParams : Params ℝ).weatherData.windSpeed ≤ 15 := by
    norm_num [dryLoamParams, defaultWeather]
  have h3 : (dryLoamParams : Params ℝ).weatherData.humidity ≤ 80 := by
    norm_num [dryLoamParams, defaultWeather]
  obtain ⟨a, b, _, _, _, c, _, _⟩ :=
    C26_critical_target_is_field_capacity realMath dryLoamParams SOIL_TYPES.loamy hk he hP h1 h2
      h3
  refine ⟨hk, he, hP, ⟨h1, h2, h3⟩, a, ?_, ?_⟩
  · rw [b]
    norm_num [SOIL_TYPES.loamy]
  · rw [b]
    exact c

/-- C27 (the code does this only when the crop evapotranspiration is a
number): when the crop evapotranspiration is a number cropET, the available
water percent P is at least 30 and the efficiency e is positive, the water
applied net of efficiency, irrigationAmountMM * e, is at most 15 mm; and in the
"Moderate soil moisture" branch the water deficit D = max(0, cropET -
recentRainfall) is at most 2, so min(D, 8) is D, the threshold amount is D / e
and the cap of 8 mm never takes effect.  At -20 degrees without a solar
radiation (cotton on loamy soil at 15 % moisture, P = 100/3) the crop
evapotranspiration is NaN; there the water deficit is NaN, which is not at
most 2, and the Moderate branch is taken. -/
theorem C27_deficit_branches_bounded {α : Type} [LinearOrderedField α] [FloorRing α]
    (M : JsMath α) (p : Params α) (cropET : α) (hET : p.cropETValue M = some cropET)
    (he : 0 < p.irrigationEfficiency)
    (hP : 30 ≤ (p.waterBalance M).currentAvailableWaterPercent) :
    (calculateIrrigationRequirement M p).irrigationAmountMM * p.irrigationEfficiency ≤ 15 ∧
    (p.threshold M).irrigationAmount * p.irrigationEfficiency ≤ 15 ∧
    ((p.threshold M).reason =
        [ReasonFragment.moderate (p.waterBalance M).currentAvailableWaterPercent] →
      (p.waterBalance M).waterDeficit ≤ 2 ∧
      min (p.waterBalance M).waterDeficit 8 = (p.waterBalance M).waterDeficit ∧
      (p.threshold M).recommendation = "maybe" ∧
      (p.threshold M).irrigationAmount =
        (p.waterBalance M).waterDeficit / p.irrigationEfficiency) ∧
    (p.waterBalance M).waterDeficit = max 0 (cropET - p.recentRainfall) ∧
    0 < (criticalMoistureParams coldWeather : Params α).irrigationEfficiency ∧
    (criticalMoistureParams coldWeather).cropETValue M = none ∧
    ((criticalMoistureParams coldWeather).waterBalance M).currentAvailableWaterPercent =
      100 / 3 := by
  have hA := threshold_amount_le M p he (not_lt.mpr hP)
  have hfin := final_le p.recentRainfall p.weatherData.windSpeed p.weatherData.humidity
    (p.threshold M) (threshold_amount_nonneg M p he) (threshold_recommendation_cases M p)
  have hfrost : 0 < (criticalMoistureParams coldWeather : Params α).irrigationEfficiency := by
    norm_num [criticalMoistureParams]
  refine ⟨?_, hA, fun hm => ?_, waterDeficit_of_value M p cropET hET, hfrost,
    frost_cropET_nan M _ rfl, loamy15_percent M _ rfl rfl⟩
  · rw [irrigationAmountMM_eq]
    exact le_trans (mul_le_mul_of_nonneg_right hfin.2.1 he.le) hA
  · obtain ⟨h1, h2, h3⟩ := threshold_moderate M p hm
    have h4 : min (p.waterBalance M).waterDeficit 8 = (p.waterBalance M).waterDeficit :=
      min_eq_left (le_trans h1 (by norm_num))
    refine ⟨h1, h4, h2, ?_⟩
    rw [h3, h4]

/-- C27, at cotton on loamy soil with 15 % moisture in the default weather,
where the crop evapotranspiration is a number: P is 100/3, and the net amount
is at most 15 mm. -/
theorem C27_deficit_branches_bounded_witness :
    (∃ c : ℝ, (criticalMoistureParams defaultWeather : Params ℝ).cropETValue realMath =
      some c) ∧
    0 < (criticalMoistureParams defaultWeather : Params ℝ).irrigationEfficiency ∧
    30 ≤ ((criticalMoistureParams defaultWeather : Params ℝ).waterBalance
      realMath).currentAvailableWaterPercent ∧
    (calculateIrrigationRequirement realMath
        (criticalMoistureParams defaultWeather)).irrigationAmountMM *
      (criticalMoistureParams defaultWeather : Params ℝ).irrigationEfficiency ≤ 15 := by
  have he : 0 < (criticalMoistureParams defaultWeather : Params ℝ).irrigationEfficiency := by
    norm_num [criticalMoistureParams]
  have hP : 30 ≤ ((criticalMoistureParams defaultWeather : Params ℝ).waterBalance
      realMath).currentAvailableWaterPercent := by
    rw [availablePercent_eq]
    norm_num [criticalMoistureParams, resolveSoilType_loamy, SOIL_TYPES.loamy]
  obtain ⟨c, hc⟩ := default_cotton_cropET (criticalMoistureParams defaultWeather) rfl rfl rfl
  exact ⟨⟨c, hc⟩, he, hP, (C27_deficit_branches_bounded realMath _ c hc he hP).1⟩

/-- C28: for every input with a positive irrigationEfficiency, a final
recommendation of "dont-irrigate" has irrigationAmountMM = 0 and
irrigationAmount = 0, and a final recommendation of "irrigate" has
irrigationAmountMM > 0; in the critical branch the target of 70 % of the
field capacity is strictly above the current moisture. -/
theorem C28_verdict_and_amount_consistent {α : Type} [LinearOrderedField α] [FloorRing α]
    (M : JsMath α) (p : Params α) (he : 0 < p.irrigationEfficiency) :
    ((calculateIrrigationRequirement M p).recommendation = "dont-irrigate" →
      (calculateIrrigationRequirement M p).irrigationAmountMM = 0 ∧
      (calculateIrrigationRequirement M p).irrigationAmount = 0) ∧
    ((calculateIrrigationRequirement M p).recommendation = "irrigate" →
      0 < (calculateIrrigationRequirement M p).irrigationAmountMM) ∧
    ((p.waterBalance M).currentAvailableWaterPercent < 30 →
      (p.waterBalance M).currentMoisture < (p.waterBalance M).fieldCapacity * (70 / 100)) := by
  have hzero : (calculateIrrigationRequirement M p).irrigationAmountMM = 0 →
      (calculateIrrigationRequirement M p).irrigationAmount = 0 := by
    intro h
    rw [irrigationAmount_eq, h, zero_mul, zero_mul]
    exact mathRound_zero
  refine ⟨fun h => ?_, fun h => ?_, threshold_critical_below_target M p⟩
  · have hMM : (calculateIrrigationRequirement M p).irrigationAmountMM = 0 := by
      rw [recommendation_eq] at h
      rw [irrigationAmountMM_eq]
      rcases threshold_recommendation_cases M p with hd | hd | hd
      · exfalso
        rcases lt_or_le 5 p.recentRainfall with hr | hr
        · rw [((final_of_irrigate _ _ _ _ hd).1 hr).1] at h
          exact dont_ne_maybe h.symm
        · rcases ((final_of_irrigate p.recentRainfall p.weatherData.windSpeed
            p.weatherData.humidity _ hd).2 hr).1 with h1 | h1
          · rw [h1] at h
            exact dont_ne_maybe h.symm
          · rw [h1] at h
            exact dont_ne_irrigate h.symm
      · rcases lt_or_le 5 p.recentRainfall with hr | hr
        · exact ((final_of_maybe _ _ _ _ hd).1 hr).2
        · exfalso
          rw [(final_of_maybe _ _ _ _ hd).2 hr, hd] at h
          exact dont_ne_maybe h.symm
      · rw [final_of_dont _ _ _ _ hd]
        exact threshold_dont_amount M p hd
    exact ⟨hMM, hzero hMM⟩
  · rw [recommendation_eq] at h
    rw [irrigationAmountMM_eq]
    rcases threshold_recommendation_cases M p with hd | hd | hd
    · have hpos := threshold_irrigate_pos M p he hd
      rcases lt_or_le 5 p.recentRainfall with hr | hr
      · exfalso
        rw [((final_of_irrigate _ _ _ _ hd).1 hr).1] at h
        exact maybe_ne_irrigate h
      · rcases ((final_of_irrigate p.recentRainfall p.weatherData.windSpeed
          p.weatherData.humidity _ hd).2 hr).2 with h2 | h2 | h2 <;> rw [h2]
        · exact mul_pos hpos (by norm_num)
        · exact mul_pos hpos (by norm_num)
        · exact hpos
    · exfalso
      rcases lt_or_le 5 p.recentRainfall with hr | hr
      · rw [((final_of_maybe _ _ _ _ hd).1 hr).1] at h
        exact dont_ne_irrigate h
      · rw [(final_of_maybe _ _ _ _ hd).2 hr, hd] at h
        exact maybe_ne_irrigate h
    · exfalso
      rw [final_of_dont _ _ _ _ hd, hd] at h
      exact dont_ne_irrigate h

/-- C28, at cotton on loamy soil with 12 % moisture in the default weather:
the verdict is irrigate and the amount is positive. -/
theorem C28_verdict_and_amount_consistent_witness :
    0 < (dryLoamParams : Params ℝ).irrigationEfficiency ∧
    (calculateIrrigationRequirement realMath dryLoamParams).recommendation = "irrigate" ∧
    0 < (calculateIrrigationRequirement realMath dryLoamParams).irrigationAmountMM := by
  have he : 0 < (dryLoamParams : Params ℝ).irrigationEfficiency := by norm_num [dryLoamParams]
  have hP : (dryLoamParams.waterBalance realMath).currentAvailableWaterPercent < 30 := by
    rw [availablePercent_eq]
    norm_num [dryLoamParams, resolveSoilType_loamy, SOIL_TYPES.loamy]
  have hrec : (calculateIrrigationRequirement realMath dryLoamParams).recommendation =
      "irrigate" := by
    rw [recommendation_eq, rainfallRule_of_le _ _ (by norm_num [dryLoamParams]),
      windRule_of_le _ _ (by norm_num [dryLoamParams, defaultWeather]),
      humidityRule_of_le _ _ (by norm_num [dryLoamParams, defaultWeather])]
    simp only [Params.threshold, thresholdRule, if_pos hP]
  exact ⟨he, hrec, (C28_verdict_and_amount_consistent realMath dryLoamParams he).2.1 hrec⟩

/-! ## Projected moisture and the Penman-Monteith quotient -/

/-- C29: for every soil type for which line 216 yields a profile, and every
moisture, cropET and rainfall, the projected moistures satisfy
soilWaterAfterRainfall <= fieldCapacity and soilWaterAfterET >= wiltingPoint
(all in percent); when cropET >= 0 also soilWaterAfterET <= fieldCapacity, and
soilWaterAfterET <= soilWaterAfterRainfall or soilWaterAfterET = wiltingPoint. -/
theorem C29_projected_moisture_in_range {α : Type} [LinearOrderedField α]
    (type : String) (s : SoilProfile α) (hk : lookupSoilType type = some s)
    (w : WeatherData α) (moisture cropET rainfall : α) :
    ∃ wb, calculateSoilWaterBalance { type := type, moisture := moisture } w cropET
        rainfall = some wb ∧
      wb.fieldCapacity = s.fieldCapacity * 100 ∧ wb.wiltingPoint = s.wiltingPoint * 100 ∧
      wb.soilWaterAfterRainfall ≤ wb.fieldCapacity ∧
      wb.wiltingPoint ≤ wb.soilWaterAfterET ∧
      (0 ≤ cropET →
        wb.soilWaterAfterET ≤ wb.fieldCapacity ∧
        (wb.soilWaterAfterET ≤ wb.soilWaterAfterRainfall ∨
          wb.soilWaterAfterET = wb.wiltingPoint)) := by
  have hlt := lookupSoilType_lt type s hk
  refine ⟨_, calculateSoilWaterBalance_of_lookup _ s hk w cropET rainfall, rfl, rfl, ?_, ?_,
    fun hc => ⟨?_, ?_⟩⟩
  · show min s.fieldCapacity (moisture / 100 + rainfall / 100) * 100 ≤ s.fieldCapacity * 100
    have h1 := min_le_left s.fieldCapacity (moisture / 100 + rainfall / 100)
    linarith
  · show s.wiltingPoint * 100 ≤ max s.wiltingPoint
      (min s.fieldCapacity (moisture / 100 + rainfall / 100) - cropET / 100) * 100
    have h1 := le_max_left s.wiltingPoint
      (min s.fieldCapacity (moisture / 100 + rainfall / 100) - cropET / 100)
    linarith
  · show max s.wiltingPoint
      (min s.fieldCapacity (moisture / 100 + rainfall / 100) - cropET / 100) * 100 ≤
      s.fieldCapacity * 100
    have h1 := min_le_left s.fieldCapacity (moisture / 100 + rainfall / 100)
    have h2 : max s.wiltingPoint
        (min s.fieldCapacity (moisture / 100 + rainfall / 100) - cropET / 100) ≤
        s.fieldCapacity := max_le hlt.le (by linarith)
    linarith
  · show max s.wiltingPoint
        (min s.fieldCapacity (moisture / 100 + rainfall / 100) - cropET / 100) * 100 ≤
        min s.fieldCapacity (moisture / 100 + rainfall / 100) * 100 ∨
      max s.wiltingPoint
        (min s.fieldCapacity (moisture / 100 + rainfall / 100) - cropET / 100) * 100 =
        s.wiltingPoint * 100
    rcases le_total s.wiltingPoint
      (min s.fieldCapacity (moisture / 100 + rainfall / 100) - cropET / 100) with h | h
    · left
      rw [max_eq_right h]
      linarith
    · right
      rw [max_eq_left h]

/-- C29, at loamy soil with 24 % moisture, 3 mm of rain and a cropET of 5 mm:
the moisture after the rain is capped at the field capacity of 25 %, and after
the evapotranspiration it is 20 %. -/
theorem C29_projected_moisture_in_range_witness :
    (lookupSoilType "loamy" = some (SOIL_TYPES.loamy : SoilProfile ℝ)) ∧ (0 : ℝ) ≤ 5 ∧
    ∃ wb, calculateSoilWaterBalance { type := "loamy", moisture := (24 : ℝ) } defaultWeather 5
        3 = some wb ∧
      wb.soilWaterAfterRainfall ≤ 25 ∧ 10 ≤ wb.soilWaterAfterET ∧
      wb.soilWaterAfterET ≤ 25 := by
  have hk : lookupSoilType "loamy" = some (SOIL_TYPES.loamy : SoilProfile ℝ) := rfl
  have hc : (0 : ℝ) ≤ 5 := by norm_num
  obtain ⟨wb, h1, hf, hw, h2, h3, h4⟩ :=
    C29_projected_moisture_in_range "loamy" SOIL_TYPES.loamy hk defaultWeather 24 5 3
  have hf25 : wb.fieldCapacity = 25 := by
    rw [hf]
    norm_num [SOIL_TYPES.loamy]
  have hw10 : wb.wiltingPoint = 10 := by
    rw [hw]
    norm_num [SOIL_TYPES.loamy]
  rw [hf25] at h2
  rw [hw10] at h3
  have h5 := (h4 hc).1
  rw [hf25] at h5
  exact ⟨hk, hc, wb, h1, h2, h3, h5⟩

/-- C30: for every temperature other than -237.3 and every pressure >= 0, the
denominator delta + gamma * (1 + 70 / 208) of the Penman-Monteith quotient in
`calculateET0` is strictly positive, so the quotient is a true division:
multiplied by the denominator it gives the numerator back.  The exponential is
taken to be positive at the exponent 17.27 * T / (T + 237.3), as the
mathematical exponential is everywhere. -/
theorem C30_denominator_positive {α : Type} [LinearOrderedField α]
    (M : JsMath α) (w : WeatherData α)
    (hexp : 0 < M.exp (17.27 * w.temperature / (w.temperature + 237.3)))
    (hT : w.temperature ≠ -237.3) (hp : 0 ≤ w.pressure) :
    0 < calculateET0.denominator M w ∧
    calculateET0.denominator M w ≠ 0 ∧
    calculateET0 M w =
      (calculateNetRadiation M w.solarRadiation w.temperature w.humidity).map
        (fun Rn : α => max 0 (calculateET0.numerator M w Rn / calculateET0.denominator M w)) ∧
    ∀ Rn : α, calculateET0.numerator M w Rn / calculateET0.denominator M w *
      calculateET0.denominator M w = calculateET0.numerator M w Rn := by
  have h := denominator_pos M w hexp hT hp
  exact ⟨h, h.ne', rfl, fun Rn => div_mul_cancel₀ _ h.ne'⟩

/-- C30, at the default weather (25 degrees, 101.3 kPa) with the real
exponential. -/
theorem C30_denominator_positive_witness :
    0 < realMath.exp (17.27 * (defaultWeather : WeatherData ℝ).temperature /
      ((defaultWeather : WeatherData ℝ).temperature + 237.3)) ∧
    (defaultWeather : WeatherData ℝ).temperature ≠ -237.3 ∧
    0 ≤ (defaultWeather : WeatherData ℝ).pressure ∧
    0 < calculateET0.denominator realMath defaultWeather := by
  have hexp : 0 < realMath.exp (17.27 * (defaultWeather : WeatherData ℝ).temperature /
      ((defaultWeather : WeatherData ℝ).temperature + 237.3)) := Real.exp_pos _
  have hT : (defaultWeather : WeatherData ℝ).temperature ≠ -237.3 := by
    norm_num [defaultWeather]
  have hp : 0 ≤ (defaultWeather : WeatherData ℝ).pressure := by norm_num [defaultWeather]
  exact ⟨hexp, hT, hp, (C30_denominator_positive realMath defaultWeather hexp hT hp).1⟩

end IrrigationAlgorithm
